import Mathlib

/-!
# SOCKS5 proxy core: session driver and client helper

A shallow embedding of `src/src/server.cpp` (`Server::handle_session`,
`Server::relay`, `Server::relay_udp`) and `src/src/client.cpp`
(`Client::handshake`), with the constants of
`src/include/socks5/protocol.hpp`.

Conventions of the embedding.

* A byte is a `Nat`; bytes coming off the wire are read as they are, bytes
  the code computes by masking are written with the same arithmetic
  (`>>> 8`, `&&& 0xFF`).
* A coroutine that performs socket I/O becomes a pure function from the
  environment (the outcomes of the operating-system calls it makes) and the
  byte stream the peer delivers to a `Result`: the list of I/O operations it
  issued, in order, and the way it ended.
* `asio::async_read(socket, buffer(k bytes))` completes successfully when the
  peer delivers `k` more bytes, and fails (EOF, reset, or the surrounding
  timeout) otherwise; a read into an empty buffer completes at once.
* `with_timeout_nothrow(op, d)` is recorded by the timeout `some d` carried
  on the event; an operation awaited bare carries `none`.
* The loop body of `relay_udp` becomes a function from the locals that live
  across iterations, and the function-local `static cached_port_int`, to
  their new values and the operations issued. The static is one variable
  for the whole process: a run of one association threads it through its
  own iterations, a run of two associations threads it through both.
-/

namespace socks5

/-! ## protocol.hpp -/

def VERSION : Nat := 0x05
def RSV : Nat := 0x00

namespace AuthMethod
def NO_AUTH : Nat := 0x00
def GSSAPI : Nat := 0x01
def USER_PASS : Nat := 0x02
def NO_ACCEPTABLE : Nat := 0xFF
end AuthMethod

namespace Command
def CONNECT : Nat := 0x01
def BIND : Nat := 0x02
def UDP_ASSOCIATE : Nat := 0x03
end Command

namespace AddressType
def IPV4 : Nat := 0x01
def DOMAIN_NAME : Nat := 0x03
def IPV6 : Nat := 0x04
end AddressType

namespace Reply
def SUCCEEDED : Nat := 0x00
def GENERIC_FAILURE : Nat := 0x01
def CONNECTION_NOT_ALLOWED : Nat := 0x02
def NETWORK_UNREACHABLE : Nat := 0x03
def HOST_UNREACHABLE : Nat := 0x04
def CONNECTION_REFUSED : Nat := 0x05
def TTL_EXPIRED : Nat := 0x06
def COMMAND_NOT_SUPPORTED : Nat := 0x07
def ADDRESS_TYPE_NOT_SUPPORTED : Nat := 0x08
end Reply

/-- The `enum class Error` of protocol.hpp. -/
inductive Error where
  | SUCCESS
  | INVALID_VERSION
  | NO_ACCEPTABLE_AUTH
  | AUTH_FAILED
  | UNSUPPORTED_COMMAND
  | UNSUPPORTED_ADDRESS_TYPE
  | INVALID_FORMAT
  | CONNECTION_FAILED
deriving DecidableEq, Repr

/-! ## Addresses and endpoints (the part of asio the code relies on) -/

/-- An `asio::ip::address_v4`: its `to_bytes()` is 4 bytes long. -/
structure address_v4 where
  to_bytes : List Nat
  size : to_bytes.length = 4
deriving DecidableEq

/-- An `asio::ip::address_v6`: its `to_bytes()` is 16 bytes long. -/
structure address_v6 where
  to_bytes : List Nat
  size : to_bytes.length = 16
deriving DecidableEq

/-- An `asio::ip::address` is an IPv4 or an IPv6 address. -/
inductive address where
  | v4 (a : address_v4)
  | v6 (a : address_v6)
deriving DecidableEq

def address.is_v4 : address → Bool
  | .v4 _ => true
  | .v6 _ => false

def address.is_v6 : address → Bool
  | .v4 _ => false
  | .v6 _ => true

/-- The bytes of `to_v4().to_bytes()` or `to_v6().to_bytes()`. -/
def address.to_bytes : address → List Nat
  | .v4 a => a.to_bytes
  | .v6 a => a.to_bytes

/-- An `asio::ip::basic_endpoint`: address and 16-bit port. -/
structure endpoint where
  addr : address
  port : Nat
deriving DecidableEq

/-- The address 0.0.0.0. -/
def address_v4.any : address_v4 := ⟨[0, 0, 0, 0], rfl⟩

/-- A default-constructed endpoint, which is what `local_endpoint(ec)`
returns when it sets `ec`: IPv4 0.0.0.0, port 0. -/
def endpoint.default : endpoint := ⟨.v4 address_v4.any, 0⟩

/-! ## server.cpp: constants, events, environment -/

def HANDSHAKE_TIMEOUT : Nat := 10
def IDLE_TIMEOUT : Nat := 300

/-- Outcome of one connection attempt inside `asio::async_connect`. -/
inductive ConnectAttempt where
  | connected
  | failed
  | timed_out
deriving DecidableEq

/-- One operation issued by the session driver, in program order.
`timeout` is `some d` when the operation runs under
`with_timeout_nothrow(_, d)` and `none` when it is awaited bare. -/
inductive Event where
  /-- An `asio::async_read` of `n` bytes from the control socket; `data` is
  `none` when the read failed. -/
  | read (n : Nat) (timeout : Option Nat) (data : Option (List Nat))
  /-- An `asio::async_write` of `bytes` to the control socket. -/
  | write (bytes : List Nat) (timeout : Option Nat)
  /-- A call of `resolver.async_resolve(host, port)`. -/
  | resolve (host : List Nat) (port : Nat) (timeout : Option Nat)
  /-- A connection attempt to one endpoint made by `asio::async_connect`. -/
  | connect (ep : endpoint) (timeout : Option Nat)
  /-- Opening and binding of the UDP socket at the given endpoint. -/
  | udp_bind (ep : endpoint)
deriving DecidableEq

/-- How `handle_session` ends. -/
inductive Outcome where
  /-- A `co_return`: the control socket is destroyed, the connection closes. -/
  | closed
  /-- An exception left the coroutine (swallowed by `asio::detached`); the
  control socket is destroyed as well. -/
  | exception
  /-- Line 271: both `relay` directions run between client and target. -/
  | relay (target : endpoint)
  /-- Line 204: `relay_udp` runs with the given `client_ip`. -/
  | relay_udp (client_ip : address)
deriving DecidableEq

structure Result where
  trace : List Event
  outcome : Outcome
deriving DecidableEq

/-- Everything outside the control connection's byte stream that decides
which way `handle_session` goes. -/
structure Env where
  /-- Whether the timed write of the method-selection response `05 00`
  (line 81) completes. -/
  write_auth_ok : Bool
  /-- Whether the timed write of the SUCCEEDED reply (lines 193, 264)
  completes. -/
  write_success_ok : Bool
  /-- The string `make_address_v4(bytes).to_string()`. -/
  v4_to_string : List Nat → List Nat
  /-- The string `make_address_v6(bytes).to_string()`. -/
  v6_to_string : List Nat → List Nat
  /-- The value of `client_socket.local_endpoint()` (line 156, the throwing
  overload): `none` when the call fails. -/
  control_local : Option endpoint
  /-- Whether `udp_socket.open` followed by `udp_socket.bind` at the given
  endpoint leaves `ec` clear. -/
  udp_open_bind_ok : endpoint → Bool
  /-- The value of `udp_socket.local_endpoint(ec)` (line 171): `none` when
  `ec` is set. -/
  udp_local : Option endpoint
  /-- The value of `client_socket.remote_endpoint(ec)` (line 200): `none`
  when `ec` is set. -/
  control_remote : Option endpoint
  /-- The result of `resolver.async_resolve(host, port)` under the handshake timeout:
  `none` on error or timeout, else the ordered endpoints. The port is the
  number that `std::to_string` renders into `target_port_str`. -/
  resolve : List Nat → Nat → Option (List endpoint)
  /-- What a connection attempt to one endpoint does. -/
  connect : endpoint → ConnectAttempt
  /-- The value of `target_socket.local_endpoint(ec)` (line 236) once
  connected to the given endpoint: `none` when `ec` is set. -/
  target_local : endpoint → Option endpoint

/-! ## Socket primitives -/

/-- An `asio::async_read` of exactly `n` bytes: the bytes read and the rest of
the stream, or `none` when fewer than `n` bytes arrive. -/
def async_read (n : Nat) (input : List Nat) : Option (List Nat × List Nat) :=
  if n ≤ input.length then some (input.take n, input.drop n) else none

/-- The composed `asio::async_connect(socket, endpoints)`: the endpoints are tried in
order until one connects; the operation fails when the sequence is used up,
and the surrounding timeout ends it at an attempt that does not complete.
Returns the attempts made and the endpoint connected to, if any. -/
def async_connect (env : Env) (timeout : Option Nat) :
    List endpoint → List Event × Option endpoint
  | [] => ([], none)
  | ep :: rest =>
    match env.connect ep with
    | .connected => ([.connect ep timeout], some ep)
    | .timed_out => ([.connect ep timeout], none)
    | .failed =>
      let r := async_connect env timeout rest
      (.connect ep timeout :: r.1, r.2)

/-- The ten bytes of an error reply: `VERSION, code, RSV, 0x01, 0 × 6`. -/
def err_resp (code : Nat) : List Nat :=
  [VERSION, code, RSV, 0x01, 0, 0, 0, 0, 0, 0]

/-- Prefixes the events already issued to the result of the continuation. -/
def Result.after (es : List Event) (r : Result) : Result :=
  ⟨es ++ r.trace, r.outcome⟩

/-! ## Server::handle_session -/

/-- The two port bytes of a reply: `(bound_port >> 8) & 0xFF` and
`bound_port & 0xFF`. -/
def port_bytes (bound_port : Nat) : List Nat :=
  [(bound_port >>> 8) &&& 0xFF, bound_port &&& 0xFF]

/-- Lines 234-262: the SUCCEEDED reply of the CONNECT path, built from the
result of `target_socket.local_endpoint(ec)`. -/
def connect_success_resp (target_local : Option endpoint) : List Nat :=
  let ec : Bool := target_local.isNone
  let local_ep : endpoint := target_local.getD endpoint.default
  let success_resp := [VERSION, Reply.SUCCEEDED, RSV]
  let success_resp :=
    if !ec && local_ep.addr.is_v4 then
      success_resp ++ [AddressType.IPV4] ++ local_ep.addr.to_bytes
    else if !ec && local_ep.addr.is_v6 then
      success_resp ++ [AddressType.IPV6] ++ local_ep.addr.to_bytes
    else
      success_resp ++ [AddressType.IPV4] ++ [0, 0, 0, 0]
  let bound_port : Nat := if !ec then local_ep.port else 0
  success_resp ++ port_bytes bound_port

/-- Lines 171-191: the SUCCEEDED reply of the UDP_ASSOCIATE path, built from
the result of `udp_socket.local_endpoint(ec)`, whose `ec` is not looked at. -/
def udp_success_resp (udp_local : Option endpoint) : List Nat :=
  let udp_local_ep : endpoint := udp_local.getD endpoint.default
  let success_resp := [VERSION, Reply.SUCCEEDED, RSV]
  let success_resp :=
    if udp_local_ep.addr.is_v4 then
      success_resp ++ [AddressType.IPV4] ++ udp_local_ep.addr.to_bytes
    else
      success_resp ++ [AddressType.IPV6] ++ udp_local_ep.addr.to_bytes
  success_resp ++ port_bytes udp_local_ep.port

/-- Lines 152-205: the UDP_ASSOCIATE branch. -/
def udp_associate (env : Env) : Result :=
  match env.control_local with
  | none => ⟨[], .exception⟩
  | some local_ep_tcp =>
    let udp_bind_ep : endpoint := ⟨local_ep_tcp.addr, 0⟩
    if !env.udp_open_bind_ok udp_bind_ep then
      ⟨[.udp_bind udp_bind_ep, .write (err_resp Reply.GENERIC_FAILURE) none], .closed⟩
    else
      Result.after
        [.udp_bind udp_bind_ep,
         .write (udp_success_resp env.udp_local) (some HANDSHAKE_TIMEOUT)] <|
      if !env.write_success_ok then ⟨[], .closed⟩
      else
        match env.control_remote with
        | none => ⟨[], .closed⟩
        | some client_peer_ep => ⟨[], .relay_udp client_peer_ep.addr⟩

/-- Lines 212-271: resolution, connection, SUCCEEDED reply and hand-over to
the TCP relay. -/
def connect_to_target (env : Env) (target_host : List Nat) (target_port_str : Nat) :
    Result :=
  Result.after [.resolve target_host target_port_str (some HANDSHAKE_TIMEOUT)] <|
  match env.resolve target_host target_port_str with
  | none => ⟨[.write (err_resp Reply.HOST_UNREACHABLE) none], .closed⟩
  | some endpoints =>
    let connect_result := async_connect env (some HANDSHAKE_TIMEOUT) endpoints
    Result.after connect_result.1 <|
    match connect_result.2 with
    | none => ⟨[.write (err_resp Reply.CONNECTION_REFUSED) none], .closed⟩
    | some target =>
      Result.after
        [.write (connect_success_resp (env.target_local target)) (some HANDSHAKE_TIMEOUT)] <|
      if !env.write_success_ok then ⟨[], .closed⟩
      else ⟨[], .relay target⟩

/-- Lines 151-272: the command is dispatched ("Handle Commands"). -/
def handle_command (env : Env) (cmd : Nat) (target_host : List Nat)
    (target_port_str : Nat) : Result :=
  if cmd = Command.UDP_ASSOCIATE then
    udp_associate env
  else if cmd ≠ Command.CONNECT then
    ⟨[.write (err_resp Reply.COMMAND_NOT_SUPPORTED) none], .closed⟩
  else
    connect_to_target env target_host target_port_str

/-- Lines 142-149: the port is read; the command is then dispatched. -/
def read_port_and_dispatch (env : Env) (cmd : Nat) (target_host : List Nat)
    (input : List Nat) : Result :=
  match async_read 2 input with
  | none => ⟨[.read 2 (some HANDSHAKE_TIMEOUT) none], .closed⟩
  | some (port_bytes, _) =>
    Result.after [.read 2 (some HANDSHAKE_TIMEOUT) (some port_bytes)] <|
    let port : Nat := ((port_bytes.getD 0 0 <<< 8) ||| port_bytes.getD 1 0) % 65536
    let target_port_str := port
    handle_command env cmd target_host target_port_str

/-- Lines 86-140: the request header and the address are read; the rest of
the request is handled by `read_port_and_dispatch`. -/
def handle_request (env : Env) (input : List Nat) : Result :=
  match async_read 4 input with
  | none => ⟨[.read 4 (some HANDSHAKE_TIMEOUT) none], .closed⟩
  | some (req_header, input) =>
    Result.after [.read 4 (some HANDSHAKE_TIMEOUT) (some req_header)] <|
    if req_header.getD 0 0 ≠ VERSION then ⟨[], .closed⟩
    else
      let cmd := req_header.getD 1 0
      let atyp := req_header.getD 3 0
      if atyp = AddressType.IPV4 then
        match async_read 4 input with
        | none => ⟨[.read 4 (some HANDSHAKE_TIMEOUT) none], .closed⟩
        | some (bytes, input) =>
          Result.after [.read 4 (some HANDSHAKE_TIMEOUT) (some bytes)] <|
          read_port_and_dispatch env cmd (env.v4_to_string bytes) input
      else if atyp = AddressType.DOMAIN_NAME then
        match async_read 1 input with
        | none => ⟨[.read 1 (some HANDSHAKE_TIMEOUT) none], .closed⟩
        | some (len, input) =>
          Result.after [.read 1 (some HANDSHAKE_TIMEOUT) (some len)] <|
          match async_read (len.getD 0 0) input with
          | none => ⟨[.read (len.getD 0 0) (some HANDSHAKE_TIMEOUT) none], .closed⟩
          | some (target_host, input) =>
            Result.after [.read (len.getD 0 0) (some HANDSHAKE_TIMEOUT) (some target_host)] <|
            read_port_and_dispatch env cmd target_host input
      else if atyp = AddressType.IPV6 then
        match async_read 16 input with
        | none => ⟨[.read 16 (some HANDSHAKE_TIMEOUT) none], .closed⟩
        | some (bytes, input) =>
          Result.after [.read 16 (some HANDSHAKE_TIMEOUT) (some bytes)] <|
          read_port_and_dispatch env cmd (env.v6_to_string bytes) input
      else
        ⟨[.write (err_resp Reply.ADDRESS_TYPE_NOT_SUPPORTED) none], .closed⟩

/-- Lines 41-272: `Server::handle_session` on the byte stream `input`
delivered by the client. -/
def handle_session (env : Env) (input : List Nat) : Result :=
  match async_read 1 input with
  | none => ⟨[.read 1 (some HANDSHAKE_TIMEOUT) none], .closed⟩
  | some (version, input) =>
    Result.after [.read 1 (some HANDSHAKE_TIMEOUT) (some version)] <|
    if version.getD 0 0 ≠ VERSION then ⟨[], .closed⟩
    else
      match async_read 1 input with
      | none => ⟨[.read 1 (some HANDSHAKE_TIMEOUT) none], .closed⟩
      | some (nmethods, input) =>
        Result.after [.read 1 (some HANDSHAKE_TIMEOUT) (some nmethods)] <|
        match async_read (nmethods.getD 0 0) input with
        | none => ⟨[.read (nmethods.getD 0 0) (some HANDSHAKE_TIMEOUT) none], .closed⟩
        | some (methods, input) =>
          Result.after
            [.read (nmethods.getD 0 0) (some HANDSHAKE_TIMEOUT) (some methods)] <|
          let no_auth_supported := methods.any (fun m => m == AuthMethod.NO_AUTH)
          if !no_auth_supported then
            ⟨[.write [VERSION, AuthMethod.NO_ACCEPTABLE] none], .closed⟩
          else
            Result.after [.write [VERSION, AuthMethod.NO_AUTH] (some HANDSHAKE_TIMEOUT)] <|
            if !env.write_auth_ok then ⟨[], .closed⟩
            else handle_request env input

/-! ## Readings of a trace -/

/-- The byte strings written to the control connection, in order. -/
def writes : List Event → List (List Nat)
  | [] => []
  | .write bytes _ :: es => bytes :: writes es
  | _ :: es => writes es

/-- The number of bytes requested by the reads issued, in order. -/
def reads : List Event → List Nat
  | [] => []
  | .read n _ _ :: es => n :: reads es
  | _ :: es => reads es

/-- The reply frames of a session: every write after the method-selection
response, which is the first write of a session. -/
def reply_frames (r : Result) : List (List Nat) :=
  (writes r.trace).drop 1

/-- Whether the trace contains a resolver call or a connection attempt. -/
def resolves_or_connects : List Event → Bool
  | [] => false
  | .resolve _ _ _ :: _ => true
  | .connect _ _ :: _ => true
  | _ :: es => resolves_or_connects es

/-! ## A concrete environment -/

/-- Dotted-decimal rendering of one byte, as character codes. -/
def dec_digits (b : Nat) : List Nat :=
  if b < 10 then [48 + b]
  else if b < 100 then [48 + b / 10, 48 + b % 10]
  else [48 + b / 100, 48 + b / 10 % 10, 48 + b % 10]

/-- Dotted-decimal rendering of an IPv4 address, as character codes. -/
def dotted_decimal : List Nat → List Nat
  | [] => []
  | [b] => dec_digits b
  | b :: bs => dec_digits b ++ 46 :: dotted_decimal bs

def loopback_v4 : address := .v4 ⟨[127, 0, 0, 1], rfl⟩

def loopback_v6 : address := .v6 ⟨[0, 0, 0, 0, 0, 0, 0, 0, 0, 0, 0, 0, 0, 0, 0, 1], rfl⟩

/-- An environment in which every operation succeeds: the proxy listens on
127.0.0.1, every host resolves to 127.0.0.1 at the requested port, every
connection is accepted, and the outbound socket is bound to port 40000. -/
def env_ok : Env where
  write_auth_ok := true
  write_success_ok := true
  v4_to_string := dotted_decimal
  v6_to_string := fun bytes => bytes
  control_local := some ⟨loopback_v4, 1080⟩
  udp_open_bind_ok := fun _ => true
  udp_local := some ⟨loopback_v4, 40001⟩
  control_remote := some ⟨loopback_v4, 50000⟩
  resolve := fun _ port => some [⟨loopback_v4, port⟩]
  connect := fun _ => .connected
  target_local := fun _ => some ⟨loopback_v4, 40000⟩

/-! ## client.cpp: Client::handshake -/

/-- What `Client::handshake` throws: a `std::system_error` carrying a
`socks5::Error`, or the `asio::system_error` of a read or write that failed
(all client I/O is awaited with `asio::use_awaitable`, which throws). -/
inductive ClientError where
  | socks5 (e : Error)
  | io
deriving DecidableEq

/-- The operations `Client::handshake` issued and the exception it ended
with, `none` when it returned normally. -/
structure ClientResult where
  trace : List Event
  error : Option ClientError
deriving DecidableEq

def ClientResult.after (es : List Event) (r : ClientResult) : ClientResult :=
  ⟨es ++ r.trace, r.error⟩

/-- The environment of `Client::handshake`. -/
structure ClientEnv where
  /-- The result of `asio::ip::make_address(target_host, ec)`: `none` when
  `ec` is set, that is when the host is not an IP literal. -/
  make_address : List Nat → Option address
  /-- Whether the write of the greeting (line 15) completes. -/
  write_greeting_ok : Bool
  /-- Whether the write of the request (line 66) completes. -/
  write_request_ok : Bool

/-- Lines 32-64: the request bytes, or the `Error` thrown while they are
built. `target_host` is the host as bytes, `target_port` a `uint16_t`. -/
def Client.build_request (env : ClientEnv) (target_host : List Nat) (target_port : Nat) :
    Except Error (List Nat) :=
  let request := [VERSION, Command.CONNECT, RSV]
  let request : Except Error (List Nat) :=
    match env.make_address target_host with
    | some ip_addr =>
      if ip_addr.is_v4 then
        .ok (request ++ [AddressType.IPV4] ++ ip_addr.to_bytes)
      else
        .ok (request ++ [AddressType.IPV6] ++ ip_addr.to_bytes)
    | none =>
      let request := request ++ [AddressType.DOMAIN_NAME]
      if target_host.length > 255 then
        .error Error.INVALID_FORMAT
      else
        .ok (request ++ [target_host.length % 256] ++ target_host)
  match request with
  | .error e => .error e
  | .ok request =>
    .ok (request ++ [(target_port >>> 8) &&& 0xFF, target_port &&& 0xFF])

/-- Lines 68-99: the reply is read and checked. -/
def Client.read_reply (input : List Nat) : ClientResult :=
  match async_read 4 input with
  | none => ⟨[.read 4 none none], some .io⟩
  | some (reply_header, input) =>
    ClientResult.after [.read 4 none (some reply_header)] <|
    if reply_header.getD 0 0 ≠ VERSION then ⟨[], some (.socks5 .INVALID_VERSION)⟩
    else
      let rep := reply_header.getD 1 0
      if rep ≠ Reply.SUCCEEDED then ⟨[], some (.socks5 .CONNECTION_FAILED)⟩
      else
        let atyp := reply_header.getD 3 0
        if atyp = AddressType.IPV4 then
          match async_read 6 input with
          | none => ⟨[.read 6 none none], some .io⟩
          | some (buf, _) => ⟨[.read 6 none (some buf)], none⟩
        else if atyp = AddressType.IPV6 then
          match async_read 18 input with
          | none => ⟨[.read 18 none none], some .io⟩
          | some (buf, _) => ⟨[.read 18 none (some buf)], none⟩
        else if atyp = AddressType.DOMAIN_NAME then
          match async_read 1 input with
          | none => ⟨[.read 1 none none], some .io⟩
          | some (len, input) =>
            ClientResult.after [.read 1 none (some len)] <|
            match async_read (len.getD 0 0 + 2) input with
            | none => ⟨[.read (len.getD 0 0 + 2) none none], some .io⟩
            | some (buf, _) => ⟨[.read (len.getD 0 0 + 2) none (some buf)], none⟩
        else ⟨[], some (.socks5 .UNSUPPORTED_ADDRESS_TYPE)⟩

/-- Lines 11-100: `Client::handshake` for `target_host` and `target_port`
on the byte stream `input` delivered by the proxy. -/
def Client.handshake (env : ClientEnv) (target_host : List Nat) (target_port : Nat)
    (input : List Nat) : ClientResult :=
  let handshake_req := [VERSION, 0x01, AuthMethod.NO_AUTH]
  ClientResult.after [.write handshake_req none] <|
  if !env.write_greeting_ok then ⟨[], some .io⟩
  else
    match async_read 2 input with
    | none => ⟨[.read 2 none none], some .io⟩
    | some (handshake_resp, input) =>
      ClientResult.after [.read 2 none (some handshake_resp)] <|
      if handshake_resp.getD 0 0 ≠ VERSION then ⟨[], some (.socks5 .INVALID_VERSION)⟩
      else if handshake_resp.getD 1 0 = AuthMethod.NO_ACCEPTABLE then
        ⟨[], some (.socks5 .NO_ACCEPTABLE_AUTH)⟩
      else if handshake_resp.getD 1 0 ≠ AuthMethod.NO_AUTH then
        ⟨[], some (.socks5 .NO_ACCEPTABLE_AUTH)⟩
      else
        match Client.build_request env target_host target_port with
        | .error e => ⟨[], some (.socks5 e)⟩
        | .ok request =>
          ClientResult.after [.write request none] <|
          if !env.write_request_ok then ⟨[], some .io⟩
          else Client.read_reply input

/-- A client environment in which every write completes and only the
strings "127.0.0.1" and "::1" are IP literals. -/
def client_env_ok : ClientEnv where
  make_address := fun host =>
    if host = [49, 50, 55, 46, 48, 46, 48, 46, 49] then some loopback_v4
    else if host = [58, 58, 49] then some loopback_v6
    else none
  write_greeting_ok := true
  write_request_ok := true

/-! ## Wire-format predicates used to state the properties -/

/-- Whether `addr` is a complete address field for the address type `atyp`:
4 bytes for IPv4, a length byte followed by that many bytes for a domain
name, 16 bytes for IPv6. -/
def is_address_field (atyp : Nat) (addr : List Nat) : Bool :=
  if atyp = 0x01 then addr.length == 4
  else if atyp = 0x03 then
    match addr with
    | [] => false
    | len :: name => name.length == len
  else if atyp = 0x04 then addr.length == 16
  else false

/-- The reads the server issues for a complete address field. -/
def address_reads (atyp : Nat) (addr : List Nat) : List Event :=
  if atyp = 0x03 then
    [.read 1 (some 10) (some (addr.take 1)),
     .read (addr.length - 1) (some 10) (some (addr.drop 1))]
  else [.read addr.length (some 10) (some addr)]

/-- The host string the server derives from a complete address field. -/
def address_host (env : Env) (atyp : Nat) (addr : List Nat) : List Nat :=
  if atyp = 0x01 then env.v4_to_string addr
  else if atyp = 0x03 then addr.drop 1
  else env.v6_to_string addr

/-- The byte stream of a client that sends a greeting listing `methods` and
then the bytes `request`. -/
def greeting_then (methods request : List Nat) : List Nat :=
  0x05 :: methods.length :: (methods ++ request)

/-- The operations of a session up to and including the read of the port,
for a greeting listing `methods`, an accepted method selection, and a
request with header `05 cmd rsv atyp`, address field `addr` and port bytes
`p0 p1`. -/
def request_events (methods : List Nat) (cmd rsv atyp : Nat) (addr : List Nat)
    (p0 p1 : Nat) : List Event :=
  [.read 1 (some 10) (some [0x05]),
   .read 1 (some 10) (some [methods.length]),
   .read methods.length (some 10) (some methods),
   .write [0x05, 0x00] (some 10),
   .read 4 (some 10) (some [0x05, cmd, rsv, atyp])] ++
  address_reads atyp addr ++ [.read 2 (some 10) (some [p0, p1])]

/-- Shape of a reply frame: version 5, reserved byte 0, and either 10 bytes
with address type 1 or 22 bytes with address type 4. -/
def reply_shape (f : List Nat) : Bool :=
  f.getD 0 0 == 0x05 && f.getD 2 1 == 0x00 &&
    ((f.length == 10 && f.getD 3 0 == 0x01) || (f.length == 22 && f.getD 3 0 == 0x04))

/-- As `env_ok`, with a resolver that fails for every host. -/
def env_resolve_fails : Env := { env_ok with resolve := fun _ _ => none }

/-- As `env_ok`, with every connection attempt refused. -/
def env_refused : Env := { env_ok with connect := fun _ => .failed }

/-- As `env_ok`, with the UDP socket failing to open or bind. -/
def env_bind_fails : Env := { env_ok with udp_open_bind_ok := fun _ => false }

/-- As `env_ok`, with `client_socket.local_endpoint()` failing. -/
def env_no_control_local : Env := { env_ok with control_local := none }

/-- As `env_ok`, with `target_socket.local_endpoint(ec)` setting `ec`. -/
def env_no_target_local : Env := { env_ok with target_local := fun _ => none }

/-- As `env_ok`, with the outbound socket bound to the IPv6 address ::1. -/
def env_target_v6 : Env := { env_ok with target_local := fun _ => some ⟨loopback_v6, 40000⟩ }

/-! ## Server::relay (server.cpp lines 274-301) -/

/-- One operation of a `relay` direction. Reads and writes run under
`with_timeout_nothrow(_, IDLE_TIMEOUT)`. -/
inductive RelayEvent where
  /-- A call of `from.async_read_some` into the 8192-byte buffer: the chunk
  read, or `none` on EOF, error or timeout. -/
  | read (chunk : Option (List Nat))
  /-- A call of `asio::async_write(to, buffer(buffer, n))`, which writes all
  `n` bytes read, and whether it completed. -/
  | write (bytes : List Nat) (ok : Bool)
  /-- The cleanup `from.close(ec); to.close(ec)`. -/
  | close
deriving DecidableEq

/-- The loop of `relay`. `chunks` are the results of the successive reads on
`from` that complete before the first read that fails; `write_ok i` tells
whether the write of the chunk number `i` completes; `i` counts the chunks
handled so far. -/
def relay_loop (write_ok : Nat → Bool) : Nat → List (List Nat) → List RelayEvent
  | _, [] => [.read none, .close]
  | i, chunk :: chunks =>
    if write_ok i then
      .read (some chunk) :: .write chunk true :: relay_loop write_ok (i + 1) chunks
    else
      [.read (some chunk), .write chunk false, .close]

/-- One direction of the TCP relay: `Server::relay(from, to)`. -/
def relay (write_ok : Nat → Bool) (chunks : List (List Nat)) : List RelayEvent :=
  relay_loop write_ok 0 chunks

/-- The byte strings handed to `async_write`, in order. -/
def relay_writes : List RelayEvent → List (List Nat)
  | [] => []
  | .write bytes _ :: es => bytes :: relay_writes es
  | _ :: es => relay_writes es

/-! ## Server::relay_udp (server.cpp lines 303-469) -/

/-- The part of the environment `relay_udp` depends on. -/
structure UdpEnv where
  /-- The string `make_address_v4(bytes).to_string()`. -/
  v4_to_string : List Nat → List Nat
  /-- The string `make_address_v6(bytes).to_string()`. -/
  v6_to_string : List Nat → List Nat
  /-- The result of `resolver.async_resolve(cached_host, cached_port_str)`:
  `none` when `rec` is set, else the endpoints in order. The port is the
  number that `std::to_string` renders into `cached_port_str`. -/
  resolve : List Nat → Nat → Option (List endpoint)

/-- The local variables of `relay_udp` that live across loop iterations
(lines 306-314). `cached_port_str` is `none` for the empty string it starts
with and `some p` for `std::to_string(p)`. -/
structure UdpState where
  last_client_ep : endpoint
  client_port : Nat
  cached_host : List Nat
  cached_port_str : Option Nat
  cached_target_ep : endpoint
  has_cached_target : Bool
deriving DecidableEq

/-- The state in which `relay_udp` enters its loop. -/
def UdpState.init : UdpState where
  last_client_ep := endpoint.default
  client_port := 0
  cached_host := []
  cached_port_str := none
  cached_target_ep := endpoint.default
  has_cached_target := false

/-- What `relay_udp` does on its UDP socket and resolver. -/
inductive UdpEvent where
  /-- The call `resolver.async_resolve(cached_host, cached_port_str)` of
  line 415. -/
  | resolve (host : List Nat) (port : Nat)
  /-- The call `udp_socket.async_send_to(payload, cached_target_ep)` of
  line 427. -/
  | forward (payload : List Nat) (dest : endpoint)
  /-- The call `udp_socket.async_send_to(buffers, last_client_ep)` of line
  464; `datagram` is the header buffer followed by the payload buffer. -/
  | deliver (datagram : List Nat) (dest : endpoint)
deriving DecidableEq

/-- Which branch of the loop body handled a datagram. -/
inductive UdpPath where
  /-- The `continue` of line 331. -/
  | skipped
  /-- The branch `if (is_from_client)` (lines 349-428); `lookup` is
  `some (current_host, port_nbo, hit)` when the cache test of line 407 was
  reached, `hit` telling how it came out. -/
  | client (lookup : Option (List Nat × Nat × Bool))
  /-- The `else` branch (lines 431-464). -/
  | target
deriving DecidableEq

/-- The result of one loop iteration: the function-local `static
cached_port_int` (line 406, one variable for the whole process), the locals,
the branch taken and the operations issued. -/
structure UdpStep where
  cached_port_int : Nat
  state : UdpState
  path : UdpPath
  events : List UdpEvent
deriving DecidableEq

/-- Lines 333-346: the new `client_port` and `is_from_client`. -/
def classify (client_ip : address) (client_port : Nat) (sender_ep : endpoint) : Nat × Bool :=
  if sender_ep.addr = client_ip then
    if client_port = 0 then (sender_ep.port, true)
    else if sender_ep.port = client_port then (client_port, true)
    else (client_port, false)
  else (client_port, false)

/-- Lines 352-401: the checks and the parse of the encapsulation header of a
datagram of `n = buffer.length` bytes: `none` for each `continue`, else
`header_len`, `current_host` and `port_nbo`. -/
def client_header (env : UdpEnv) (buffer : List Nat) : Option (Nat × List Nat × Nat) :=
  let n := buffer.length
  if n < 10 then none
  else if buffer.getD 0 0 ≠ 0x00 ∨ buffer.getD 1 0 ≠ 0x00 then none
  else if buffer.getD 2 0 ≠ 0x00 then none
  else
    let atyp := buffer.getD 3 0
    let parsed : Option (Nat × List Nat) :=
      if atyp = AddressType.IPV4 then
        let header_len := 10
        if n < header_len then none
        else some (header_len, env.v4_to_string ((buffer.drop 4).take 4))
      else if atyp = AddressType.IPV6 then
        let header_len := 22
        if n < header_len then none
        else some (header_len, env.v6_to_string ((buffer.drop 4).take 16))
      else if atyp = AddressType.DOMAIN_NAME then
        let dlen := buffer.getD 4 0
        let header_len := 5 + dlen + 2
        if n < header_len then none
        else some (header_len, (buffer.drop 5).take dlen)
      else none
    match parsed with
    | none => none
    | some (header_len, current_host) =>
      let port_idx := header_len - 2
      let port_nbo := ((buffer.getD port_idx 0 <<< 8) ||| buffer.getD (port_idx + 1) 0) % 65536
      some (header_len, current_host, port_nbo)

/-- Lines 406-423: the cache test and, on a miss, the resolution. Returns
the new `cached_port_int`, the new locals, whether it was a hit, and the
resolver call made. -/
def cache_lookup (env : UdpEnv) (cached_port_int : Nat) (st : UdpState)
    (current_host : List Nat) (port_nbo : Nat) : Nat × UdpState × Bool × List UdpEvent :=
  if st.has_cached_target && port_nbo == cached_port_int && current_host == st.cached_host then
    (cached_port_int, st, true, [])
  else
    let st := { st with cached_host := current_host, cached_port_str := some port_nbo }
    let cached_port_int := port_nbo
    match env.resolve current_host port_nbo with
    | some (ep :: _) =>
      (cached_port_int, { st with cached_target_ep := ep, has_cached_target := true }, false,
        [.resolve current_host port_nbo])
    | _ =>
      (cached_port_int, { st with has_cached_target := false }, false,
        [.resolve current_host port_nbo])

/-- Lines 435-462: the datagram sent toward the client, the header for
`sender_ep` followed by the `n` bytes received. -/
def encapsulate (sender_ep : endpoint) (buffer : List Nat) : List Nat :=
  let header_buf := [0x00, 0x00, 0x00]
  let header_buf :=
    if sender_ep.addr.is_v4 then
      header_buf ++ [AddressType.IPV4] ++ sender_ep.addr.to_bytes
    else
      header_buf ++ [AddressType.IPV6] ++ sender_ep.addr.to_bytes
  let port := sender_ep.port
  let header_buf := header_buf ++ [(port >>> 8) &&& 0xFF, port &&& 0xFF]
  header_buf ++ buffer

/-- Lines 329-465: one loop iteration for a datagram of `buffer.length`
bytes received from `sender_ep` with `ec` clear. -/
def relay_udp_datagram (env : UdpEnv) (client_ip : address) (cached_port_int : Nat)
    (st : UdpState) (sender_ep : endpoint) (buffer : List Nat) : UdpStep :=
  let n := buffer.length
  if n = 0 then ⟨cached_port_int, st, .skipped, []⟩
  else
    let c := classify client_ip st.client_port sender_ep
    let st := { st with client_port := c.1 }
    let is_from_client := c.2
    if is_from_client then
      let st := { st with last_client_ep := sender_ep }
      match client_header env buffer with
      | none => ⟨cached_port_int, st, .client none, []⟩
      | some (header_len, current_host, port_nbo) =>
        let l := cache_lookup env cached_port_int st current_host port_nbo
        let st := l.2.1
        if st.has_cached_target then
          let payload := (buffer.drop header_len).take (n - header_len)
          ⟨l.1, st, .client (some (current_host, port_nbo, l.2.2.1)),
            l.2.2.2 ++ [.forward payload st.cached_target_ep]⟩
        else
          ⟨l.1, st, .client (some (current_host, port_nbo, l.2.2.1)), l.2.2.2⟩
    else
      if st.client_port = 0 then ⟨cached_port_int, st, .target, []⟩
      else
        ⟨cached_port_int, st, .target,
          [.deliver (encapsulate sender_ep buffer) st.last_client_ep]⟩

/-- What the race of lines 322-324 yields. -/
inductive UdpInput where
  /-- A datagram received from `sender_ep` with `ec` clear. -/
  | datagram (sender_ep : endpoint) (bytes : List Nat)
  /-- A receive that completed with `ec` set. -/
  | receive_error
  /-- The control socket became readable or failed: `race_result.index() == 1`. -/
  | control
deriving DecidableEq

/-- The loop of `relay_udp` over the successive outcomes of the race,
started with the given `cached_port_int` and locals: the iterations made,
in order. The loop ends at the first `control` outcome. -/
def relay_udp_loop (env : UdpEnv) (client_ip : address) :
    Nat → UdpState → List UdpInput → List UdpStep
  | _, _, [] => []
  | _, _, .control :: _ => []
  | g, st, .receive_error :: rest =>
    ⟨g, st, .skipped, []⟩ :: relay_udp_loop env client_ip g st rest
  | g, st, .datagram sender_ep bytes :: rest =>
    let s := relay_udp_datagram env client_ip g st sender_ep bytes
    s :: relay_udp_loop env client_ip s.cached_port_int s.state rest

/-- The `cached_port_int` and the locals after the given iterations. -/
def final_state (g : Nat) (st : UdpState) : List UdpStep → Nat × UdpState
  | [] => (g, st)
  | s :: rest => final_state s.cached_port_int s.state rest

/-- One association: `relay_udp` entered with `cached_port_int` holding
`g0`, whatever earlier associations of the process left there. -/
def relay_udp (env : UdpEnv) (client_ip : address) (g0 : Nat) (inputs : List UdpInput) :
    List UdpStep :=
  relay_udp_loop env client_ip g0 UdpState.init inputs

/-- Two associations of one process, each with its own locals, sharing the
one `cached_port_int`. Each scheduled datagram goes to the first association
(`false`) or to the second (`true`); the result lists the iterations with
the association that made them. -/
def relay_udp_pair (env : UdpEnv) (client_ip_a client_ip_b : address) :
    Nat → UdpState → UdpState → List (Bool × endpoint × List Nat) → List (Bool × UdpStep)
  | _, _, _, [] => []
  | g, sa, sb, (false, sender_ep, bytes) :: rest =>
    let s := relay_udp_datagram env client_ip_a g sa sender_ep bytes
    (false, s) :: relay_udp_pair env client_ip_a client_ip_b s.cached_port_int s.state sb rest
  | g, sa, sb, (true, sender_ep, bytes) :: rest =>
    let s := relay_udp_datagram env client_ip_b g sb sender_ep bytes
    (true, s) :: relay_udp_pair env client_ip_a client_ip_b s.cached_port_int sa s.state rest

/-- The `forward` operations of the iterations made by the association
`who`, in order. -/
def forwards_of (who : Bool) : List (Bool × UdpStep) → List UdpEvent
  | [] => []
  | (w, s) :: rest =>
    (if w = who then s.events.filter (fun e => match e with | .forward _ _ => true | _ => false)
     else []) ++ forwards_of who rest

/-- A UDP environment in which every host resolves to 127.0.0.1 at the
requested port. -/
def udp_env_ok : UdpEnv where
  v4_to_string := dotted_decimal
  v6_to_string := fun bytes => bytes
  resolve := fun _ port => some [⟨loopback_v4, port⟩]

/-! ## Predicates used to state the properties of the client -/

/-- Whether the request for `target_host` can be encoded: the host is an IP
literal or is at most 255 bytes long. -/
def encodable (cenv : ClientEnv) (target_host : List Nat) : Bool :=
  (cenv.make_address target_host).isSome || decide (target_host.length ≤ 255)

/-- Whether `tail` holds at least the rest of a reply frame whose
address-type byte is `atyp`: 6 bytes for type 1, 18 bytes for type 4, a
length byte and that many bytes plus 2 for type 3. -/
def reply_rest_complete (atyp : Nat) (tail : List Nat) : Bool :=
  if atyp = 0x01 then decide (6 ≤ tail.length)
  else if atyp = 0x04 then decide (18 ≤ tail.length)
  else if atyp = 0x03 then
    match tail with
    | [] => false
    | len :: name_and_port => decide (len + 2 ≤ name_and_port.length)
  else true

/-- The sizes of the reads that consume the rest of a reply frame whose
address-type byte is `atyp`. -/
def reply_rest_reads (atyp : Nat) (tail : List Nat) : List Nat :=
  if atyp = 0x01 then [6]
  else if atyp = 0x04 then [18]
  else if atyp = 0x03 then [1, tail.headD 0 + 2]
  else []

/-! ## Predicates used to state the properties of the UDP relay -/

/-- The header length a datagram declares: 10 for address type 1, 22 for
address type 4, 7 plus byte 4 for a domain name. -/
def declared_header_len (buffer : List Nat) : Nat :=
  if buffer.getD 3 0 = 0x01 then 10
  else if buffer.getD 3 0 = 0x04 then 22
  else 7 + buffer.getD 4 0

/-- The drop rule for a client-side datagram: fewer than 10 bytes, or byte 0
or byte 1 not zero, or a fragment byte that is not zero, or an address type
other than 1, 3, 4, or a declared header longer than the datagram. -/
def udp_drop_rule (buffer : List Nat) : Bool :=
  decide (buffer.length < 10) || decide (buffer.getD 0 0 ≠ 0) || decide (buffer.getD 1 0 ≠ 0) ||
    decide (buffer.getD 2 0 ≠ 0) ||
    !(decide (buffer.getD 3 0 = 0x01) || decide (buffer.getD 3 0 = 0x03) ||
      decide (buffer.getD 3 0 = 0x04)) ||
    decide (buffer.length < declared_header_len buffer)

/-- The destination host a datagram names: the address encoded in the bytes
from position 4 up to the port, as a string. -/
def header_host (env : UdpEnv) (buffer : List Nat) : List Nat :=
  if buffer.getD 3 0 = 0x01 then env.v4_to_string ((buffer.drop 4).take 4)
  else if buffer.getD 3 0 = 0x04 then env.v6_to_string ((buffer.drop 4).take 16)
  else (buffer.drop 5).take (buffer.getD 4 0)

/-- The destination port a datagram names: the two bytes that end the
header, high byte first. -/
def header_port (buffer : List Nat) : Nat :=
  buffer.getD (declared_header_len buffer - 2) 0 * 256 +
    buffer.getD (declared_header_len buffer - 1) 0

/-- The key and the outcome of the most recent destination lookup among the
given loop iterations, updated from `cur` by each iteration that reached
the lookup: the host, the port, and the endpoint the datagram was forwarded
to when the lookup succeeded. -/
def last_lookup_from (cur : Option (List Nat × Nat × Option endpoint)) :
    List UdpStep → Option (List Nat × Nat × Option endpoint)
  | [] => cur
  | s :: rest =>
    match s.path with
    | .client (some (host, port, _)) =>
      last_lookup_from
        (some (host, port, if s.state.has_cached_target then some s.state.cached_target_ep
          else none)) rest
    | _ => last_lookup_from cur rest

/-- The most recent destination lookup of an association, `none` when it has
made no lookup yet. -/
def last_lookup (steps : List UdpStep) : Option (List Nat × Nat × Option endpoint) :=
  last_lookup_from none steps

/-- The peer address 10.0.0.1 of a first control connection. -/
def client_ip_a : address := .v4 ⟨[10, 0, 0, 1], rfl⟩

/-- The peer address 10.0.0.2 of a second control connection. -/
def client_ip_b : address := .v4 ⟨[10, 0, 0, 2], rfl⟩

/-- The cache fields of an association record the lookup `cur`: they hold a
valid entry for host `h`, port `p` and endpoint `ep` exactly when `cur` is a
lookup of `h` and `p` that succeeded with `ep`. -/
def cache_records (cur : Option (List Nat × Nat × Option endpoint)) (g : Nat)
    (st : UdpState) : Prop :=
  ∀ h p ep, cur = some (h, p, some ep) ↔
    (st.has_cached_target = true ∧ st.cached_host = h ∧ g = p ∧ st.cached_target_ep = ep)

/-- A valid cache entry holds the first endpoint the resolver returns for
its host and port. -/
def cache_coherent (env : UdpEnv) (g : Nat) (st : UdpState) : Prop :=
  st.has_cached_target = true →
    ∃ rest, env.resolve st.cached_host g = some (st.cached_target_ep :: rest)

/-- The loop iteration an association makes for a datagram received after
the outcomes `inputs`, when it entered its loop with `cached_port_int`
holding `g0` and no other association ran in between. -/
def next_datagram (env : UdpEnv) (client_ip : address) (g0 : Nat) (inputs : List UdpInput)
    (sender_ep : endpoint) (buffer : List Nat) : UdpStep :=
  relay_udp_datagram env client_ip
    (final_state g0 UdpState.init (relay_udp env client_ip g0 inputs)).1
    (final_state g0 UdpState.init (relay_udp env client_ip g0 inputs)).2 sender_ep buffer

/-- The `client_port` an association holds after the outcomes `inputs`. -/
def client_port_after (env : UdpEnv) (client_ip : address) (g0 : Nat)
    (inputs : List UdpInput) : Nat :=
  (final_state g0 UdpState.init (relay_udp env client_ip g0 inputs)).2.client_port

/-- A UDP environment in which every resolution fails. -/
def udp_env_fails : UdpEnv := { udp_env_ok with resolve := fun _ _ => none }

/-! ## Predicates used to state the timeout and bounds properties -/

/-- Whether an operation of the session driver was issued under
`with_timeout_nothrow(_, HANDSHAKE_TIMEOUT)`. Opening and binding the UDP
socket is a synchronous call, not an awaited operation. -/
def Event.timed : Event → Bool
  | .read _ timeout _ => timeout == some 10
  | .write _ timeout => timeout == some 10
  | .resolve _ _ timeout => timeout == some 10
  | .connect _ timeout => timeout == some 10
  | .udp_bind _ => true

/-- An operation is either issued under the handshake timeout or is one of
the writes that precede a `co_return`: the response 05 FF or an error
reply. -/
def timed_or_final_write (e : Event) : Prop :=
  e.timed = true ∨ e = .write [0x05, 0xFF] none ∨ ∃ code, e = .write (err_resp code) none

/-- The locals of an association that has learned its client 10.0.0.1:5000
and has made no lookup yet. -/
def UdpState.learned : UdpState where
  last_client_ep := ⟨client_ip_a, 5000⟩
  client_port := 5000
  cached_host := []
  cached_port_str := none
  cached_target_ep := endpoint.default
  has_cached_target := false

/-- As `env_ok`, with every host resolving to 127.0.0.1 and then ::1 at the
requested port, the IPv4 endpoint refusing the connection and the IPv6
endpoint accepting it. -/
def env_second_accepts : Env :=
  { env_ok with
    resolve := fun _ port => some [⟨loopback_v4, port⟩, ⟨loopback_v6, port⟩]
    connect := fun ep => if ep.addr.is_v4 then .failed else .connected
    target_local := fun _ => some ⟨loopback_v6, 40000⟩ }

/-- The positions of `buffer` that the header checks and the parse of lines
352-401 read, in program order, for a datagram of `buffer.length` bytes:
bytes 0 and 1 (line 354, byte 1 only when byte 0 is zero), byte 2 (line
356), byte 3 (line 360), the address bytes copied by `memcpy` or the length
byte 4 and the domain bytes (lines 377, 388, 391, 395), and the two port
bytes (line 401). -/
def client_header_reads (buffer : List Nat) : List Nat :=
  let n := buffer.length
  if n < 10 then []
  else if buffer.getD 0 0 ≠ 0x00 then [0]
  else if buffer.getD 1 0 ≠ 0x00 then [0, 1]
  else if buffer.getD 2 0 ≠ 0x00 then [0, 1, 2]
  else
    let atyp := buffer.getD 3 0
    if atyp = AddressType.IPV4 then
      let header_len := 10
      if n < header_len then [0, 1, 2, 3]
      else
        let port_idx := header_len - 2
        [0, 1, 2, 3] ++ (List.range 4).map (fun i => 4 + i) ++ [port_idx, port_idx + 1]
    else if atyp = AddressType.IPV6 then
      let header_len := 22
      if n < header_len then [0, 1, 2, 3]
      else
        let port_idx := header_len - 2
        [0, 1, 2, 3] ++ (List.range 16).map (fun i => 4 + i) ++ [port_idx, port_idx + 1]
    else if atyp = AddressType.DOMAIN_NAME then
      let dlen := buffer.getD 4 0
      let header_len := 5 + dlen + 2
      if n < header_len then [0, 1, 2, 3, 4]
      else
        let port_idx := header_len - 2
        [0, 1, 2, 3, 4] ++ (List.range dlen).map (fun i => 5 + i) ++ [port_idx, port_idx + 1]
    else [0, 1, 2, 3]

/-- The positions read by the send of line 426-427, whose buffer starts at
`&buffer[header_len]` and is `n - header_len` bytes long. -/
def payload_reads (header_len n : Nat) : List Nat :=
  (List.range (n - header_len)).map (fun i => header_len + i)

/-! ## Lemmas on the primitives -/

theorem async_read_append (xs rest : List Nat) :
    async_read xs.length (xs ++ rest) = some (xs, rest) := by
  simp [async_read]

theorem async_read_one (a : Nat) (rest : List Nat) :
    async_read 1 (a :: rest) = some ([a], rest) := by
  simp [async_read]

theorem async_read_two (a b : Nat) (rest : List Nat) :
    async_read 2 (a :: b :: rest) = some ([a, b], rest) := by
  simp [async_read]

theorem async_read_four (a b c d : Nat) (rest : List Nat) :
    async_read 4 (a :: b :: c :: d :: rest) = some ([a, b, c, d], rest) := by
  simp [async_read]

theorem any_no_auth (methods : List Nat) :
    methods.any (fun m => m == AuthMethod.NO_AUTH) = decide (AuthMethod.NO_AUTH ∈ methods) := by
  induction methods with
  | nil => simp
  | cons m ms ih =>
    simp only [List.any_cons, ih, List.mem_cons]
    by_cases h : m = AuthMethod.NO_AUTH
    · simp [h]
    · have h2 : ¬ AuthMethod.NO_AUTH = m := fun e => h e.symm
      simp [h, h2]

theorem writes_append (a b : List Event) : writes (a ++ b) = writes a ++ writes b := by
  induction a with
  | nil => rfl
  | cons e es ih => cases e <;> simp [writes, ih]

theorem reads_append (a b : List Event) : reads (a ++ b) = reads a ++ reads b := by
  induction a with
  | nil => rfl
  | cons e es ih => cases e <;> simp [reads, ih]

theorem resolves_or_connects_append (a b : List Event) :
    resolves_or_connects (a ++ b) = (resolves_or_connects a || resolves_or_connects b) := by
  induction a with
  | nil => rfl
  | cons e es ih => cases e <;> simp [resolves_or_connects, ih]

/-- The greeting phase (lines 41-85) on a well-framed greeting. -/
theorem handle_session_greeting (env : Env) (methods rest : List Nat) :
    handle_session env (VERSION :: methods.length :: (methods ++ rest)) =
      Result.after
        [.read 1 (some HANDSHAKE_TIMEOUT) (some [VERSION]),
         .read 1 (some HANDSHAKE_TIMEOUT) (some [methods.length]),
         .read methods.length (some HANDSHAKE_TIMEOUT) (some methods)]
        (if AuthMethod.NO_AUTH ∈ methods then
          Result.after [.write [VERSION, AuthMethod.NO_AUTH] (some HANDSHAKE_TIMEOUT)]
            (if env.write_auth_ok then handle_request env rest else ⟨[], .closed⟩)
        else ⟨[.write [VERSION, AuthMethod.NO_ACCEPTABLE] none], .closed⟩) := by
  unfold handle_session
  simp only [async_read_one, List.getD_cons_zero, ne_eq, not_true_eq_false, if_false,
    async_read_append, any_no_auth]
  by_cases h : AuthMethod.NO_AUTH ∈ methods
  · cases hw : env.write_auth_ok <;> simp [h, hw, Result.after]
  · simp [h, Result.after]

/-- A session whose greeting offers NO_AUTH and whose method-selection
response is written successfully continues with the request phase. -/
theorem handle_session_selected (env : Env) (methods rest : List Nat)
    (hm : 0x00 ∈ methods) (hw : env.write_auth_ok = true) :
    handle_session env (0x05 :: methods.length :: (methods ++ rest)) =
      Result.after
        [.read 1 (some 10) (some [0x05]),
         .read 1 (some 10) (some [methods.length]),
         .read methods.length (some 10) (some methods),
         .write [0x05, 0x00] (some 10)]
        (handle_request env rest) := by
  have h := handle_session_greeting env methods rest
  have hm2 : AuthMethod.NO_AUTH ∈ methods := hm
  simp only [hm2, hw, if_true] at h
  simpa [VERSION, AuthMethod.NO_AUTH, HANDSHAKE_TIMEOUT, Result.after] using h

/-- The request phase (lines 86-149) on a request whose header has version 5
and whose address field is complete: the address is read and the rest of the
stream goes to the port read and the dispatch. -/
theorem handle_request_address (env : Env) (cmd rsv atyp : Nat) (addr rest : List Nat)
    (ha : is_address_field atyp addr = true) :
    handle_request env (0x05 :: cmd :: rsv :: atyp :: (addr ++ rest)) =
      Result.after
        (.read 4 (some 10) (some [0x05, cmd, rsv, atyp]) :: address_reads atyp addr)
        (read_port_and_dispatch env cmd (address_host env atyp addr) rest) := by
  unfold handle_request
  simp only [async_read_four, List.getD_cons_zero, List.getD_cons_succ, VERSION,
    ne_eq, not_true_eq_false, if_false, AddressType.IPV4, AddressType.DOMAIN_NAME,
    AddressType.IPV6, HANDSHAKE_TIMEOUT]
  unfold is_address_field at ha
  by_cases h1 : atyp = 1
  · subst h1
    simp at ha
    have := async_read_append addr rest
    rw [ha] at this
    simp [this, Result.after, address_reads, address_host, ha]
  · by_cases h3 : atyp = 3
    · subst h3
      cases addr with
      | nil => simp at ha
      | cons len name =>
        simp at ha
        subst ha
        simp [async_read_one, async_read_append, Result.after, address_reads, address_host]
    · by_cases h4 : atyp = 4
      · subst h4
        simp at ha
        have := async_read_append addr rest
        rw [ha] at this
        simp [this, Result.after, address_reads, address_host, ha]
      · simp [h1, h3, h4] at ha

/-- The request phase on a header with version 5 and an address type that is
none of 1, 3, 4 (lines 135-140). -/
theorem handle_request_bad_atyp (env : Env) (cmd rsv atyp : Nat) (rest : List Nat)
    (h1 : atyp ≠ 0x01) (h3 : atyp ≠ 0x03) (h4 : atyp ≠ 0x04) :
    handle_request env (0x05 :: cmd :: rsv :: atyp :: rest) =
      ⟨[.read 4 (some 10) (some [0x05, cmd, rsv, atyp]),
        .write [0x05, 0x08, 0x00, 0x01, 0, 0, 0, 0, 0, 0] none], .closed⟩ := by
  unfold handle_request
  simp [async_read_four, VERSION, AddressType.IPV4, AddressType.DOMAIN_NAME,
    AddressType.IPV6, HANDSHAKE_TIMEOUT, h1, h3, h4, Result.after, err_resp,
    Reply.ADDRESS_TYPE_NOT_SUPPORTED, RSV]

/-- A session with an accepted method selection and a complete request
frame of version 5 issues `request_events` and then dispatches the command
on the host and port it has read. -/
theorem handle_session_request (env : Env) (methods : List Nat) (cmd rsv atyp p0 p1 : Nat)
    (addr rest : List Nat) (hm : 0x00 ∈ methods) (hw : env.write_auth_ok = true)
    (ha : is_address_field atyp addr = true) :
    handle_session env
        (greeting_then methods (0x05 :: cmd :: rsv :: atyp :: (addr ++ p0 :: p1 :: rest))) =
      Result.after (request_events methods cmd rsv atyp addr p0 p1)
        (handle_command env cmd (address_host env atyp addr) (((p0 <<< 8) ||| p1) % 65536)) := by
  unfold greeting_then
  rw [handle_session_selected env methods _ hm hw, handle_request_address env cmd rsv atyp addr _ ha]
  unfold read_port_and_dispatch
  simp [async_read_two, Result.after, request_events, HANDSHAKE_TIMEOUT]

theorem writes_request_events (methods : List Nat) (cmd rsv atyp : Nat) (addr : List Nat)
    (p0 p1 : Nat) : writes (request_events methods cmd rsv atyp addr p0 p1) = [[0x05, 0x00]] := by
  unfold request_events address_reads
  by_cases h : atyp = 3 <;> simp [writes_append, writes, h]

theorem resolves_request_events (methods : List Nat) (cmd rsv atyp : Nat) (addr : List Nat)
    (p0 p1 : Nat) : resolves_or_connects (request_events methods cmd rsv atyp addr p0 p1) = false := by
  unfold request_events address_reads
  by_cases h : atyp = 3 <;> simp [resolves_or_connects_append, resolves_or_connects, h]

theorem port_bytes_eq (p : Nat) : port_bytes p = [p / 256 % 256, p % 256] := by
  have h1 : (p >>> 8) &&& 0xFF = p / 256 % 256 := by
    have := Nat.and_pow_two_sub_one_eq_mod (p >>> 8) 8
    rw [Nat.shiftRight_eq_div_pow] at this
    rw [Nat.shiftRight_eq_div_pow]
    simpa using this
  have h2 : p &&& 0xFF = p % 256 := by
    have := Nat.and_pow_two_sub_one_eq_mod p 8
    simpa using this
  simp [port_bytes, h1, h2]

theorem writes_async_connect (env : Env) (t : Option Nat) (eps : List endpoint) :
    writes (async_connect env t eps).1 = [] := by
  induction eps with
  | nil => rfl
  | cons ep rest ih =>
    unfold async_connect
    cases env.connect ep <;> simp [writes, ih]

/-- The dispatch of a command writes exactly one frame, unless the command is
UDP_ASSOCIATE and `client_socket.local_endpoint()` throws. -/
theorem writes_handle_command_length (env : Env) (cmd : Nat) (host : List Nat) (port : Nat)
    (hl : cmd = 0x03 → env.control_local ≠ none) :
    (writes (handle_command env cmd host port).trace).length = 1 := by
  unfold handle_command
  by_cases h3 : cmd = 3
  · have hl2 := hl h3
    simp only [Command.UDP_ASSOCIATE, h3, if_true]
    unfold udp_associate
    cases hc : env.control_local with
    | none => exact absurd hc hl2
    | some ep =>
      simp only []
      cases env.udp_open_bind_ok ⟨ep.addr, 0⟩ <;> cases env.write_success_ok <;>
        cases env.control_remote <;> simp [Result.after, writes]
  · simp only [Command.UDP_ASSOCIATE, h3, if_false, Command.CONNECT]
    by_cases h1 : cmd = 1
    · simp only [h1, ne_eq, not_true_eq_false, if_false]
      unfold connect_to_target
      cases env.resolve host port with
      | none => simp [Result.after, writes]
      | some eps =>
        simp only []
        cases hc : (async_connect env (some HANDSHAKE_TIMEOUT) eps).2 with
        | none => simp [Result.after, writes, writes_append, writes_async_connect]
        | some target =>
          cases env.write_success_ok <;>
            simp [Result.after, writes, writes_append, writes_async_connect]
    · simp [h1, writes]

/-- A session with an accepted method selection and a complete request frame
of version 5 writes exactly one reply frame, provided that
`client_socket.local_endpoint()` (line 156) does not throw when the command
is UDP_ASSOCIATE. -/
theorem one_reply_after_request (env : Env) (methods : List Nat) (cmd rsv atyp p0 p1 : Nat)
    (addr rest : List Nat) (hm : 0x00 ∈ methods) (hw : env.write_auth_ok = true)
    (ha : is_address_field atyp addr = true) (hl : cmd = 0x03 → env.control_local ≠ none) :
    (reply_frames (handle_session env
      (greeting_then methods (0x05 :: cmd :: rsv :: atyp :: (addr ++ p0 :: p1 :: rest))))).length
      = 1 := by
  rw [handle_session_request env methods cmd rsv atyp p0 p1 addr rest hm hw ha]
  simp only [reply_frames, Result.after, writes_append, writes_request_events]
  simpa using writes_handle_command_length env cmd _ _ hl


theorem reply_shape_err_resp (code : Nat) : reply_shape (err_resp code) = true := by
  simp [reply_shape, err_resp, VERSION, RSV]

theorem reply_shape_connect_success (l : Option endpoint) :
    reply_shape (connect_success_resp l) = true := by
  cases l with
  | none => simp [connect_success_resp, reply_shape, port_bytes, VERSION, RSV,
      Reply.SUCCEEDED, AddressType.IPV4]
  | some ep =>
    obtain ⟨a, p⟩ := ep
    cases a with
    | v4 a =>
      simp [connect_success_resp, reply_shape, port_bytes, VERSION, RSV, Reply.SUCCEEDED,
        AddressType.IPV4, address.is_v4, address.to_bytes, a.size]
    | v6 a =>
      simp [connect_success_resp, reply_shape, port_bytes, VERSION, RSV, Reply.SUCCEEDED,
        AddressType.IPV6, address.is_v4, address.is_v6, address.to_bytes, a.size]

theorem reply_shape_udp_success (l : Option endpoint) :
    reply_shape (udp_success_resp l) = true := by
  cases l with
  | none => simp [udp_success_resp, reply_shape, port_bytes, VERSION, RSV,
      Reply.SUCCEEDED, AddressType.IPV4, endpoint.default, address.is_v4, address.to_bytes,
      address_v4.any]
  | some ep =>
    obtain ⟨a, p⟩ := ep
    cases a with
    | v4 a =>
      simp [udp_success_resp, reply_shape, port_bytes, VERSION, RSV, Reply.SUCCEEDED,
        AddressType.IPV4, address.is_v4, address.to_bytes, a.size]
    | v6 a =>
      simp [udp_success_resp, reply_shape, port_bytes, VERSION, RSV, Reply.SUCCEEDED,
        AddressType.IPV6, address.is_v4, address.to_bytes, a.size]

theorem shape_handle_command (env : Env) (cmd : Nat) (host : List Nat) (port : Nat) :
    ∀ f ∈ writes (handle_command env cmd host port).trace, reply_shape f = true := by
  unfold handle_command
  by_cases h3 : cmd = 3
  · simp only [Command.UDP_ASSOCIATE, h3, if_true]
    unfold udp_associate
    cases hc : env.control_local with
    | none => simp [writes]
    | some ep =>
      simp only []
      cases env.udp_open_bind_ok ⟨ep.addr, 0⟩ <;> cases env.write_success_ok <;>
        cases env.control_remote <;>
        simp [Result.after, writes, reply_shape_err_resp, reply_shape_udp_success]
  · simp only [Command.UDP_ASSOCIATE, h3, if_false, Command.CONNECT]
    by_cases h1 : cmd = 1
    · simp only [h1, ne_eq, not_true_eq_false, if_false]
      unfold connect_to_target
      cases env.resolve host port with
      | none => simp [Result.after, writes, reply_shape_err_resp]
      | some eps =>
        simp only []
        cases hc : (async_connect env (some HANDSHAKE_TIMEOUT) eps).2 with
        | none =>
          simp [Result.after, writes, writes_append, writes_async_connect, reply_shape_err_resp]
        | some target =>
          cases env.write_success_ok <;>
            simp [Result.after, writes, writes_append, writes_async_connect,
              reply_shape_connect_success]
    · simp [h1, writes, reply_shape_err_resp]

theorem shape_read_port_and_dispatch (env : Env) (cmd : Nat) (host input : List Nat) :
    ∀ f ∈ writes (read_port_and_dispatch env cmd host input).trace, reply_shape f = true := by
  unfold read_port_and_dispatch
  split
  · simp [writes]
  · simp only [Result.after, writes_append]
    intro f hf
    simp only [List.singleton_append, writes, List.nil_append] at hf
    exact shape_handle_command env cmd host _ f hf

theorem shape_handle_request (env : Env) (input : List Nat) :
    ∀ f ∈ writes (handle_request env input).trace, reply_shape f = true := by
  unfold handle_request
  split
  · simp [writes]
  · rename_i req_header in1 _
    simp only [Result.after, List.singleton_append, writes]
    split
    · simp [writes]
    · split
      · split
        · simp [writes]
        · simp only [List.singleton_append, writes]
          exact shape_read_port_and_dispatch env _ _ _
      · split
        · split
          · simp [writes]
          · simp only [List.singleton_append, writes]
            split
            · simp [writes]
            · simp only [List.singleton_append, writes]
              exact shape_read_port_and_dispatch env _ _ _
        · split
          · split
            · simp [writes]
            · simp only [List.singleton_append, writes]
              exact shape_read_port_and_dispatch env _ _ _
          · simp [writes, reply_shape_err_resp]

/-- The reply frames of a session are the writes of its request phase, if it
reaches that phase, and there are none otherwise. -/
theorem reply_frames_handle_session (env : Env) (input : List Nat) :
    reply_frames (handle_session env input) = [] ∨
    ∃ rest, reply_frames (handle_session env input) = writes (handle_request env rest).trace := by
  unfold handle_session reply_frames
  split
  · left; simp [writes]
  · simp only [Result.after, List.singleton_append, writes]
    split
    · left; simp [writes]
    · split
      · left; simp [writes]
      · simp only [List.singleton_append, writes]
        split
        · left; simp [writes]
        · simp only [List.singleton_append, writes]
          split
          · left; simp [writes]
          · simp only [List.singleton_append, writes, List.drop_succ_cons, List.drop_zero]
            split
            · left; simp [writes]
            · right; exact ⟨_, rfl⟩

/-- The first write of a session, if there is one, is a method-selection
response: 05 00 or 05 FF. -/
theorem first_write_handle_session (env : Env) (input : List Nat) :
    (writes (handle_session env input).trace).head? = none ∨
    (writes (handle_session env input).trace).head? = some [0x05, 0x00] ∨
    (writes (handle_session env input).trace).head? = some [0x05, 0xFF] := by
  unfold handle_session
  split
  · left; simp [writes]
  · simp only [Result.after, List.singleton_append, writes]
    split
    · left; simp [writes]
    · split
      · left; simp [writes]
      · simp only [List.singleton_append, writes]
        split
        · left; simp [writes]
        · simp only [List.singleton_append, writes]
          split
          · right; right; simp [writes, VERSION, AuthMethod.NO_ACCEPTABLE]
          · right; left; simp [writes, VERSION, AuthMethod.NO_AUTH]

theorem read_reply_not_invalid_format (input : List Nat) :
    (Client.read_reply input).error ≠ some (.socks5 .INVALID_FORMAT) := by
  unfold Client.read_reply
  split
  · simp
  · simp only [ClientResult.after]
    split
    · simp
    · split
      · simp
      · split
        · split <;> simp
        · split
          · split <;> simp
          · split
            · split
              · simp
              · simp only []
                split <;> simp
            · simp

/-- The request built for the empty host when it is not an IP literal. -/
theorem build_request_empty (cenv : ClientEnv) (target_port : Nat)
    (hlit : cenv.make_address [] = none) :
    Client.build_request cenv [] target_port =
      .ok [0x05, 0x01, 0x00, 0x03, 0x00, target_port / 256 % 256, target_port % 256] := by
  have hp := port_bytes_eq target_port
  simp only [port_bytes] at hp
  simp [Client.build_request, hlit, VERSION, Command.CONNECT, RSV, AddressType.DOMAIN_NAME, hp]

/-- Building the request for the empty host never throws. -/
theorem build_request_empty_ok (cenv : ClientEnv) (target_port : Nat) :
    ∃ request, Client.build_request cenv [] target_port = .ok request := by
  unfold Client.build_request
  cases cenv.make_address [] with
  | none => simp
  | some ip => cases h : ip.is_v4 <;> simp [h]

/-! ## The properties -/

/-- C1: for every greeting with first byte 0x05, a method count N and N
method bytes, the first four operations of the session are the three reads
of the greeting and the write of exactly 05 00 when some method byte is
0x00; otherwise (N = 0 included) the session consists of the three reads and
the write of exactly 05 FF, and ends there. -/
theorem C1_method_selection (env : Env) (methods rest : List Nat) :
    if 0x00 ∈ methods then
      (handle_session env (0x05 :: methods.length :: (methods ++ rest))).trace.take 4 =
        [.read 1 (some 10) (some [0x05]),
         .read 1 (some 10) (some [methods.length]),
         .read methods.length (some 10) (some methods),
         .write [0x05, 0x00] (some 10)]
    else
      handle_session env (0x05 :: methods.length :: (methods ++ rest)) =
        ⟨[.read 1 (some 10) (some [0x05]),
          .read 1 (some 10) (some [methods.length]),
          .read methods.length (some 10) (some methods),
          .write [0x05, 0xFF] none], .closed⟩ := by
  have h := handle_session_greeting env methods rest
  simp only [VERSION, AuthMethod.NO_AUTH, AuthMethod.NO_ACCEPTABLE, HANDSHAKE_TIMEOUT] at h
  by_cases hm : 0x00 ∈ methods
  · simp only [hm, if_true] at h ⊢
    rw [h]
    simp [Result.after]
  · simp only [hm, if_false] at h ⊢
    rw [h]
    simp [Result.after]

/-- C2: for every client input whose first byte is not 0x05, the session
consists of the read of that one byte: nothing is written, nothing more is
read, and the session ends. -/
theorem C2_invalid_version (env : Env) (b : Nat) (rest : List Nat) (hb : b ≠ 0x05) :
    handle_session env (b :: rest) = ⟨[.read 1 (some 10) (some [b])], .closed⟩ ∧
    writes (handle_session env (b :: rest)).trace = [] ∧
    reads (handle_session env (b :: rest)).trace = [1] := by
  have h : handle_session env (b :: rest) = ⟨[.read 1 (some 10) (some [b])], .closed⟩ := by
    unfold handle_session
    simp [async_read_one, VERSION, hb, Result.after, HANDSHAKE_TIMEOUT]
  rw [h]
  simp [writes, reads]

/-- Instance of C2 for the input 04 01 00 of the compliance test. -/
theorem C2_invalid_version_witness :
    (4 : Nat) ≠ 0x05 ∧
    handle_session env_ok [4, 1, 0] = ⟨[.read 1 (some 10) (some [4])], .closed⟩ ∧
    writes (handle_session env_ok [4, 1, 0]).trace = [] ∧
    reads (handle_session env_ok [4, 1, 0]).trace = [1] :=
  ⟨by decide, C2_invalid_version env_ok 4 [1, 0] (by decide)⟩

/-- C3: after a successful method selection, a request with version 0x05, a
complete address field of type 1, 3 or 4, a port, and a command byte other
than 0x01 and 0x03 makes the server write exactly the ten bytes
05 07 00 01 00 00 00 00 00 00 as its only reply and end the session, with no
resolver call and no connection attempt. -/
theorem C3_unsupported_command (env : Env) (methods : List Nat) (cmd rsv atyp p0 p1 : Nat)
    (addr rest : List Nat) (hm : 0x00 ∈ methods) (hw : env.write_auth_ok = true)
    (ha : is_address_field atyp addr = true) (hc1 : cmd ≠ 0x01) (hc3 : cmd ≠ 0x03) :
    handle_session env
        (greeting_then methods (0x05 :: cmd :: rsv :: atyp :: (addr ++ p0 :: p1 :: rest))) =
      ⟨request_events methods cmd rsv atyp addr p0 p1 ++
        [.write [0x05, 0x07, 0x00, 0x01, 0, 0, 0, 0, 0, 0] none], .closed⟩ ∧
    reply_frames (handle_session env
        (greeting_then methods (0x05 :: cmd :: rsv :: atyp :: (addr ++ p0 :: p1 :: rest)))) =
      [[0x05, 0x07, 0x00, 0x01, 0, 0, 0, 0, 0, 0]] ∧
    resolves_or_connects (handle_session env
        (greeting_then methods (0x05 :: cmd :: rsv :: atyp :: (addr ++ p0 :: p1 :: rest)))).trace =
      false := by
  rw [handle_session_request env methods cmd rsv atyp p0 p1 addr rest hm hw ha]
  have hd : handle_command env cmd (address_host env atyp addr) (((p0 <<< 8) ||| p1) % 65536) =
      ⟨[.write [0x05, 0x07, 0x00, 0x01, 0, 0, 0, 0, 0, 0] none], .closed⟩ := by
    unfold handle_command
    simp [Command.UDP_ASSOCIATE, Command.CONNECT, hc1, hc3, err_resp, VERSION, RSV,
      Reply.COMMAND_NOT_SUPPORTED]
  rw [hd]
  refine ⟨by simp [Result.after], ?_, ?_⟩
  · simp only [reply_frames, Result.after, writes_append, writes_request_events]
    simp [writes]
  · simp only [Result.after, resolves_or_connects_append, resolves_request_events]
    simp [resolves_or_connects]

/-- Instance of C3 for the BIND request 05 02 00 01 7F 00 00 01 00 50. -/
theorem C3_unsupported_command_witness :
    handle_session env_ok
        (greeting_then [0x00] (0x05 :: 0x02 :: 0x00 :: 0x01 :: ([127, 0, 0, 1] ++ 0 :: 80 :: []))) =
      ⟨request_events [0x00] 0x02 0x00 0x01 [127, 0, 0, 1] 0 80 ++
        [.write [0x05, 0x07, 0x00, 0x01, 0, 0, 0, 0, 0, 0] none], .closed⟩ ∧
    reply_frames (handle_session env_ok
        (greeting_then [0x00] (0x05 :: 0x02 :: 0x00 :: 0x01 :: ([127, 0, 0, 1] ++ 0 :: 80 :: [])))) =
      [[0x05, 0x07, 0x00, 0x01, 0, 0, 0, 0, 0, 0]] ∧
    resolves_or_connects (handle_session env_ok
        (greeting_then [0x00] (0x05 :: 0x02 :: 0x00 :: 0x01 :: ([127, 0, 0, 1] ++ 0 :: 80 :: [])))).trace =
      false :=
  C3_unsupported_command env_ok [0x00] 0x02 0x00 0x01 0 80 [127, 0, 0, 1] []
    (by decide) rfl (by decide) (by decide) (by decide)

/-- C4: after a successful method selection, a four-byte request header with
version 0x05 and an address-type byte other than 1, 3 and 4 makes the server
write exactly 05 08 00 01 00 00 00 00 00 00 and end the session, whatever
the command byte, and the read of the four-byte header is its last read. -/
theorem C4_unsupported_address_type (env : Env) (methods : List Nat) (cmd rsv atyp : Nat)
    (rest : List Nat) (hm : 0x00 ∈ methods) (hw : env.write_auth_ok = true)
    (h1 : atyp ≠ 0x01) (h3 : atyp ≠ 0x03) (h4 : atyp ≠ 0x04) :
    handle_session env (greeting_then methods (0x05 :: cmd :: rsv :: atyp :: rest)) =
      ⟨[.read 1 (some 10) (some [0x05]),
        .read 1 (some 10) (some [methods.length]),
        .read methods.length (some 10) (some methods),
        .write [0x05, 0x00] (some 10),
        .read 4 (some 10) (some [0x05, cmd, rsv, atyp]),
        .write [0x05, 0x08, 0x00, 0x01, 0, 0, 0, 0, 0, 0] none], .closed⟩ ∧
    reply_frames (handle_session env (greeting_then methods (0x05 :: cmd :: rsv :: atyp :: rest))) =
      [[0x05, 0x08, 0x00, 0x01, 0, 0, 0, 0, 0, 0]] ∧
    reads (handle_session env (greeting_then methods (0x05 :: cmd :: rsv :: atyp :: rest))).trace =
      [1, 1, methods.length, 4] := by
  unfold greeting_then
  rw [handle_session_selected env methods _ hm hw,
    handle_request_bad_atyp env cmd rsv atyp rest h1 h3 h4]
  simp [Result.after, reply_frames, writes, reads]

/-- Instance of C4 for a request header with address type 0x05 and the
unsupported command 0x02. -/
theorem C4_unsupported_address_type_witness :
    handle_session env_ok (greeting_then [0x00] (0x05 :: 0x02 :: 0x00 :: 0x05 :: [0, 0])) =
      ⟨[.read 1 (some 10) (some [0x05]),
        .read 1 (some 10) (some [1]),
        .read 1 (some 10) (some [0x00]),
        .write [0x05, 0x00] (some 10),
        .read 4 (some 10) (some [0x05, 0x02, 0x00, 0x05]),
        .write [0x05, 0x08, 0x00, 0x01, 0, 0, 0, 0, 0, 0] none], .closed⟩ ∧
    reply_frames (handle_session env_ok (greeting_then [0x00] (0x05 :: 0x02 :: 0x00 :: 0x05 :: [0, 0]))) =
      [[0x05, 0x08, 0x00, 0x01, 0, 0, 0, 0, 0, 0]] ∧
    reads (handle_session env_ok (greeting_then [0x00] (0x05 :: 0x02 :: 0x00 :: 0x05 :: [0, 0]))).trace =
      [1, 1, 1, 4] :=
  C4_unsupported_address_type env_ok [0x00] 0x02 0x00 0x05 [0, 0]
    (by decide) rfl (by decide) (by decide) (by decide)

/-- C5: after a successful method selection and a complete request, (1) on
CONNECT a failed or timed-out resolution makes the session end with the
single reply 05 04 00 01 00 00 00 00 00 00; (2) on CONNECT a resolution
followed by a failed or timed-out connection makes it end with the single
reply 05 05 00 01 00 00 00 00 00 00; (3) on UDP_ASSOCIATE a failure to open
or bind the UDP socket makes it end with the single reply
05 01 00 01 00 00 00 00 00 00. In each case the session is closed and no
relay is entered. -/
theorem C5_failure_reply_mapping (env : Env) (methods : List Nat) (rsv atyp p0 p1 : Nat)
    (addr rest : List Nat) (hm : 0x00 ∈ methods) (hw : env.write_auth_ok = true)
    (ha : is_address_field atyp addr = true) :
    (env.resolve (address_host env atyp addr) (((p0 <<< 8) ||| p1) % 65536) = none →
      handle_session env
          (greeting_then methods (0x05 :: 0x01 :: rsv :: atyp :: (addr ++ p0 :: p1 :: rest))) =
        ⟨request_events methods 0x01 rsv atyp addr p0 p1 ++
          [.resolve (address_host env atyp addr) (((p0 <<< 8) ||| p1) % 65536) (some 10),
           .write [0x05, 0x04, 0x00, 0x01, 0, 0, 0, 0, 0, 0] none], .closed⟩) ∧
    (∀ endpoints,
      env.resolve (address_host env atyp addr) (((p0 <<< 8) ||| p1) % 65536) = some endpoints →
      (async_connect env (some 10) endpoints).2 = none →
      handle_session env
          (greeting_then methods (0x05 :: 0x01 :: rsv :: atyp :: (addr ++ p0 :: p1 :: rest))) =
        ⟨request_events methods 0x01 rsv atyp addr p0 p1 ++
          [.resolve (address_host env atyp addr) (((p0 <<< 8) ||| p1) % 65536) (some 10)] ++
          (async_connect env (some 10) endpoints).1 ++
          [.write [0x05, 0x05, 0x00, 0x01, 0, 0, 0, 0, 0, 0] none], .closed⟩) ∧
    (∀ local_ep_tcp,
      env.control_local = some local_ep_tcp →
      env.udp_open_bind_ok ⟨local_ep_tcp.addr, 0⟩ = false →
      handle_session env
          (greeting_then methods (0x05 :: 0x03 :: rsv :: atyp :: (addr ++ p0 :: p1 :: rest))) =
        ⟨request_events methods 0x03 rsv atyp addr p0 p1 ++
          [.udp_bind ⟨local_ep_tcp.addr, 0⟩,
           .write [0x05, 0x01, 0x00, 0x01, 0, 0, 0, 0, 0, 0] none], .closed⟩) := by
  refine ⟨?_, ?_, ?_⟩
  · intro hr
    rw [handle_session_request env methods 1 rsv atyp p0 p1 addr rest hm hw ha]
    simp [handle_command, connect_to_target, Command.UDP_ASSOCIATE, Command.CONNECT, hr,
      Result.after, err_resp, VERSION, RSV, Reply.HOST_UNREACHABLE, HANDSHAKE_TIMEOUT]
  · intro endpoints hr hc
    rw [handle_session_request env methods 1 rsv atyp p0 p1 addr rest hm hw ha]
    simp [handle_command, connect_to_target, Command.UDP_ASSOCIATE, Command.CONNECT, hr,
      Result.after, err_resp, VERSION, RSV, Reply.CONNECTION_REFUSED, HANDSHAKE_TIMEOUT, hc]
  · intro local_ep_tcp hl hb
    rw [handle_session_request env methods 3 rsv atyp p0 p1 addr rest hm hw ha]
    simp [handle_command, udp_associate, Command.UDP_ASSOCIATE, hl, hb,
      Result.after, err_resp, VERSION, RSV, Reply.GENERIC_FAILURE]

/-- Instances of C5: a resolver that fails, a target that refuses, a UDP
socket that cannot be bound. -/
theorem C5_failure_reply_mapping_witness :
    handle_session env_resolve_fails
        (greeting_then [0x00] (0x05 :: 0x01 :: 0x00 :: 0x01 :: ([127, 0, 0, 1] ++ 0 :: 1 :: []))) =
      ⟨request_events [0x00] 0x01 0x00 0x01 [127, 0, 0, 1] 0 1 ++
        [.resolve [49, 50, 55, 46, 48, 46, 48, 46, 49] 1 (some 10),
         .write [0x05, 0x04, 0x00, 0x01, 0, 0, 0, 0, 0, 0] none], .closed⟩ ∧
    handle_session env_refused
        (greeting_then [0x00] (0x05 :: 0x01 :: 0x00 :: 0x01 :: ([127, 0, 0, 1] ++ 0 :: 1 :: []))) =
      ⟨request_events [0x00] 0x01 0x00 0x01 [127, 0, 0, 1] 0 1 ++
        [.resolve [49, 50, 55, 46, 48, 46, 48, 46, 49] 1 (some 10)] ++
        [.connect ⟨loopback_v4, 1⟩ (some 10)] ++
        [.write [0x05, 0x05, 0x00, 0x01, 0, 0, 0, 0, 0, 0] none], .closed⟩ ∧
    handle_session env_bind_fails
        (greeting_then [0x00] (0x05 :: 0x03 :: 0x00 :: 0x01 :: ([0, 0, 0, 0] ++ 0 :: 0 :: []))) =
      ⟨request_events [0x00] 0x03 0x00 0x01 [0, 0, 0, 0] 0 0 ++
        [.udp_bind ⟨loopback_v4, 0⟩,
         .write [0x05, 0x01, 0x00, 0x01, 0, 0, 0, 0, 0, 0] none], .closed⟩ :=
  ⟨(C5_failure_reply_mapping env_resolve_fails [0x00] 0x00 0x01 0 1 [127, 0, 0, 1] []
      (by decide) rfl (by decide)).1 rfl,
   (C5_failure_reply_mapping env_refused [0x00] 0x00 0x01 0 1 [127, 0, 0, 1] []
      (by decide) rfl (by decide)).2.1 [⟨loopback_v4, 1⟩] rfl rfl,
   (C5_failure_reply_mapping env_bind_fails [0x00] 0x00 0x01 0 0 [0, 0, 0, 0] []
      (by decide) rfl (by decide)).2.2 ⟨loopback_v4, 1080⟩ rfl rfl⟩

/-- C6, evaluated where it fails: the client sends the greeting 05 01 00 and
the complete UDP_ASSOCIATE request 05 03 00 01 00 00 00 00 00 00, and
`client_socket.local_endpoint()` (line 156) throws. The request frame is
read in full, the session ends by the exception, and no reply frame has been
written. -/
theorem C6_no_reply_when_local_endpoint_throws :
    handle_session env_no_control_local
        (greeting_then [0x00] (0x05 :: 0x03 :: 0x00 :: 0x01 :: ([0, 0, 0, 0] ++ 0 :: 0 :: []))) =
      ⟨request_events [0x00] 0x03 0x00 0x01 [0, 0, 0, 0] 0 0, .exception⟩ ∧
    reply_frames (handle_session env_no_control_local
        (greeting_then [0x00] (0x05 :: 0x03 :: 0x00 :: 0x01 :: ([0, 0, 0, 0] ++ 0 :: 0 :: [])))) =
      [] := by
  decide

/-- C7, counterexample: the client sends the greeting 05 01 00, the server
writes 05 00, and the client sends the request 04 01 00 01 7F 00 00 01 00 50
whose version byte is not 0x05. The session ends after the read of the
request header and the only bytes written are 05 00: no error reply. -/
theorem C7_counterexample :
    handle_session env_ok
        (greeting_then [0x00] [0x04, 0x01, 0x00, 0x01, 127, 0, 0, 1, 0, 80]) =
      ⟨[.read 1 (some 10) (some [0x05]),
        .read 1 (some 10) (some [1]),
        .read 1 (some 10) (some [0x00]),
        .write [0x05, 0x00] (some 10),
        .read 4 (some 10) (some [0x04, 0x01, 0x00, 0x01])], .closed⟩ ∧
    ¬ (reply_frames (handle_session env_ok
        (greeting_then [0x00] [0x04, 0x01, 0x00, 0x01, 127, 0, 0, 1, 0, 80]))).length = 1 := by
  decide

/-- C7, amended: once the server has written 05 00, (1) a request header
whose version byte is not 0x05 ends the session with no reply; (2) a request
header with version 0x05 and an address type other than 1, 3, 4 gets the one
error reply 05 08 00 01 00 00 00 00 00 00; (3) a complete request with
version 0x05 and a command other than 1 and 3 gets the one error reply
05 07 00 01 00 00 00 00 00 00; and (4) a first byte other than 0x05, before
the method-selection response, ends the session with nothing written. -/
theorem C7_reply_after_method_selection (env : Env) (methods : List Nat)
    (v cmd rsv atyp p0 p1 : Nat) (addr rest : List Nat)
    (hm : 0x00 ∈ methods) (hw : env.write_auth_ok = true) :
    (v ≠ 0x05 →
      handle_session env (greeting_then methods (v :: cmd :: rsv :: atyp :: rest)) =
        ⟨[.read 1 (some 10) (some [0x05]),
          .read 1 (some 10) (some [methods.length]),
          .read methods.length (some 10) (some methods),
          .write [0x05, 0x00] (some 10),
          .read 4 (some 10) (some [v, cmd, rsv, atyp])], .closed⟩ ∧
      reply_frames (handle_session env (greeting_then methods (v :: cmd :: rsv :: atyp :: rest))) =
        []) ∧
    (atyp ≠ 0x01 → atyp ≠ 0x03 → atyp ≠ 0x04 →
      reply_frames (handle_session env
          (greeting_then methods (0x05 :: cmd :: rsv :: atyp :: rest))) =
        [[0x05, 0x08, 0x00, 0x01, 0, 0, 0, 0, 0, 0]] ∧
      (handle_session env
          (greeting_then methods (0x05 :: cmd :: rsv :: atyp :: rest))).outcome = .closed) ∧
    (is_address_field atyp addr = true → cmd ≠ 0x01 → cmd ≠ 0x03 →
      reply_frames (handle_session env
          (greeting_then methods (0x05 :: cmd :: rsv :: atyp :: (addr ++ p0 :: p1 :: rest)))) =
        [[0x05, 0x07, 0x00, 0x01, 0, 0, 0, 0, 0, 0]] ∧
      (handle_session env
          (greeting_then methods (0x05 :: cmd :: rsv :: atyp :: (addr ++ p0 :: p1 :: rest)))).outcome
        = .closed) ∧
    (v ≠ 0x05 → writes (handle_session env (v :: rest)).trace = []) := by
  refine ⟨?_, ?_, ?_, ?_⟩
  · intro hv
    unfold greeting_then
    rw [handle_session_selected env methods _ hm hw]
    unfold handle_request
    simp [async_read_four, VERSION, hv, Result.after, HANDSHAKE_TIMEOUT, reply_frames, writes]
  · intro h1 h3 h4
    unfold greeting_then
    rw [handle_session_selected env methods _ hm hw,
      handle_request_bad_atyp env cmd rsv atyp rest h1 h3 h4]
    simp [Result.after, reply_frames, writes]
  · intro ha hc1 hc3
    rw [handle_session_request env methods cmd rsv atyp p0 p1 addr rest hm hw ha]
    have hd : handle_command env cmd (address_host env atyp addr) (((p0 <<< 8) ||| p1) % 65536) =
        ⟨[.write [0x05, 0x07, 0x00, 0x01, 0, 0, 0, 0, 0, 0] none], .closed⟩ := by
      unfold handle_command
      simp [Command.UDP_ASSOCIATE, Command.CONNECT, hc1, hc3, err_resp, VERSION, RSV,
        Reply.COMMAND_NOT_SUPPORTED]
    rw [hd]
    simp only [reply_frames, Result.after, writes_append, writes_request_events]
    simp [writes]
  · intro hv
    unfold handle_session
    simp [async_read_one, VERSION, hv, Result.after, HANDSHAKE_TIMEOUT, writes]

/-- Instances of the four parts of the amended C7. -/
theorem C7_reply_after_method_selection_witness :
    (handle_session env_ok (greeting_then [0x00] (0x04 :: 0x02 :: 0x00 :: 0x05 :: [0, 80])) =
        ⟨[.read 1 (some 10) (some [0x05]),
          .read 1 (some 10) (some [1]),
          .read 1 (some 10) (some [0x00]),
          .write [0x05, 0x00] (some 10),
          .read 4 (some 10) (some [0x04, 0x02, 0x00, 0x05])], .closed⟩ ∧
      reply_frames (handle_session env_ok
          (greeting_then [0x00] (0x04 :: 0x02 :: 0x00 :: 0x05 :: [0, 80]))) = []) ∧
    (reply_frames (handle_session env_ok
          (greeting_then [0x00] (0x05 :: 0x02 :: 0x00 :: 0x05 :: [0, 80]))) =
        [[0x05, 0x08, 0x00, 0x01, 0, 0, 0, 0, 0, 0]] ∧
      (handle_session env_ok
          (greeting_then [0x00] (0x05 :: 0x02 :: 0x00 :: 0x05 :: [0, 80]))).outcome = .closed) ∧
    (reply_frames (handle_session env_ok
          (greeting_then [0x00] (0x05 :: 0x02 :: 0x00 :: 0x01 :: ([127, 0, 0, 1] ++ 0 :: 80 :: [0, 80])))) =
        [[0x05, 0x07, 0x00, 0x01, 0, 0, 0, 0, 0, 0]] ∧
      (handle_session env_ok
          (greeting_then [0x00] (0x05 :: 0x02 :: 0x00 :: 0x01 :: ([127, 0, 0, 1] ++ 0 :: 80 :: [0, 80])))).outcome
        = .closed) ∧
    writes (handle_session env_ok (0x04 :: [0, 80])).trace = [] :=
  ⟨(C7_reply_after_method_selection env_ok [0x00] 0x04 0x02 0x00 0x05 0 80 [127, 0, 0, 1] [0, 80]
      (by decide) rfl).1 (by decide),
   (C7_reply_after_method_selection env_ok [0x00] 0x04 0x02 0x00 0x05 0 80 [127, 0, 0, 1] [0, 80]
      (by decide) rfl).2.1 (by decide) (by decide) (by decide),
   (C7_reply_after_method_selection env_ok [0x00] 0x04 0x02 0x00 0x01 0 80 [127, 0, 0, 1] [0, 80]
      (by decide) rfl).2.2.1 (by decide) (by decide) (by decide),
   (C7_reply_after_method_selection env_ok [0x00] 0x04 0x02 0x00 0x05 0 80 [127, 0, 0, 1] [0, 80]
      (by decide) rfl).2.2.2 (by decide)⟩

/-- C8: in every session, on every input, the first write (if there is one)
is the method-selection response 05 00 or 05 FF, and every frame written
after it, SUCCEEDED or error, has first byte 0x05, third byte 0x00, and is
either 10 bytes long with address-type byte 0x01 or 22 bytes long with
address-type byte 0x04; in particular its address-type byte is never 0x03. -/
theorem C8_reply_frame_shape (env : Env) (input : List Nat) :
    ((writes (handle_session env input).trace).head? = none ∨
      (writes (handle_session env input).trace).head? = some [0x05, 0x00] ∨
      (writes (handle_session env input).trace).head? = some [0x05, 0xFF]) ∧
    ∀ f ∈ reply_frames (handle_session env input),
      f.getD 0 0 = 0x05 ∧ f.getD 2 1 = 0x00 ∧
      ((f.length = 10 ∧ f.getD 3 0 = 0x01) ∨ (f.length = 22 ∧ f.getD 3 0 = 0x04)) ∧
      f.getD 3 0 ≠ 0x03 := by
  refine ⟨first_write_handle_session env input, ?_⟩
  intro f hf
  have hs : reply_shape f = true := by
    rcases reply_frames_handle_session env input with h | ⟨rest, h⟩
    · rw [h] at hf; simp at hf
    · rw [h] at hf; exact shape_handle_request env rest f hf
  simp only [reply_shape, Bool.and_eq_true, Bool.or_eq_true, beq_iff_eq] at hs
  obtain ⟨⟨h0, h2⟩, h3⟩ := hs
  refine ⟨h0, h2, h3, ?_⟩
  rcases h3 with ⟨_, h⟩ | ⟨_, h⟩ <;> rw [h] <;> decide

/-- Instance of C8 for the SUCCEEDED reply of a CONNECT to 127.0.0.1:80. -/
theorem C8_reply_frame_shape_witness :
    [0x05, 0x00, 0x00, 0x01, 127, 0, 0, 1, 156, 64] ∈
      reply_frames (handle_session env_ok
        (greeting_then [0x00] [0x05, 0x01, 0x00, 0x01, 127, 0, 0, 1, 0, 80])) ∧
    ([0x05, 0x00, 0x00, 0x01, 127, 0, 0, 1, 156, 64].getD 0 0 = 0x05 ∧
      [0x05, 0x00, 0x00, 0x01, 127, 0, 0, 1, 156, 64].getD 2 1 = 0x00 ∧
      (([0x05, 0x00, 0x00, 0x01, 127, 0, 0, 1, 156, 64].length = 10 ∧
          [0x05, 0x00, 0x00, 0x01, 127, 0, 0, 1, 156, 64].getD 3 0 = 0x01) ∨
        ([0x05, 0x00, 0x00, 0x01, 127, 0, 0, 1, 156, 64].length = 22 ∧
          [0x05, 0x00, 0x00, 0x01, 127, 0, 0, 1, 156, 64].getD 3 0 = 0x04)) ∧
      [0x05, 0x00, 0x00, 0x01, 127, 0, 0, 1, 156, 64].getD 3 0 ≠ 0x03) :=
  ⟨by decide,
   (C8_reply_frame_shape env_ok
      (greeting_then [0x00] [0x05, 0x01, 0x00, 0x01, 127, 0, 0, 1, 0, 80])).2
      [0x05, 0x00, 0x00, 0x01, 127, 0, 0, 1, 156, 64] (by decide)⟩

/-- C9: on CONNECT, after a successful resolution and a successful
connection to `target`, the one reply frame of the session is 05 00 00,
then 01 and the 4 bytes of A when the local endpoint of the outbound socket
is (A, p) with A an IPv4 address, or 04 and the 16 bytes of A when A is an
IPv6 address, then the 16-bit port p as its high byte followed by its low
byte; when the local endpoint cannot be read the reply is exactly
05 00 00 01 00 00 00 00 00 00. -/
theorem C9_connect_success_reply (env : Env) (methods : List Nat) (rsv atyp p0 p1 : Nat)
    (addr rest : List Nat) (endpoints : List endpoint) (target : endpoint)
    (hm : 0x00 ∈ methods) (hw : env.write_auth_ok = true)
    (ha : is_address_field atyp addr = true)
    (hr : env.resolve (address_host env atyp addr) (((p0 <<< 8) ||| p1) % 65536) = some endpoints)
    (hc : (async_connect env (some 10) endpoints).2 = some target) :
    (∀ (a : address_v4) (p : Nat), env.target_local target = some ⟨.v4 a, p⟩ → p < 65536 →
      reply_frames (handle_session env
          (greeting_then methods (0x05 :: 0x01 :: rsv :: atyp :: (addr ++ p0 :: p1 :: rest)))) =
        [[0x05, 0x00, 0x00, 0x01] ++ a.to_bytes ++ [p / 256, p % 256]]) ∧
    (∀ (a : address_v6) (p : Nat), env.target_local target = some ⟨.v6 a, p⟩ → p < 65536 →
      reply_frames (handle_session env
          (greeting_then methods (0x05 :: 0x01 :: rsv :: atyp :: (addr ++ p0 :: p1 :: rest)))) =
        [[0x05, 0x00, 0x00, 0x04] ++ a.to_bytes ++ [p / 256, p % 256]]) ∧
    (env.target_local target = none →
      reply_frames (handle_session env
          (greeting_then methods (0x05 :: 0x01 :: rsv :: atyp :: (addr ++ p0 :: p1 :: rest)))) =
        [[0x05, 0x00, 0x00, 0x01, 0, 0, 0, 0, 0, 0]]) := by
  have key : reply_frames (handle_session env
      (greeting_then methods (0x05 :: 0x01 :: rsv :: atyp :: (addr ++ p0 :: p1 :: rest)))) =
      [connect_success_resp (env.target_local target)] := by
    rw [handle_session_request env methods 1 rsv atyp p0 p1 addr rest hm hw ha]
    simp only [reply_frames, Result.after, writes_append, writes_request_events]
    unfold handle_command connect_to_target
    simp only [Command.UDP_ASSOCIATE, Command.CONNECT, hr, HANDSHAKE_TIMEOUT, hc]
    cases env.write_success_ok <;>
      simp [Result.after, writes, writes_append, writes_async_connect]
  rw [key]
  refine ⟨?_, ?_, ?_⟩
  · intro a p hl hp
    have hdiv : p / 256 % 256 = p / 256 := Nat.mod_eq_of_lt (by omega)
    simp [hl, connect_success_resp, port_bytes_eq, hdiv, address.is_v4, address.to_bytes,
      VERSION, RSV, Reply.SUCCEEDED, AddressType.IPV4]
  · intro a p hl hp
    have hdiv : p / 256 % 256 = p / 256 := Nat.mod_eq_of_lt (by omega)
    simp [hl, connect_success_resp, port_bytes_eq, hdiv, address.is_v4, address.is_v6,
      address.to_bytes, VERSION, RSV, Reply.SUCCEEDED, AddressType.IPV6]
  · intro hl
    simp [hl, connect_success_resp, port_bytes_eq, VERSION, RSV, Reply.SUCCEEDED,
      AddressType.IPV4]

/-- Instances of C9: an IPv4 local endpoint, an IPv6 local endpoint, and a
local endpoint that cannot be read. -/
theorem C9_connect_success_reply_witness :
    reply_frames (handle_session env_ok
        (greeting_then [0x00] (0x05 :: 0x01 :: 0x00 :: 0x01 :: ([127, 0, 0, 1] ++ 0 :: 80 :: [])))) =
      [[0x05, 0x00, 0x00, 0x01] ++ [127, 0, 0, 1] ++ [40000 / 256, 40000 % 256]] ∧
    reply_frames (handle_session env_target_v6
        (greeting_then [0x00] (0x05 :: 0x01 :: 0x00 :: 0x01 :: ([127, 0, 0, 1] ++ 0 :: 80 :: [])))) =
      [[0x05, 0x00, 0x00, 0x04] ++ [0, 0, 0, 0, 0, 0, 0, 0, 0, 0, 0, 0, 0, 0, 0, 1] ++
        [40000 / 256, 40000 % 256]] ∧
    reply_frames (handle_session env_no_target_local
        (greeting_then [0x00] (0x05 :: 0x01 :: 0x00 :: 0x01 :: ([127, 0, 0, 1] ++ 0 :: 80 :: [])))) =
      [[0x05, 0x00, 0x00, 0x01, 0, 0, 0, 0, 0, 0]] :=
  ⟨(C9_connect_success_reply env_ok [0x00] 0x00 0x01 0 80 [127, 0, 0, 1] []
      [⟨loopback_v4, 80⟩] ⟨loopback_v4, 80⟩ (by decide) rfl (by decide) rfl rfl).1
      ⟨[127, 0, 0, 1], rfl⟩ 40000 rfl (by decide),
   (C9_connect_success_reply env_target_v6 [0x00] 0x00 0x01 0 80 [127, 0, 0, 1] []
      [⟨loopback_v4, 80⟩] ⟨loopback_v4, 80⟩ (by decide) rfl (by decide) rfl rfl).2.1
      ⟨[0, 0, 0, 0, 0, 0, 0, 0, 0, 0, 0, 0, 0, 0, 0, 1], rfl⟩ 40000 rfl (by decide),
   (C9_connect_success_reply env_no_target_local [0x00] 0x00 0x01 0 80 [127, 0, 0, 1] []
      [⟨loopback_v4, 80⟩] ⟨loopback_v4, 80⟩ (by decide) rfl (by decide) rfl rfl).2.2 rfl⟩

/-- C10, counterexample: `Client::handshake` called with the empty host and
port 80, against a proxy that answers 05 00 and then
05 00 00 01 00 00 00 00 00 00, writes the request 05 01 00 03 00 00 50 and
returns normally; and the server, given the greeting 05 01 00 and that
request, calls the resolver with the empty host name and goes on to connect
and relay. -/
theorem C10_counterexample :
    Client.handshake client_env_ok [] 80
        [0x05, 0x00, 0x05, 0x00, 0x00, 0x01, 0, 0, 0, 0, 0, 0] =
      ⟨[.write [0x05, 0x01, 0x00] none,
        .read 2 none (some [0x05, 0x00]),
        .write [0x05, 0x01, 0x00, 0x03, 0x00, 0, 80] none,
        .read 4 none (some [0x05, 0x00, 0x00, 0x01]),
        .read 6 none (some [0, 0, 0, 0, 0, 0])], none⟩ ∧
    handle_session env_ok (greeting_then [0x00] [0x05, 0x01, 0x00, 0x03, 0x00, 0, 80]) =
      ⟨request_events [0x00] 0x01 0x00 0x03 [0x00] 0 80 ++
        [.resolve [] 80 (some 10),
         .connect ⟨loopback_v4, 80⟩ (some 10),
         .write [0x05, 0x00, 0x00, 0x01, 127, 0, 0, 1, 156, 64] (some 10)],
        .relay ⟨loopback_v4, 80⟩⟩ := by
  decide

/-- C10, amended: a domain address of length 0 is accepted. `Client::handshake`
called with an empty host never fails with INVALID_FORMAT, and when the
empty host is not an IP literal and the proxy selects method 0x00 its first
three operations are the greeting write, the read of the selection, and the
write of the request 05 01 00 03 00 followed by the two port bytes. The
server, on a CONNECT request with address type 0x03 and length byte 0, reads
a zero-length host name and calls the resolver with the empty host name. -/
theorem C10_empty_domain_accepted (cenv : ClientEnv) (env : Env) (target_port : Nat)
    (input methods : List Nat) (rsv p0 p1 : Nat) (rest : List Nat)
    (hlit : cenv.make_address [] = none) (hg : cenv.write_greeting_ok = true)
    (hm : 0x00 ∈ methods) (hw : env.write_auth_ok = true) :
    (Client.handshake cenv [] target_port input).error ≠ some (.socks5 .INVALID_FORMAT) ∧
    (Client.handshake cenv [] target_port (0x05 :: 0x00 :: input)).trace.take 3 =
      [.write [0x05, 0x01, 0x00] none,
       .read 2 none (some [0x05, 0x00]),
       .write [0x05, 0x01, 0x00, 0x03, 0x00, target_port / 256 % 256, target_port % 256] none] ∧
    (handle_session env
        (greeting_then methods (0x05 :: 0x01 :: rsv :: 0x03 :: ([0x00] ++ p0 :: p1 :: rest)))).trace.take 9 =
      request_events methods 0x01 rsv 0x03 [0x00] p0 p1 ++
        [.resolve [] (((p0 <<< 8) ||| p1) % 65536) (some 10)] := by
  refine ⟨?_, ?_, ?_⟩
  · obtain ⟨request, hreq⟩ := build_request_empty_ok cenv target_port
    unfold Client.handshake
    simp only [ClientResult.after, hg, hreq]
    split
    · simp
    · split
      · simp
      · split
        · simp
        · have hrr := read_reply_not_invalid_format
          cases cenv.write_request_ok <;> split <;> (try split) <;> simp [hrr]
  · unfold Client.handshake
    simp [ClientResult.after, hg, async_read_two, build_request_empty cenv target_port hlit,
      VERSION, AuthMethod.NO_AUTH, AuthMethod.NO_ACCEPTABLE]
  · rw [handle_session_request env methods 1 rsv 3 p0 p1 [0] rest hm hw (by decide)]
    unfold handle_command connect_to_target
    simp [Command.UDP_ASSOCIATE, Command.CONNECT, Result.after, request_events, address_reads,
      address_host, HANDSHAKE_TIMEOUT]

/-- Instance of the amended C10 for port 80. -/
theorem C10_empty_domain_accepted_witness :
    (Client.handshake client_env_ok [] 80 [0x05, 0x00, 0x00, 0x01, 0, 0, 0, 0, 0, 0]).error ≠
      some (.socks5 .INVALID_FORMAT) ∧
    (Client.handshake client_env_ok [] 80
        (0x05 :: 0x00 :: [0x05, 0x00, 0x00, 0x01, 0, 0, 0, 0, 0, 0])).trace.take 3 =
      [.write [0x05, 0x01, 0x00] none,
       .read 2 none (some [0x05, 0x00]),
       .write [0x05, 0x01, 0x00, 0x03, 0x00, 80 / 256 % 256, 80 % 256] none] ∧
    (handle_session env_ok
        (greeting_then [0x00] (0x05 :: 0x01 :: 0x00 :: 0x03 :: ([0x00] ++ 0 :: 80 :: [])))).trace.take 9 =
      request_events [0x00] 0x01 0x00 0x03 [0x00] 0 80 ++
        [.resolve [] (((0 <<< 8) ||| 80) % 65536) (some 10)] :=
  C10_empty_domain_accepted client_env_ok env_ok 80 [0x05, 0x00, 0x00, 0x01, 0, 0, 0, 0, 0, 0]
    [0x00] 0x00 0 80 [] rfl rfl (by decide) rfl

/-- The request `Client::handshake` builds, by the kind of host. -/
theorem build_request_cases (cenv : ClientEnv) (target_host : List Nat) (target_port : Nat) :
    (∀ a : address_v4, cenv.make_address target_host = some (.v4 a) →
      Client.build_request cenv target_host target_port =
        .ok ([0x05, 0x01, 0x00, 0x01] ++ a.to_bytes ++
          [target_port / 256 % 256, target_port % 256])) ∧
    (∀ a : address_v6, cenv.make_address target_host = some (.v6 a) →
      Client.build_request cenv target_host target_port =
        .ok ([0x05, 0x01, 0x00, 0x04] ++ a.to_bytes ++
          [target_port / 256 % 256, target_port % 256])) ∧
    (cenv.make_address target_host = none → target_host.length ≤ 255 →
      Client.build_request cenv target_host target_port =
        .ok ([0x05, 0x01, 0x00, 0x03, target_host.length] ++ target_host ++
          [target_port / 256 % 256, target_port % 256])) ∧
    (cenv.make_address target_host = none → 255 < target_host.length →
      Client.build_request cenv target_host target_port = .error Error.INVALID_FORMAT) := by
  have hp := port_bytes_eq target_port
  simp only [port_bytes] at hp
  refine ⟨?_, ?_, ?_, ?_⟩
  · intro a h
    simp [Client.build_request, h, address.is_v4, address.to_bytes, VERSION, Command.CONNECT,
      RSV, AddressType.IPV4, hp]
  · intro a h
    simp [Client.build_request, h, address.is_v4, address.to_bytes, VERSION, Command.CONNECT,
      RSV, AddressType.IPV6, hp]
  · intro h hl
    have h1 : ¬ 255 < target_host.length := by omega
    have h2 : target_host.length % 256 = target_host.length := Nat.mod_eq_of_lt (by omega)
    simp [Client.build_request, h, h1, h2, VERSION, Command.CONNECT, RSV,
      AddressType.DOMAIN_NAME, hp]
  · intro h hl
    simp [Client.build_request, h, hl]

/-- The handshake up to the request, once the proxy has answered 05 00. -/
theorem handshake_selected (cenv : ClientEnv) (target_host : List Nat) (target_port : Nat)
    (input : List Nat) (hg : cenv.write_greeting_ok = true) :
    Client.handshake cenv target_host target_port (0x05 :: 0x00 :: input) =
      ClientResult.after [.write [0x05, 0x01, 0x00] none, .read 2 none (some [0x05, 0x00])]
        (match Client.build_request cenv target_host target_port with
          | .error e => ⟨[], some (.socks5 e)⟩
          | .ok request =>
            ClientResult.after [.write request none]
              (if cenv.write_request_ok then Client.read_reply input else ⟨[], some .io⟩)) := by
  unfold Client.handshake
  simp only [ClientResult.after, hg, async_read_two, VERSION, AuthMethod.NO_AUTH,
    AuthMethod.NO_ACCEPTABLE]
  cases Client.build_request cenv target_host target_port with
  | error e => simp
  | ok request => cases cenv.write_request_ok <;> simp

/-- C11: after a successful method selection (the proxy answers 05 00),
`Client::handshake` for a 16-bit `target_port` writes as its request
05 01 00, then 01 and the 4 address bytes when `target_host` is an IPv4
literal, 04 and the 16 address bytes when it is an IPv6 literal, and
otherwise 03, the length of the host as one byte and the host bytes
unchanged when that length is at most 255, then the port, high byte first.
When the host is not an IP literal and is longer than 255 bytes the
handshake ends with INVALID_FORMAT after the read of the method selection:
no request is written. -/
theorem C11_client_request_encoding (cenv : ClientEnv) (target_host : List Nat)
    (target_port : Nat) (input : List Nat) (hg : cenv.write_greeting_ok = true)
    (hp : target_port < 65536) :
    (∀ a : address_v4, cenv.make_address target_host = some (.v4 a) →
      (Client.handshake cenv target_host target_port (0x05 :: 0x00 :: input)).trace.take 3 =
        [.write [0x05, 0x01, 0x00] none,
         .read 2 none (some [0x05, 0x00]),
         .write ([0x05, 0x01, 0x00, 0x01] ++ a.to_bytes ++
           [target_port / 256, target_port % 256]) none]) ∧
    (∀ a : address_v6, cenv.make_address target_host = some (.v6 a) →
      (Client.handshake cenv target_host target_port (0x05 :: 0x00 :: input)).trace.take 3 =
        [.write [0x05, 0x01, 0x00] none,
         .read 2 none (some [0x05, 0x00]),
         .write ([0x05, 0x01, 0x00, 0x04] ++ a.to_bytes ++
           [target_port / 256, target_port % 256]) none]) ∧
    (cenv.make_address target_host = none → target_host.length ≤ 255 →
      (Client.handshake cenv target_host target_port (0x05 :: 0x00 :: input)).trace.take 3 =
        [.write [0x05, 0x01, 0x00] none,
         .read 2 none (some [0x05, 0x00]),
         .write ([0x05, 0x01, 0x00, 0x03, target_host.length] ++ target_host ++
           [target_port / 256, target_port % 256]) none]) ∧
    (cenv.make_address target_host = none → 255 < target_host.length →
      Client.handshake cenv target_host target_port (0x05 :: 0x00 :: input) =
        ⟨[.write [0x05, 0x01, 0x00] none, .read 2 none (some [0x05, 0x00])],
          some (.socks5 .INVALID_FORMAT)⟩) := by
  have hdiv : target_port / 256 % 256 = target_port / 256 := Nat.mod_eq_of_lt (by omega)
  obtain ⟨h4, h6, hd, hl⟩ := build_request_cases cenv target_host target_port
  rw [hdiv] at h4 h6 hd
  rw [handshake_selected cenv target_host target_port input hg]
  refine ⟨?_, ?_, ?_, ?_⟩
  · intro a h
    rw [h4 a h]
    simp [ClientResult.after]
  · intro a h
    rw [h6 a h]
    simp [ClientResult.after]
  · intro h hlen
    rw [hd h hlen]
    simp [ClientResult.after]
  · intro h hlen
    rw [hl h hlen]
    simp [ClientResult.after]

/-- Instances of C11: the literals 127.0.0.1 and ::1, a host of 255 bytes,
and a host of 256 bytes, with port 8080. -/
theorem C11_client_request_encoding_witness :
    (Client.handshake client_env_ok [49, 50, 55, 46, 48, 46, 48, 46, 49] 8080
        (0x05 :: 0x00 :: [])).trace.take 3 =
      [.write [0x05, 0x01, 0x00] none,
       .read 2 none (some [0x05, 0x00]),
       .write ([0x05, 0x01, 0x00, 0x01] ++ [127, 0, 0, 1] ++ [8080 / 256, 8080 % 256]) none] ∧
    (Client.handshake client_env_ok [58, 58, 49] 8080 (0x05 :: 0x00 :: [])).trace.take 3 =
      [.write [0x05, 0x01, 0x00] none,
       .read 2 none (some [0x05, 0x00]),
       .write ([0x05, 0x01, 0x00, 0x04] ++ [0, 0, 0, 0, 0, 0, 0, 0, 0, 0, 0, 0, 0, 0, 0, 1] ++
         [8080 / 256, 8080 % 256]) none] ∧
    (Client.handshake client_env_ok (List.replicate 255 97) 8080
        (0x05 :: 0x00 :: [])).trace.take 3 =
      [.write [0x05, 0x01, 0x00] none,
       .read 2 none (some [0x05, 0x00]),
       .write ([0x05, 0x01, 0x00, 0x03, (List.replicate 255 97).length] ++ List.replicate 255 97 ++
         [8080 / 256, 8080 % 256]) none] ∧
    Client.handshake client_env_ok (List.replicate 256 97) 8080 (0x05 :: 0x00 :: []) =
      ⟨[.write [0x05, 0x01, 0x00] none, .read 2 none (some [0x05, 0x00])],
        some (.socks5 .INVALID_FORMAT)⟩ :=
  ⟨(C11_client_request_encoding client_env_ok [49, 50, 55, 46, 48, 46, 48, 46, 49] 8080 []
      rfl (by decide)).1 ⟨[127, 0, 0, 1], rfl⟩ rfl,
   (C11_client_request_encoding client_env_ok [58, 58, 49] 8080 []
      rfl (by decide)).2.1 ⟨[0, 0, 0, 0, 0, 0, 0, 0, 0, 0, 0, 0, 0, 0, 0, 1], rfl⟩ rfl,
   (C11_client_request_encoding client_env_ok (List.replicate 255 97) 8080 []
      rfl (by decide)).2.2.1 (by decide) (by rw [List.length_replicate]),
   (C11_client_request_encoding client_env_ok (List.replicate 256 97) 8080 []
      rfl (by decide)).2.2.2 (by decide) (by rw [List.length_replicate]; decide)⟩

theorem build_request_of_encodable (cenv : ClientEnv) (target_host : List Nat)
    (target_port : Nat) (h : encodable cenv target_host = true) :
    ∃ request, Client.build_request cenv target_host target_port = .ok request := by
  unfold encodable at h
  unfold Client.build_request
  cases hm : cenv.make_address target_host with
  | none =>
    simp [hm] at h
    have : ¬ 255 < target_host.length := by omega
    simp [this]
  | some ip => cases hv : ip.is_v4 <;> simp [hv]

theorem build_request_of_not_encodable (cenv : ClientEnv) (target_host : List Nat)
    (target_port : Nat) (h : encodable cenv target_host = false) :
    Client.build_request cenv target_host target_port = .error Error.INVALID_FORMAT := by
  unfold encodable at h
  cases hm : cenv.make_address target_host with
  | none =>
    simp [hm] at h
    simp [Client.build_request, hm, h]
  | some ip => simp [hm] at h

/-- The outcome and the reads of `read_reply` on a stream that holds a reply
header and at least the rest of the frame it announces. -/
theorem read_reply_complete (r0 r1 r2 r3 : Nat) (tail : List Nat)
    (hc : reply_rest_complete r3 tail = true) :
    (Client.read_reply (r0 :: r1 :: r2 :: r3 :: tail)).error =
      (if r0 ≠ 0x05 then some (.socks5 .INVALID_VERSION)
       else if r1 ≠ 0x00 then some (.socks5 .CONNECTION_FAILED)
       else if r3 = 0x01 ∨ r3 = 0x03 ∨ r3 = 0x04 then none
       else some (.socks5 .UNSUPPORTED_ADDRESS_TYPE)) ∧
    ((Client.read_reply (r0 :: r1 :: r2 :: r3 :: tail)).error = none →
      reads (Client.read_reply (r0 :: r1 :: r2 :: r3 :: tail)).trace =
        4 :: reply_rest_reads r3 tail) := by
  unfold Client.read_reply
  simp only [async_read_four, ClientResult.after, List.getD_cons_zero, List.getD_cons_succ,
    VERSION, Reply.SUCCEEDED, AddressType.IPV4, AddressType.IPV6, AddressType.DOMAIN_NAME]
  by_cases h0 : r0 = 5
  · by_cases h1 : r1 = 0
    · unfold reply_rest_complete at hc
      by_cases h31 : r3 = 1
      · subst h31
        simp at hc
        have hr : async_read 6 tail = some (tail.take 6, tail.drop 6) := by
          simp [async_read, hc]
        simp [h0, h1, hr, reads, reply_rest_reads]
      · by_cases h34 : r3 = 4
        · subst h34
          simp at hc
          have hr : async_read 18 tail = some (tail.take 18, tail.drop 18) := by
            simp [async_read, hc]
          simp [h0, h1, hr, reads, reply_rest_reads]
        · by_cases h33 : r3 = 3
          · subst h33
            cases tail with
            | nil => simp at hc
            | cons len t =>
              simp at hc
              have hr : async_read (len + 2) t = some (t.take (len + 2), t.drop (len + 2)) := by
                simp [async_read, hc]
              simp [h0, h1, async_read_one, hr, reads, reply_rest_reads]
          · simp [h0, h1, h31, h34, h33]
    · simp [h0, h1]
  · simp [h0]

/-- The decision table of `Client::handshake` when both writes complete and
the proxy delivers a method-selection response and a complete reply frame. -/
theorem handshake_error_table (cenv : ClientEnv) (target_host : List Nat) (target_port : Nat)
    (s0 s1 r0 r1 r2 r3 : Nat) (tail : List Nat)
    (hg : cenv.write_greeting_ok = true) (hq : cenv.write_request_ok = true)
    (hc : reply_rest_complete r3 tail = true) :
    (Client.handshake cenv target_host target_port
        (s0 :: s1 :: r0 :: r1 :: r2 :: r3 :: tail)).error =
      (if s0 ≠ 0x05 then some (.socks5 .INVALID_VERSION)
       else if s1 ≠ 0x00 then some (.socks5 .NO_ACCEPTABLE_AUTH)
       else if encodable cenv target_host = false then some (.socks5 .INVALID_FORMAT)
       else if r0 ≠ 0x05 then some (.socks5 .INVALID_VERSION)
       else if r1 ≠ 0x00 then some (.socks5 .CONNECTION_FAILED)
       else if r3 = 0x01 ∨ r3 = 0x03 ∨ r3 = 0x04 then none
       else some (.socks5 .UNSUPPORTED_ADDRESS_TYPE)) := by
  by_cases h0 : s0 = 5
  · by_cases h1 : s1 = 0
    · subst h0 h1
      rw [handshake_selected cenv target_host target_port _ hg]
      cases he : encodable cenv target_host with
      | false =>
        rw [build_request_of_not_encodable cenv target_host target_port he]
        simp [ClientResult.after]
      | true =>
        obtain ⟨request, hreq⟩ := build_request_of_encodable cenv target_host target_port he
        rw [hreq]
        simp only [hq, if_true, ClientResult.after]
        rw [(read_reply_complete r0 r1 r2 r3 tail hc).1]
        simp
    · unfold Client.handshake
      by_cases h255 : s1 = 255
      · simp [ClientResult.after, hg, async_read_two, VERSION, AuthMethod.NO_ACCEPTABLE,
          AuthMethod.NO_AUTH, h0, h255]
      · simp [ClientResult.after, hg, async_read_two, VERSION, AuthMethod.NO_ACCEPTABLE,
          AuthMethod.NO_AUTH, h0, h1, h255]
  · unfold Client.handshake
    simp [ClientResult.after, hg, async_read_two, VERSION, h0]

/-- The reads of a handshake that returns normally. -/
theorem handshake_success_reads (cenv : ClientEnv) (target_host : List Nat) (target_port : Nat)
    (s0 s1 r0 r1 r2 r3 : Nat) (tail : List Nat)
    (hg : cenv.write_greeting_ok = true) (hq : cenv.write_request_ok = true)
    (hc : reply_rest_complete r3 tail = true)
    (hs : (Client.handshake cenv target_host target_port
        (s0 :: s1 :: r0 :: r1 :: r2 :: r3 :: tail)).error = none) :
    reads (Client.handshake cenv target_host target_port
        (s0 :: s1 :: r0 :: r1 :: r2 :: r3 :: tail)).trace =
      2 :: 4 :: reply_rest_reads r3 tail := by
  have ht := handshake_error_table cenv target_host target_port s0 s1 r0 r1 r2 r3 tail hg hq hc
  rw [hs] at ht
  by_cases h0 : s0 = 5
  · by_cases h1 : s1 = 0
    · subst h0 h1
      cases he : encodable cenv target_host with
      | false => simp [he] at ht
      | true =>
        obtain ⟨request, hreq⟩ := build_request_of_encodable cenv target_host target_port he
        rw [handshake_selected cenv target_host target_port _ hg, hreq] at hs ⊢
        simp only [hq, if_true, ClientResult.after] at hs ⊢
        have hr := (read_reply_complete r0 r1 r2 r3 tail hc).2 hs
        simp [reads, reads_append, hr]
    · simp [h0, h1] at ht
  · simp [h0] at ht

/-- C12, counterexample: `Client::handshake` is called with a host of 256
bytes that is not an IP literal; the proxy answers 05 00 and has the reply
05 00 00 01 00 00 00 00 00 00 ready. The method selection has version 0x05
and method 0x00 and the reply bytes are those of a SUCCEEDED reply of
address type 1, so none of the four failure conditions of the claim holds,
yet the handshake does not succeed: it fails with INVALID_FORMAT. -/
theorem C12_counterexample :
    (Client.handshake client_env_ok (List.replicate 256 97) 80
        [0x05, 0x00, 0x05, 0x00, 0x00, 0x01, 0, 0, 0, 0, 0, 0]).error =
      some (.socks5 .INVALID_FORMAT) ∧
    (Client.handshake client_env_ok (List.replicate 256 97) 80
        [0x05, 0x00, 0x05, 0x00, 0x00, 0x01, 0, 0, 0, 0, 0, 0]).error ≠ none := by
  have h := handshake_error_table client_env_ok (List.replicate 256 97) 80
    0x05 0x00 0x05 0x00 0x00 0x01 [0, 0, 0, 0, 0, 0] rfl rfl (by decide)
  have hm : client_env_ok.make_address (List.replicate 256 97) = none := by decide
  have he : encodable client_env_ok (List.replicate 256 97) = false := by
    simp only [encodable, hm, List.length_replicate]
    decide
  rw [he] at h
  simp only [ne_eq, not_true_eq_false, if_false, if_true] at h
  rw [h]
  simp

/-- A reply stream shorter than the 4-byte reply header: the read fails. -/
theorem read_reply_short (input : List Nat) (h : input.length < 4) :
    (Client.read_reply input).error = some .io := by
  have hr : async_read 4 input = none := by
    simp only [async_read, ite_eq_right_iff]
    intro h4
    omega
  simp [Client.read_reply, hr]

/-- The outcome of `read_reply` on any stream that holds a reply header. -/
theorem read_reply_error (r0 r1 r2 r3 : Nat) (tail : List Nat) :
    (Client.read_reply (r0 :: r1 :: r2 :: r3 :: tail)).error =
      (if r0 ≠ 0x05 then some (.socks5 .INVALID_VERSION)
       else if r1 ≠ 0x00 then some (.socks5 .CONNECTION_FAILED)
       else if r3 = 0x01 ∨ r3 = 0x03 ∨ r3 = 0x04 then
         (if reply_rest_complete r3 tail = true then none else some .io)
       else some (.socks5 .UNSUPPORTED_ADDRESS_TYPE)) := by
  cases hc : reply_rest_complete r3 tail with
  | true =>
    rw [(read_reply_complete r0 r1 r2 r3 tail hc).1]
    simp
  | false =>
    unfold Client.read_reply
    simp only [async_read_four, ClientResult.after, List.getD_cons_zero, List.getD_cons_succ,
      VERSION, Reply.SUCCEEDED, AddressType.IPV4, AddressType.IPV6, AddressType.DOMAIN_NAME]
    by_cases h0 : r0 = 5
    · by_cases h1 : r1 = 0
      · unfold reply_rest_complete at hc
        by_cases h31 : r3 = 1
        · subst h31
          simp at hc
          have hr : async_read 6 tail = none := by
            simp only [async_read, ite_eq_right_iff]
            intro h6
            omega
          simp [h0, h1, hr]
        · by_cases h34 : r3 = 4
          · subst h34
            simp at hc
            have hr : async_read 18 tail = none := by
              simp only [async_read, ite_eq_right_iff]
              intro h6
              omega
            simp [h0, h1, hr]
          · by_cases h33 : r3 = 3
            · subst h33
              cases tail with
              | nil =>
                have hr : async_read 1 ([] : List Nat) = none := by decide
                simp [h0, h1, hr]
              | cons len t =>
                simp at hc
                have hr : async_read (len + 2) t = none := by
                  simp only [async_read, ite_eq_right_iff]
                  intro h6
                  omega
                simp [h0, h1, async_read_one, hr]
            · simp [h31, h34, h33] at hc
      · simp [h0, h1]
    · simp [h0]

/-- A proxy stream shorter than the 2-byte method-selection response: the
handshake ends with the exception of a failed read or write. -/
theorem handshake_short (cenv : ClientEnv) (target_host : List Nat) (target_port : Nat)
    (input : List Nat) (h : input.length < 2) :
    (Client.handshake cenv target_host target_port input).error = some .io := by
  have hr : async_read 2 input = none := by
    simp only [async_read, ite_eq_right_iff]
    intro h2
    omega
  unfold Client.handshake
  cases cenv.write_greeting_ok <;> simp [ClientResult.after, hr]

/-- The decision table of `Client::handshake` on any proxy stream that
holds a method-selection response. -/
theorem handshake_error_general (cenv : ClientEnv) (target_host : List Nat)
    (target_port : Nat) (s0 s1 : Nat) (rest : List Nat) :
    (Client.handshake cenv target_host target_port (s0 :: s1 :: rest)).error =
      (if cenv.write_greeting_ok = false then some .io
       else if s0 ≠ 0x05 then some (.socks5 .INVALID_VERSION)
       else if s1 ≠ 0x00 then some (.socks5 .NO_ACCEPTABLE_AUTH)
       else if encodable cenv target_host = false then some (.socks5 .INVALID_FORMAT)
       else if cenv.write_request_ok = false then some .io
       else (Client.read_reply rest).error) := by
  cases hg : cenv.write_greeting_ok with
  | false => simp [Client.handshake, ClientResult.after, hg]
  | true =>
    by_cases h0 : s0 = 5
    · by_cases h1 : s1 = 0
      · subst h0 h1
        rw [handshake_selected cenv target_host target_port _ hg]
        cases he : encodable cenv target_host with
        | false =>
          rw [build_request_of_not_encodable cenv target_host target_port he]
          simp [ClientResult.after]
        | true =>
          obtain ⟨request, hreq⟩ := build_request_of_encodable cenv target_host target_port he
          rw [hreq]
          cases hq : cenv.write_request_ok <;> simp [ClientResult.after]
      · unfold Client.handshake
        by_cases h255 : s1 = 255
        · simp [ClientResult.after, hg, async_read_two, VERSION, AuthMethod.NO_ACCEPTABLE,
            AuthMethod.NO_AUTH, h0, h255]
        · simp [ClientResult.after, hg, async_read_two, VERSION, AuthMethod.NO_ACCEPTABLE,
            AuthMethod.NO_AUTH, h0, h1, h255]
    · unfold Client.handshake
      simp [ClientResult.after, hg, async_read_two, VERSION, h0]

/-- C12, amended: on every proxy stream, whenever no read and no write that
`Client::handshake` issues fails (the handshake does not end with an I/O
exception), the handshake fails with INVALID_VERSION iff byte 0 of the
stream, the version of the method-selection response, is not 0x05, or the
request was sent and byte 2, the version of the reply, is not 0x05; with
NO_ACCEPTABLE_AUTH iff byte 0 is 0x05 and byte 1, the method, is not 0x00;
with INVALID_FORMAT iff the method selection is 05 00 and the host cannot be
encoded (not an IP literal and longer than 255 bytes); with
CONNECTION_FAILED iff the request was sent and the reply has version 0x05
and a code other than 0x00; with UNSUPPORTED_ADDRESS_TYPE iff the reply is
SUCCEEDED with an address-type byte (byte 5 of the stream) outside
{1, 3, 4}; and it succeeds in every remaining case, where the stream holds
a complete reply frame and the handshake has read exactly 2 bytes, then 4,
then the rest of the reply frame (6, or 18, or 1 and len + 2 bytes). The
streams covered include those that end right after the bytes the handshake
reads, such as the 2-byte stream 05 FF. -/
theorem C12_client_failure_mapping (cenv : ClientEnv) (target_host : List Nat)
    (target_port : Nat) (input : List Nat)
    (hio : (Client.handshake cenv target_host target_port input).error ≠ some .io) :
    ((Client.handshake cenv target_host target_port input).error =
        some (.socks5 .INVALID_VERSION) ↔
      input[0]? ≠ some 0x05 ∨
        (input[0]? = some 0x05 ∧ input[1]? = some 0x00 ∧ encodable cenv target_host = true ∧
          input[2]? ≠ some 0x05)) ∧
    ((Client.handshake cenv target_host target_port input).error =
        some (.socks5 .NO_ACCEPTABLE_AUTH) ↔
      input[0]? = some 0x05 ∧ input[1]? ≠ some 0x00) ∧
    ((Client.handshake cenv target_host target_port input).error =
        some (.socks5 .INVALID_FORMAT) ↔
      input[0]? = some 0x05 ∧ input[1]? = some 0x00 ∧ encodable cenv target_host = false) ∧
    ((Client.handshake cenv target_host target_port input).error =
        some (.socks5 .CONNECTION_FAILED) ↔
      input[0]? = some 0x05 ∧ input[1]? = some 0x00 ∧ encodable cenv target_host = true ∧
        input[2]? = some 0x05 ∧ input[3]? ≠ some 0x00) ∧
    ((Client.handshake cenv target_host target_port input).error =
        some (.socks5 .UNSUPPORTED_ADDRESS_TYPE) ↔
      input[0]? = some 0x05 ∧ input[1]? = some 0x00 ∧ encodable cenv target_host = true ∧
        input[2]? = some 0x05 ∧ input[3]? = some 0x00 ∧
        ¬ (input[5]? = some 0x01 ∨ input[5]? = some 0x03 ∨ input[5]? = some 0x04)) ∧
    ((Client.handshake cenv target_host target_port input).error = none ↔
      input[0]? = some 0x05 ∧ input[1]? = some 0x00 ∧ encodable cenv target_host = true ∧
        input[2]? = some 0x05 ∧ input[3]? = some 0x00 ∧
        (input[5]? = some 0x01 ∨ input[5]? = some 0x03 ∨ input[5]? = some 0x04)) ∧
    ((Client.handshake cenv target_host target_port input).error = none →
      ∃ r2 r3 tail, input = 0x05 :: 0x00 :: 0x05 :: 0x00 :: r2 :: r3 :: tail ∧
        reply_rest_complete r3 tail = true ∧
        reads (Client.handshake cenv target_host target_port input).trace =
          2 :: 4 :: reply_rest_reads r3 tail) := by
  rcases input with _ | ⟨s0, _ | ⟨s1, rest⟩⟩
  · exact absurd (handshake_short cenv target_host target_port [] (by simp)) hio
  · exact absurd (handshake_short cenv target_host target_port [s0] (by simp)) hio
  · have ht := handshake_error_general cenv target_host target_port s0 s1 rest
    cases hg : cenv.write_greeting_ok with
    | false =>
      rw [hg] at ht
      exact absurd (by simpa using ht) hio
    | true =>
      rw [hg] at ht
      simp only [Bool.true_eq_false, if_false] at ht
      by_cases h0 : s0 = 5
      · by_cases h1 : s1 = 0
        · subst h0 h1
          cases he : encodable cenv target_host with
          | false =>
            rw [he] at ht
            simp only [ne_eq, not_true_eq_false, if_false, if_true] at ht
            rw [ht]
            simp
          | true =>
            rw [he] at ht
            simp only [ne_eq, not_true_eq_false, if_false, Bool.true_eq_false] at ht
            cases hq : cenv.write_request_ok with
            | false =>
              rw [hq] at ht
              exact absurd (by simpa using ht) hio
            | true =>
              rw [hq] at ht
              simp only [Bool.true_eq_false, if_false] at ht
              rcases rest with _ | ⟨r0, _ | ⟨r1, _ | ⟨r2, _ | ⟨r3, tail⟩⟩⟩⟩
              · rw [read_reply_short [] (by simp)] at ht
                exact absurd ht hio
              · rw [read_reply_short [r0] (by simp)] at ht
                exact absurd ht hio
              · rw [read_reply_short [r0, r1] (by simp)] at ht
                exact absurd ht hio
              · rw [read_reply_short [r0, r1, r2] (by simp)] at ht
                exact absurd ht hio
              · rw [read_reply_error] at ht
                by_cases h2 : r0 = 5
                · by_cases h3 : r1 = 0
                  · subst h2 h3
                    by_cases h4 : (r3 = 1 ∨ r3 = 3 ∨ r3 = 4)
                    · cases hc : reply_rest_complete r3 tail with
                      | false =>
                        rw [hc] at ht
                        simp only [h4, ne_eq, not_true_eq_false, if_false, if_true,
                          Bool.false_eq_true] at ht
                        exact absurd ht hio
                      | true =>
                        have hs := ht
                        rw [hc] at hs
                        simp only [h4, ne_eq, not_true_eq_false, if_false,
                          if_true] at hs
                        have hrd := handshake_success_reads cenv target_host target_port
                          5 0 5 0 r2 r3 tail hg hq hc hs
                        refine ⟨?_, ?_, ?_, ?_, ?_, ?_, ?_⟩
                        · rw [hs]; simp
                        · rw [hs]; simp
                        · rw [hs]; simp
                        · rw [hs]; simp
                        · rw [hs]; simp [h4]
                        · rw [hs]; simp [h4]
                        · intro _
                          exact ⟨r2, r3, tail, rfl, hc, hrd⟩
                    · simp only [h4, ne_eq, not_true_eq_false, if_false] at ht
                      rw [ht]
                      simp [h4]
                  · subst h2
                    simp only [h3, ne_eq, not_true_eq_false, not_false_eq_true, if_false,
                      if_true] at ht
                    rw [ht]
                    simp [h3]
                · simp only [h2, ne_eq, not_false_eq_true, if_true] at ht
                  rw [ht]
                  simp [h2]
        · subst h0
          simp only [h1, ne_eq, not_true_eq_false, not_false_eq_true, if_false,
            if_true] at ht
          rw [ht]
          simp [h1]
      · simp only [h0, ne_eq, not_false_eq_true, if_true] at ht
        rw [ht]
        simp [h0]

/-- Instances of the amended C12: on the 2-byte stream 05 FF the handshake
fails with NO_ACCEPTABLE_AUTH; on the 2-byte stream 04 00 it fails with
INVALID_VERSION; on 05 00 then the 4-byte stream 05 01 00 01 it fails with
CONNECTION_FAILED; and for the host `a`, the method selection 05 00 and the
reply 05 00 00 03 01 61 00 50 it succeeds, having read 2, 4, 1 and 3
bytes. -/
theorem C12_client_failure_mapping_witness :
    (Client.handshake client_env_ok [97] 80 [0x05, 0xFF]).error =
      some (.socks5 .NO_ACCEPTABLE_AUTH) ∧
    (Client.handshake client_env_ok [97] 80 [0x04, 0x00]).error =
      some (.socks5 .INVALID_VERSION) ∧
    (Client.handshake client_env_ok [97] 80 [0x05, 0x00, 0x05, 0x01, 0x00, 0x01]).error =
      some (.socks5 .CONNECTION_FAILED) ∧
    (Client.handshake client_env_ok [97] 80
        [0x05, 0x00, 0x05, 0x00, 0x00, 0x03, 1, 97, 0, 80]).error = none ∧
    (∃ r2 r3 tail,
      [0x05, 0x00, 0x05, 0x00, 0x00, 0x03, 1, 97, 0, 80] =
        0x05 :: 0x00 :: 0x05 :: 0x00 :: r2 :: r3 :: tail ∧
      reply_rest_complete r3 tail = true ∧
      reads (Client.handshake client_env_ok [97] 80
          [0x05, 0x00, 0x05, 0x00, 0x00, 0x03, 1, 97, 0, 80]).trace =
        2 :: 4 :: reply_rest_reads r3 tail) :=
  ⟨(C12_client_failure_mapping client_env_ok [97] 80 [0x05, 0xFF] (by decide)).2.1.2
      (by decide),
   (C12_client_failure_mapping client_env_ok [97] 80 [0x04, 0x00] (by decide)).1.2
      (by decide),
   (C12_client_failure_mapping client_env_ok [97] 80 [0x05, 0x00, 0x05, 0x01, 0x00, 0x01]
      (by decide)).2.2.2.1.2 (by decide),
   (C12_client_failure_mapping client_env_ok [97] 80
      [0x05, 0x00, 0x05, 0x00, 0x00, 0x03, 1, 97, 0, 80] (by decide)).2.2.2.2.2.1.2
      (by decide),
   (C12_client_failure_mapping client_env_ok [97] 80
      [0x05, 0x00, 0x05, 0x00, 0x00, 0x03, 1, 97, 0, 80] (by decide)).2.2.2.2.2.2
      (by decide)⟩

/-! ## Lemmas on the UDP relay -/

theorem classify_snd (client_ip : address) (client_port : Nat) (sender_ep : endpoint) :
    (classify client_ip client_port sender_ep).2 = true ↔
      sender_ep.addr = client_ip ∧ (client_port = 0 ∨ sender_ep.port = client_port) := by
  unfold classify
  by_cases h1 : sender_ep.addr = client_ip <;> by_cases h2 : client_port = 0 <;>
    by_cases h3 : sender_ep.port = client_port <;> simp [h1, h2, h3]

theorem classify_fst (client_ip : address) (client_port : Nat) (sender_ep : endpoint) :
    (classify client_ip client_port sender_ep).1 =
      if sender_ep.addr = client_ip ∧ client_port = 0 then sender_ep.port else client_port := by
  unfold classify
  by_cases h1 : sender_ep.addr = client_ip <;> by_cases h2 : client_port = 0 <;>
    by_cases h3 : sender_ep.port = client_port <;> simp [h1, h2, h3]

theorem shift_or_eq (a b : Nat) (ha : a < 256) (hb : b < 256) :
    ((a <<< 8) ||| b) % 65536 = a * 256 + b := by
  have h1 : a <<< 8 = 2 ^ 8 * a := by rw [Nat.shiftLeft_eq]; ring
  have h2 := Nat.mul_add_lt_is_or (i := 8) (b := b) (by simpa using hb) a
  rw [h1, ← h2]
  have : 2 ^ 8 * a + b < 65536 := by norm_num; omega
  rw [Nat.mod_eq_of_lt this]
  ring

/-- The header checks of lines 352-398 are the drop rule, and a datagram
that passes them parses to its declared header length and the host it
names. -/
theorem client_header_eq (env : UdpEnv) (buffer : List Nat) :
    client_header env buffer =
      if udp_drop_rule buffer then none
      else some (declared_header_len buffer, header_host env buffer,
        ((buffer.getD (declared_header_len buffer - 2) 0 <<< 8) |||
          buffer.getD (declared_header_len buffer - 2 + 1) 0) % 65536) := by
  unfold client_header udp_drop_rule declared_header_len header_host
  simp only [AddressType.IPV4, AddressType.IPV6, AddressType.DOMAIN_NAME]
  generalize buffer.getD 0 0 = b0
  generalize buffer.getD 1 0 = b1
  generalize buffer.getD 2 0 = b2
  generalize buffer.getD 3 0 = b3
  generalize buffer.getD 4 0 = b4
  by_cases hn : buffer.length < 10
  · simp [hn]
  · by_cases h0 : b0 = 0
    · by_cases h1 : b1 = 0
      · by_cases h2 : b2 = 0
        · by_cases h31 : b3 = 1
          · simp [hn, h0, h1, h2, h31]
          · by_cases h34 : b3 = 4
            · by_cases hl : buffer.length < 22
              · simp [hn, h0, h1, h2, h34, hl]
              · simp [hn, h0, h1, h2, h34, hl]
            · by_cases h33 : b3 = 3
              · by_cases hl : buffer.length < 5 + b4 + 2
                · have hl2 : buffer.length < 7 + b4 := by omega
                  simp [hn, h0, h1, h2, h33, hl, hl2]
                · have hl2 : ¬ buffer.length < 7 + b4 := by omega
                  have e1 : 5 + b4 + 2 = 7 + b4 := by omega
                  simp [hn, h0, h1, h2, h33, hl, hl2, e1]
              · simp [hn, h0, h1, h2, h31, h34, h33]
        · simp [hn, h0, h1, h2]
      · simp [hn, h0, h1]
    · simp [hn, h0]

/-- The loop body on a non-empty datagram from a client-side sender. -/
theorem relay_udp_datagram_client (env : UdpEnv) (client_ip : address) (g : Nat)
    (st : UdpState) (sender_ep : endpoint) (buffer : List Nat) (hn : buffer ≠ [])
    (hc : sender_ep.addr = client_ip ∧ (st.client_port = 0 ∨ sender_ep.port = st.client_port)) :
    relay_udp_datagram env client_ip g st sender_ep buffer =
      (match client_header env buffer with
        | none =>
          ⟨g, { st with client_port := sender_ep.port, last_client_ep := sender_ep },
            .client none, []⟩
        | some (header_len, current_host, port_nbo) =>
          let l := cache_lookup env g
            { st with client_port := sender_ep.port, last_client_ep := sender_ep }
            current_host port_nbo
          if l.2.1.has_cached_target then
            ⟨l.1, l.2.1, .client (some (current_host, port_nbo, l.2.2.1)),
              l.2.2.2 ++ [.forward ((buffer.drop header_len).take (buffer.length - header_len))
                l.2.1.cached_target_ep]⟩
          else ⟨l.1, l.2.1, .client (some (current_host, port_nbo, l.2.2.1)), l.2.2.2⟩) := by
  have hlen : buffer.length ≠ 0 := by simpa using hn
  have h2 := (classify_snd client_ip st.client_port sender_ep).2 hc
  have h1 : (classify client_ip st.client_port sender_ep).1 = sender_ep.port := by
    rw [classify_fst]
    rcases hc with ⟨ha, h0 | hp⟩
    · simp [ha, h0]
    · by_cases h0 : st.client_port = 0
      · simp [ha, h0]
      · simp [ha, h0, hp]
  unfold relay_udp_datagram
  simp only [hlen, if_false, h2, if_true, h1]

/-- The loop body on a non-empty datagram from a sender that is not
client-side. -/
theorem relay_udp_datagram_target (env : UdpEnv) (client_ip : address) (g : Nat)
    (st : UdpState) (sender_ep : endpoint) (buffer : List Nat) (hn : buffer ≠ [])
    (hc : ¬ (sender_ep.addr = client_ip ∧
      (st.client_port = 0 ∨ sender_ep.port = st.client_port))) :
    relay_udp_datagram env client_ip g st sender_ep buffer =
      if st.client_port = 0 then ⟨g, st, .target, []⟩
      else ⟨g, st, .target, [.deliver (encapsulate sender_ep buffer) st.last_client_ep]⟩ := by
  have hlen : buffer.length ≠ 0 := by simpa using hn
  have h2 : (classify client_ip st.client_port sender_ep).2 = false := by
    have := (classify_snd client_ip st.client_port sender_ep).not.2 hc
    simpa using this
  have h1 : (classify client_ip st.client_port sender_ep).1 = st.client_port := by
    rw [classify_fst]
    by_cases ha : sender_ep.addr = client_ip
    · have h0 : st.client_port ≠ 0 := fun h0 => hc ⟨ha, Or.inl h0⟩
      simp [ha, h0]
    · simp [ha]
  unfold relay_udp_datagram
  simp only [hlen, if_false, h2, h1]
  cases st
  simp

/-- The loop body on an empty datagram, from any sender and in any state:
line 331 skips it, so nothing is sent, no resolver call is made, and
`cached_port_int` and the locals are left as they were. -/
theorem relay_udp_datagram_empty (env : UdpEnv) (client_ip : address) (g : Nat)
    (st : UdpState) (sender_ep : endpoint) :
    relay_udp_datagram env client_ip g st sender_ep [] = ⟨g, st, .skipped, []⟩ := by
  rfl

/-- C13, counterexample: an association whose client address is 10.0.0.1
and whose `client_port` is still 0 receives an empty datagram from
10.0.0.1:5000, and an empty datagram from 127.0.0.1:53. The first sender
satisfies the client-side condition and the second does not, yet neither
datagram is handled on the client-side or on the target-side path: both are
skipped at line 331. -/
theorem C13_counterexample :
    (relay_udp_datagram udp_env_ok client_ip_a 0 UdpState.init ⟨client_ip_a, 5000⟩ []).path =
      .skipped ∧
    (relay_udp_datagram udp_env_ok client_ip_a 0 UdpState.init ⟨loopback_v4, 53⟩ []).path =
      .skipped := by
  decide

/-- C13, amended: a received non-empty datagram from sender S is handled on
the client-side path if and only if S.ip equals `client_ip` and either
`client_port` is 0 or S.port equals `client_port`; every other non-empty
datagram, one from `client_ip` with another port than the learned
`client_port` included, is handled on the target-side path. A datagram of
length 0, from any sender and in any state, is handled on neither path: it
is skipped, with nothing sent and the state unchanged. -/
theorem C13_udp_sender_classification (env : UdpEnv) (client_ip : address) (g : Nat)
    (st : UdpState) (sender_ep : endpoint) (buffer : List Nat) :
    (buffer ≠ [] →
      ((∃ lookup,
          (relay_udp_datagram env client_ip g st sender_ep buffer).path = .client lookup) ↔
        sender_ep.addr = client_ip ∧
          (st.client_port = 0 ∨ sender_ep.port = st.client_port)) ∧
      (¬ (sender_ep.addr = client_ip ∧
          (st.client_port = 0 ∨ sender_ep.port = st.client_port)) →
        (relay_udp_datagram env client_ip g st sender_ep buffer).path = .target) ∧
      (sender_ep.addr = client_ip → st.client_port ≠ 0 → sender_ep.port ≠ st.client_port →
        (relay_udp_datagram env client_ip g st sender_ep buffer).path = .target)) ∧
    (buffer = [] →
      (relay_udp_datagram env client_ip g st sender_ep buffer).path = .skipped ∧
      (∀ lookup,
        (relay_udp_datagram env client_ip g st sender_ep buffer).path ≠ .client lookup) ∧
      (relay_udp_datagram env client_ip g st sender_ep buffer).path ≠ .target ∧
      (relay_udp_datagram env client_ip g st sender_ep buffer).events = [] ∧
      (relay_udp_datagram env client_ip g st sender_ep buffer).state = st) := by
  refine ⟨fun hn => ?_, fun he => ?_⟩
  · have ht : ¬ (sender_ep.addr = client_ip ∧
        (st.client_port = 0 ∨ sender_ep.port = st.client_port)) →
        (relay_udp_datagram env client_ip g st sender_ep buffer).path = .target := by
      intro hc
      rw [relay_udp_datagram_target env client_ip g st sender_ep buffer hn hc]
      split <;> rfl
    refine ⟨⟨?_, ?_⟩, ht, ?_⟩
    · rintro ⟨lookup, hl⟩
      by_contra hc
      rw [ht hc] at hl
      cases hl
    · intro hc
      rw [relay_udp_datagram_client env client_ip g st sender_ep buffer hn hc]
      cases client_header env buffer with
      | none => exact ⟨_, rfl⟩
      | some p =>
        obtain ⟨header_len, current_host, port_nbo⟩ := p
        simp only []
        split <;> exact ⟨_, rfl⟩
    · intro ha h0 hp
      exact ht (fun hc => hc.2.elim h0 hp)
  · subst he
    rw [relay_udp_datagram_empty]
    refine ⟨rfl, ?_, ?_, rfl, rfl⟩
    · intro lookup h
      cases h
    · intro h
      cases h

/-- Instances of the amended C13: a one-byte datagram from 10.0.0.1:5000
while `client_port` is 0 is client-side; one from 127.0.0.1:53 is
target-side; an empty datagram from 10.0.0.1:5000 after the client
10.0.0.1:5000 has been learned is skipped. -/
theorem C13_udp_sender_classification_witness :
    (∃ lookup, (relay_udp_datagram udp_env_ok client_ip_a 0 UdpState.init
        ⟨client_ip_a, 5000⟩ [7]).path = .client lookup) ∧
    (relay_udp_datagram udp_env_ok client_ip_a 0 UdpState.init ⟨loopback_v4, 53⟩ [7]).path =
      .target ∧
    (relay_udp_datagram udp_env_ok client_ip_a 0 UdpState.learned ⟨client_ip_a, 5000⟩
        []).path = .skipped :=
  ⟨((C13_udp_sender_classification udp_env_ok client_ip_a 0 UdpState.init ⟨client_ip_a, 5000⟩
      [7]).1 (by decide)).1.2 ⟨rfl, Or.inl rfl⟩,
   ((C13_udp_sender_classification udp_env_ok client_ip_a 0 UdpState.init ⟨loopback_v4, 53⟩
      [7]).1 (by decide)).2.1 (by decide),
   ((C13_udp_sender_classification udp_env_ok client_ip_a 0 UdpState.learned
      ⟨client_ip_a, 5000⟩ []).2 rfl).1⟩

/-- C14, counterexample: while `client_port` is 0 an empty datagram arrives
from 10.0.0.1:5000, the client address of the association. After it has been
processed `client_port` is still 0, not 5000. -/
theorem C14_counterexample :
    (relay_udp_datagram udp_env_ok client_ip_a 0 UdpState.init
        ⟨client_ip_a, 5000⟩ []).state.client_port = 0 ∧
    (relay_udp_datagram udp_env_ok client_ip_a 0 UdpState.init
        ⟨client_ip_a, 5000⟩ []).state.client_port ≠ 5000 := by
  decide

/-- C14, amended: for every non-empty datagram received from `client_ip`
while `client_port` is 0, whatever its length and content (too short,
non-zero reserved bytes, fragmented, unknown address type), `client_port`
equals the port of the sender after the datagram has been processed. An
empty datagram, from any sender and in any state, does not teach the port:
after it `client_port` and `last_client_ep` are what they were, so a
`client_port` of 0 is still 0. -/
theorem C14_client_port_learning (env : UdpEnv) (client_ip : address) (g : Nat)
    (st : UdpState) (sender_ep : endpoint) (buffer : List Nat) :
    (buffer ≠ [] → sender_ep.addr = client_ip → st.client_port = 0 →
      (relay_udp_datagram env client_ip g st sender_ep buffer).state.client_port =
        sender_ep.port) ∧
    (buffer = [] →
      (relay_udp_datagram env client_ip g st sender_ep buffer).state.client_port =
        st.client_port ∧
      (relay_udp_datagram env client_ip g st sender_ep buffer).state.last_client_ep =
        st.last_client_ep ∧
      (st.client_port = 0 →
        (relay_udp_datagram env client_ip g st sender_ep buffer).state.client_port = 0)) := by
  refine ⟨fun hn ha h0 => ?_, fun he => ?_⟩
  · rw [relay_udp_datagram_client env client_ip g st sender_ep buffer hn ⟨ha, Or.inl h0⟩]
    cases client_header env buffer with
    | none => rfl
    | some p =>
      obtain ⟨header_len, current_host, port_nbo⟩ := p
      have hl : (cache_lookup env g
          { st with client_port := sender_ep.port, last_client_ep := sender_ep }
          current_host port_nbo).2.1.client_port = sender_ep.port := by
        unfold cache_lookup
        split
        · rfl
        · split <;> rfl
      simp only []
      split <;> exact hl
  · subst he
    rw [relay_udp_datagram_empty]
    exact ⟨rfl, rfl, fun h0 => h0⟩

/-- Instances of the amended C14: after a fragmented datagram and after a
one-byte datagram from 10.0.0.1:5000 the port is 5000; after an empty
datagram from 10.0.0.1:5000 it is still 0. -/
theorem C14_client_port_learning_witness :
    (relay_udp_datagram udp_env_ok client_ip_a 0 UdpState.init ⟨client_ip_a, 5000⟩
        [0, 0, 1, 1, 127, 0, 0, 1, 0, 80, 7]).state.client_port = 5000 ∧
    (relay_udp_datagram udp_env_ok client_ip_a 0 UdpState.init ⟨client_ip_a, 5000⟩
        [7]).state.client_port = 5000 ∧
    (relay_udp_datagram udp_env_ok client_ip_a 0 UdpState.init ⟨client_ip_a, 5000⟩
        []).state.client_port = 0 :=
  ⟨(C14_client_port_learning udp_env_ok client_ip_a 0 UdpState.init ⟨client_ip_a, 5000⟩
      [0, 0, 1, 1, 127, 0, 0, 1, 0, 80, 7]).1 (by decide) rfl rfl,
   (C14_client_port_learning udp_env_ok client_ip_a 0 UdpState.init ⟨client_ip_a, 5000⟩
      [7]).1 (by decide) rfl rfl,
   ((C14_client_port_learning udp_env_ok client_ip_a 0 UdpState.init ⟨client_ip_a, 5000⟩
      []).2 rfl).2.2 rfl⟩

/-- C15: a datagram from a client-side sender is dropped, with no operation
issued (nothing sent, no resolver call) and the cache left as it was,
whenever it has fewer than 10 bytes, or byte 0 or byte 1 is not zero, or
byte 2 is not zero, or byte 3 is none of 1, 3, 4, or the declared header
length (10, 22, or 7 plus byte 4) exceeds its length; and a datagram from a
client-side sender for which none of these holds reaches the destination
lookup, with the host and the port its header names. -/
theorem C15_udp_client_drop_rule (env : UdpEnv) (client_ip : address) (g : Nat)
    (st : UdpState) (sender_ep : endpoint) (buffer : List Nat)
    (hc : sender_ep.addr = client_ip ∧ (st.client_port = 0 ∨ sender_ep.port = st.client_port)) :
    ((buffer.length < 10 ∨ buffer.getD 0 0 ≠ 0 ∨ buffer.getD 1 0 ≠ 0 ∨ buffer.getD 2 0 ≠ 0 ∨
        ¬ (buffer.getD 3 0 = 0x01 ∨ buffer.getD 3 0 = 0x03 ∨ buffer.getD 3 0 = 0x04) ∨
        buffer.length < declared_header_len buffer) →
      (relay_udp_datagram env client_ip g st sender_ep buffer).events = [] ∧
      ((relay_udp_datagram env client_ip g st sender_ep buffer).path = .skipped ∨
        (relay_udp_datagram env client_ip g st sender_ep buffer).path = .client none) ∧
      (relay_udp_datagram env client_ip g st sender_ep buffer).cached_port_int = g ∧
      (relay_udp_datagram env client_ip g st sender_ep buffer).state.cached_host =
        st.cached_host ∧
      (relay_udp_datagram env client_ip g st sender_ep buffer).state.has_cached_target =
        st.has_cached_target) ∧
    (¬ (buffer.length < 10 ∨ buffer.getD 0 0 ≠ 0 ∨ buffer.getD 1 0 ≠ 0 ∨ buffer.getD 2 0 ≠ 0 ∨
        ¬ (buffer.getD 3 0 = 0x01 ∨ buffer.getD 3 0 = 0x03 ∨ buffer.getD 3 0 = 0x04) ∨
        buffer.length < declared_header_len buffer) →
      ∃ port_nbo hit, (relay_udp_datagram env client_ip g st sender_ep buffer).path =
        .client (some (header_host env buffer, port_nbo, hit))) := by
  have hrule : udp_drop_rule buffer = true ↔
      (buffer.length < 10 ∨ buffer.getD 0 0 ≠ 0 ∨ buffer.getD 1 0 ≠ 0 ∨ buffer.getD 2 0 ≠ 0 ∨
        ¬ (buffer.getD 3 0 = 0x01 ∨ buffer.getD 3 0 = 0x03 ∨ buffer.getD 3 0 = 0x04) ∨
        buffer.length < declared_header_len buffer) := by
    unfold udp_drop_rule
    generalize buffer.getD 0 0 = b0
    generalize buffer.getD 1 0 = b1
    generalize buffer.getD 2 0 = b2
    generalize buffer.getD 3 0 = b3
    simp only [Bool.or_eq_true, decide_eq_true_eq, Bool.not_eq_true', Bool.or_eq_false_iff,
      decide_eq_false_iff_not]
    tauto
  constructor
  · intro hd
    by_cases hn : buffer = []
    · subst hn
      simp [relay_udp_datagram]
    · rw [relay_udp_datagram_client env client_ip g st sender_ep buffer hn hc,
        client_header_eq, hrule.2 hd]
      simp
  · intro hd
    have hn : buffer ≠ [] := by
      intro h
      subst h
      exact hd (Or.inl (by simp))
    have hr : udp_drop_rule buffer = false := by
      cases h : udp_drop_rule buffer
      · rfl
      · exact absurd (hrule.1 h) hd
    rw [relay_udp_datagram_client env client_ip g st sender_ep buffer hn hc,
      client_header_eq, hr]
    simp only [Bool.false_eq_true, if_false]
    split <;> exact ⟨_, _, rfl⟩

/-- Instances of C15: a fragmented datagram from the client is dropped; a
well-formed one for 127.0.0.1:80 reaches the lookup. -/
theorem C15_udp_client_drop_rule_witness :
    (relay_udp_datagram udp_env_ok client_ip_a 0 UdpState.init ⟨client_ip_a, 5000⟩
        [0, 0, 1, 1, 127, 0, 0, 1, 0, 80, 7]).events = [] ∧
    (∃ port_nbo hit, (relay_udp_datagram udp_env_ok client_ip_a 0 UdpState.init
        ⟨client_ip_a, 5000⟩ [0, 0, 0, 1, 127, 0, 0, 1, 0, 80, 7]).path =
      .client (some (header_host udp_env_ok [0, 0, 0, 1, 127, 0, 0, 1, 0, 80, 7],
        port_nbo, hit))) :=
  ⟨((C15_udp_client_drop_rule udp_env_ok client_ip_a 0 UdpState.init ⟨client_ip_a, 5000⟩
      [0, 0, 1, 1, 127, 0, 0, 1, 0, 80, 7] ⟨rfl, Or.inl rfl⟩).1 (by decide)).1,
   (C15_udp_client_drop_rule udp_env_ok client_ip_a 0 UdpState.init ⟨client_ip_a, 5000⟩
      [0, 0, 0, 1, 127, 0, 0, 1, 0, 80, 7] ⟨rfl, Or.inl rfl⟩).2 (by decide)⟩

/-- A client-side datagram that passes the header checks, on a cache hit. -/
theorem relay_udp_datagram_hit (env : UdpEnv) (client_ip : address) (g : Nat)
    (st : UdpState) (sender_ep : endpoint) (buffer : List Nat) (hn : buffer ≠ [])
    (hc : sender_ep.addr = client_ip ∧ (st.client_port = 0 ∨ sender_ep.port = st.client_port))
    (header_len : Nat) (host : List Nat) (port : Nat)
    (hp : client_header env buffer = some (header_len, host, port))
    (hhit : st.has_cached_target = true ∧ port = g ∧ host = st.cached_host) :
    relay_udp_datagram env client_ip g st sender_ep buffer =
      ⟨g, { st with client_port := sender_ep.port, last_client_ep := sender_ep },
        .client (some (host, port, true)),
        [.forward ((buffer.drop header_len).take (buffer.length - header_len))
          st.cached_target_ep]⟩ := by
  rw [relay_udp_datagram_client env client_ip g st sender_ep buffer hn hc, hp]
  obtain ⟨h1, h2, h3⟩ := hhit
  simp [cache_lookup, h1, h2, h3]

/-- A client-side datagram that passes the header checks, on a cache miss
with a resolution that returns a first endpoint. -/
theorem relay_udp_datagram_miss_resolved (env : UdpEnv) (client_ip : address) (g : Nat)
    (st : UdpState) (sender_ep : endpoint) (buffer : List Nat) (hn : buffer ≠ [])
    (hc : sender_ep.addr = client_ip ∧ (st.client_port = 0 ∨ sender_ep.port = st.client_port))
    (header_len : Nat) (host : List Nat) (port : Nat)
    (hp : client_header env buffer = some (header_len, host, port))
    (hmiss : ¬ (st.has_cached_target = true ∧ port = g ∧ host = st.cached_host))
    (ep : endpoint) (rest : List endpoint) (hr : env.resolve host port = some (ep :: rest)) :
    relay_udp_datagram env client_ip g st sender_ep buffer =
      ⟨port,
        { st with client_port := sender_ep.port, last_client_ep := sender_ep,
                  cached_host := host, cached_port_str := some port,
                  cached_target_ep := ep, has_cached_target := true },
        .client (some (host, port, false)),
        [.resolve host port,
         .forward ((buffer.drop header_len).take (buffer.length - header_len)) ep]⟩ := by
  rw [relay_udp_datagram_client env client_ip g st sender_ep buffer hn hc, hp]
  have hcond : (st.has_cached_target && port == g && host == st.cached_host) = false := by
    by_cases h1 : st.has_cached_target = true <;> by_cases h2 : port = g <;>
      by_cases h3 : host = st.cached_host <;> simp_all
  simp [cache_lookup, hcond, hr]

/-- A client-side datagram that passes the header checks, on a cache miss
with a resolution that fails or returns nothing. -/
theorem relay_udp_datagram_miss_failed (env : UdpEnv) (client_ip : address) (g : Nat)
    (st : UdpState) (sender_ep : endpoint) (buffer : List Nat) (hn : buffer ≠ [])
    (hc : sender_ep.addr = client_ip ∧ (st.client_port = 0 ∨ sender_ep.port = st.client_port))
    (header_len : Nat) (host : List Nat) (port : Nat)
    (hp : client_header env buffer = some (header_len, host, port))
    (hmiss : ¬ (st.has_cached_target = true ∧ port = g ∧ host = st.cached_host))
    (hr : env.resolve host port = none ∨ env.resolve host port = some []) :
    relay_udp_datagram env client_ip g st sender_ep buffer =
      ⟨port,
        { st with client_port := sender_ep.port, last_client_ep := sender_ep,
                  cached_host := host, cached_port_str := some port,
                  has_cached_target := false },
        .client (some (host, port, false)),
        [.resolve host port]⟩ := by
  rw [relay_udp_datagram_client env client_ip g st sender_ep buffer hn hc, hp]
  have hcond : (st.has_cached_target && port == g && host == st.cached_host) = false := by
    by_cases h1 : st.has_cached_target = true <;> by_cases h2 : port = g <;>
      by_cases h3 : host = st.cached_host <;> simp_all
  rcases hr with hr | hr <;> simp [cache_lookup, hcond, hr]

/-- What one loop iteration does to the cache: either it makes no lookup and
leaves `cached_port_int` and the cache fields alone, or it makes a lookup
for some host and port, after which `cached_host` and `cached_port_int` are
that host and port; the lookup is a hit exactly when the cache held a valid
entry for them, and a hit leaves the cache fields alone. -/
theorem relay_udp_datagram_cache (env : UdpEnv) (client_ip : address) (g : Nat)
    (st : UdpState) (sender_ep : endpoint) (buffer : List Nat) :
    ((relay_udp_datagram env client_ip g st sender_ep buffer).path = .skipped ∨
      (relay_udp_datagram env client_ip g st sender_ep buffer).path = .target ∨
      (relay_udp_datagram env client_ip g st sender_ep buffer).path = .client none) ∧
      (relay_udp_datagram env client_ip g st sender_ep buffer).cached_port_int = g ∧
      (relay_udp_datagram env client_ip g st sender_ep buffer).state.cached_host =
        st.cached_host ∧
      (relay_udp_datagram env client_ip g st sender_ep buffer).state.cached_target_ep =
        st.cached_target_ep ∧
      (relay_udp_datagram env client_ip g st sender_ep buffer).state.has_cached_target =
        st.has_cached_target ∨
    ∃ host port hit,
      (relay_udp_datagram env client_ip g st sender_ep buffer).path =
        .client (some (host, port, hit)) ∧
      (relay_udp_datagram env client_ip g st sender_ep buffer).cached_port_int = port ∧
      (relay_udp_datagram env client_ip g st sender_ep buffer).state.cached_host = host ∧
      (hit = true ↔ (st.has_cached_target = true ∧ port = g ∧ host = st.cached_host)) ∧
      (hit = true →
        (relay_udp_datagram env client_ip g st sender_ep buffer).state.cached_target_ep =
          st.cached_target_ep ∧
        (relay_udp_datagram env client_ip g st sender_ep buffer).state.has_cached_target =
          true) ∧
      (hit = false →
        ((relay_udp_datagram env client_ip g st sender_ep buffer).state.has_cached_target =
            true →
          ∃ rest, env.resolve host port =
            some ((relay_udp_datagram env client_ip g st sender_ep buffer).state.cached_target_ep
              :: rest))) := by
  by_cases hn : buffer = []
  · subst hn
    left
    simp [relay_udp_datagram]
  · by_cases hc : sender_ep.addr = client_ip ∧
        (st.client_port = 0 ∨ sender_ep.port = st.client_port)
    · cases hp : client_header env buffer with
      | none =>
        left
        rw [relay_udp_datagram_client env client_ip g st sender_ep buffer hn hc, hp]
        simp
      | some p =>
        obtain ⟨header_len, host, port⟩ := p
        right
        by_cases hhit : st.has_cached_target = true ∧ port = g ∧ host = st.cached_host
        · rw [relay_udp_datagram_hit env client_ip g st sender_ep buffer hn hc header_len host
            port hp hhit]
          refine ⟨host, port, true, rfl, hhit.2.1.symm, hhit.2.2.symm, ?_, ?_, ?_⟩
          · simp [hhit]
          · intro _; exact ⟨rfl, hhit.1⟩
          · intro h; cases h
        · cases hr : env.resolve host port with
          | none =>
            rw [relay_udp_datagram_miss_failed env client_ip g st sender_ep buffer hn hc
              header_len host port hp hhit (Or.inl hr)]
            refine ⟨host, port, false, rfl, rfl, rfl, ?_, ?_, ?_⟩
            · simp [hhit]
            · intro h; cases h
            · intro _ h; cases h
          | some eps =>
            cases eps with
            | nil =>
              rw [relay_udp_datagram_miss_failed env client_ip g st sender_ep buffer hn hc
                header_len host port hp hhit (Or.inr hr)]
              refine ⟨host, port, false, rfl, rfl, rfl, ?_, ?_, ?_⟩
              · simp [hhit]
              · intro h; cases h
              · intro _ h; cases h
            | cons ep rest =>
              rw [relay_udp_datagram_miss_resolved env client_ip g st sender_ep buffer hn hc
                header_len host port hp hhit ep rest hr]
              refine ⟨host, port, false, rfl, rfl, rfl, ?_, ?_, ?_⟩
              · simp [hhit]
              · intro h; cases h
              · intro _ _; exact ⟨rest, hr⟩
    · left
      rw [relay_udp_datagram_target env client_ip g st sender_ep buffer hn hc]
      split <;> simp

/-- One loop iteration keeps the cache fields in step with the most recent
lookup. -/
theorem cache_records_step (env : UdpEnv) (client_ip : address) (g : Nat) (st : UdpState)
    (sender_ep : endpoint) (buffer : List Nat)
    (cur : Option (List Nat × Nat × Option endpoint)) (h : cache_records cur g st)
    (rest : List UdpStep) :
    ∃ cur2, last_lookup_from cur
        (relay_udp_datagram env client_ip g st sender_ep buffer :: rest) =
        last_lookup_from cur2 rest ∧
      cache_records cur2 (relay_udp_datagram env client_ip g st sender_ep buffer).cached_port_int
        (relay_udp_datagram env client_ip g st sender_ep buffer).state := by
  rcases relay_udp_datagram_cache env client_ip g st sender_ep buffer with
    ⟨hp, hg, hh, he, hv⟩ | ⟨host, port, hit, hp, hg, hh, _, _, _⟩
  · refine ⟨cur, ?_, ?_⟩
    · rcases hp with hp | hp | hp <;> simp [last_lookup_from, hp]
    · intro h2 p2 ep2
      rw [h h2 p2 ep2, hg, hh, he, hv]
  · refine ⟨some (host, port,
      if (relay_udp_datagram env client_ip g st sender_ep buffer).state.has_cached_target
      then some (relay_udp_datagram env client_ip g st sender_ep buffer).state.cached_target_ep
      else none), by simp only [last_lookup_from, hp], ?_⟩
    intro h2 p2 ep2
    rw [hg, hh]
    cases hv : (relay_udp_datagram env client_ip g st sender_ep buffer).state.has_cached_target
    · simp
    · simp only [if_true, Option.some.injEq, Prod.mk.injEq, true_and]

/-- In every run of the loop the cache fields record the most recent
lookup. -/
theorem cache_records_run (env : UdpEnv) (client_ip : address) :
    ∀ (inputs : List UdpInput) (g : Nat) (st : UdpState)
      (cur : Option (List Nat × Nat × Option endpoint)), cache_records cur g st →
      cache_records (last_lookup_from cur (relay_udp_loop env client_ip g st inputs))
        (final_state g st (relay_udp_loop env client_ip g st inputs)).1
        (final_state g st (relay_udp_loop env client_ip g st inputs)).2 := by
  intro inputs
  induction inputs with
  | nil => intro g st cur h; simpa [relay_udp_loop, last_lookup_from, final_state] using h
  | cons i rest ih =>
    intro g st cur h
    cases i with
    | control => simpa [relay_udp_loop, last_lookup_from, final_state] using h
    | receive_error =>
      simp only [relay_udp_loop, last_lookup_from, final_state]
      exact ih g st cur h
    | datagram sender_ep bytes =>
      simp only [relay_udp_loop, final_state]
      obtain ⟨cur2, he, hc⟩ := cache_records_step env client_ip g st sender_ep bytes cur h
        (relay_udp_loop env client_ip
          (relay_udp_datagram env client_ip g st sender_ep bytes).cached_port_int
          (relay_udp_datagram env client_ip g st sender_ep bytes).state rest)
      rw [he]
      exact ih _ _ cur2 hc

/-- One loop iteration keeps a valid cache entry equal to what the resolver
returns for its key. -/
theorem cache_coherent_step (env : UdpEnv) (client_ip : address) (g : Nat) (st : UdpState)
    (sender_ep : endpoint) (buffer : List Nat) (h : cache_coherent env g st) :
    cache_coherent env (relay_udp_datagram env client_ip g st sender_ep buffer).cached_port_int
      (relay_udp_datagram env client_ip g st sender_ep buffer).state := by
  rcases relay_udp_datagram_cache env client_ip g st sender_ep buffer with
    ⟨_, hg, hh, he, hv⟩ | ⟨host, port, hit, _, hg, hh, hiff, hhit, hmiss⟩
  · intro hv2
    rw [hg, hh, he]
    exact h (hv ▸ hv2)
  · intro hv2
    rw [hg, hh]
    cases hit with
    | true =>
      obtain ⟨h1, h2, h3⟩ := hiff.1 rfl
      rw [(hhit rfl).1, h2, h3]
      exact h h1
    | false => exact hmiss rfl hv2

/-- In every run of the loop a valid cache entry is what the resolver
returns for its key. -/
theorem cache_coherent_run (env : UdpEnv) (client_ip : address) :
    ∀ (inputs : List UdpInput) (g : Nat) (st : UdpState), cache_coherent env g st →
      cache_coherent env (final_state g st (relay_udp_loop env client_ip g st inputs)).1
        (final_state g st (relay_udp_loop env client_ip g st inputs)).2 := by
  intro inputs
  induction inputs with
  | nil => intro g st h; simpa [relay_udp_loop, final_state] using h
  | cons i rest ih =>
    intro g st h
    cases i with
    | control => simpa [relay_udp_loop, final_state] using h
    | receive_error =>
      simp only [relay_udp_loop, final_state]
      exact ih g st h
    | datagram sender_ep bytes =>
      simp only [relay_udp_loop, final_state]
      exact ih _ _ (cache_coherent_step env client_ip g st sender_ep bytes h)

theorem getD_lt_of_bytes (buffer : List Nat) (hb : ∀ b ∈ buffer, b < 256) (i : Nat) :
    buffer.getD i 0 < 256 := by
  by_cases hi : i < buffer.length
  · rw [List.getD_eq_getElem _ _ hi]
    exact hb _ (List.getElem_mem hi)
  · rw [List.getD_eq_default _ _ (by omega)]
    decide

theorem declared_header_len_ge (buffer : List Nat) : 7 ≤ declared_header_len buffer := by
  unfold declared_header_len
  split
  · decide
  · split
    · decide
    · omega

/-- A datagram of bytes that passes the header checks parses to the header
length it declares and the host and port it names. -/
theorem client_header_pass (env : UdpEnv) (buffer : List Nat) (hb : ∀ b ∈ buffer, b < 256)
    (hpass : udp_drop_rule buffer = false) :
    client_header env buffer =
      some (declared_header_len buffer, header_host env buffer, header_port buffer) := by
  rw [client_header_eq, hpass]
  have h7 := declared_header_len_ge buffer
  have e : declared_header_len buffer - 2 + 1 = declared_header_len buffer - 1 := by omega
  simp only [Bool.false_eq_true, if_false, e]
  rw [shift_or_eq _ _ (getD_lt_of_bytes buffer hb _) (getD_lt_of_bytes buffer hb _)]
  rfl

theorem ne_nil_of_pass (buffer : List Nat) (hpass : udp_drop_rule buffer = false) :
    buffer ≠ [] := by
  intro h
  subst h
  simp [udp_drop_rule] at hpass

theorem payload_eq (buffer : List Nat) (h : Nat) :
    (buffer.drop h).take (buffer.length - h) = buffer.drop h := by
  apply List.take_of_length_le
  simp

theorem cache_records_init (g0 : Nat) : cache_records none g0 UdpState.init := by
  intro h p ep
  simp [UdpState.init]

theorem cache_coherent_init (env : UdpEnv) (g0 : Nat) : cache_coherent env g0 UdpState.init := by
  intro h
  simp [UdpState.init] at h

/-- What is sent for a datagram from a client-side sender that passes the
header checks, in any state of the cache: the lookup is made for the host
and the port the header names, the resolver is called exactly on a miss,
and when the lookup yields an endpoint exactly one datagram is sent, to
that endpoint, carrying the bytes after the header. -/
theorem relay_udp_datagram_forward (env : UdpEnv) (client_ip : address) (g : Nat)
    (st : UdpState) (sender_ep : endpoint) (buffer : List Nat)
    (hc : sender_ep.addr = client_ip ∧ (st.client_port = 0 ∨ sender_ep.port = st.client_port))
    (hb : ∀ b ∈ buffer, b < 256) (hpass : udp_drop_rule buffer = false) :
    ∃ hit, (relay_udp_datagram env client_ip g st sender_ep buffer).path =
        .client (some (header_host env buffer, header_port buffer, hit)) ∧
      (relay_udp_datagram env client_ip g st sender_ep buffer).events =
        (if hit then [] else [.resolve (header_host env buffer) (header_port buffer)]) ++
        (if (relay_udp_datagram env client_ip g st sender_ep buffer).state.has_cached_target
          then [.forward (buffer.drop (declared_header_len buffer))
            (relay_udp_datagram env client_ip g st sender_ep buffer).state.cached_target_ep]
          else []) := by
  have hn := ne_nil_of_pass buffer hpass
  have hp := client_header_pass env buffer hb hpass
  by_cases hhit : st.has_cached_target = true ∧ header_port buffer = g ∧
      header_host env buffer = st.cached_host
  · rw [relay_udp_datagram_hit env client_ip g st sender_ep buffer hn hc _ _ _ hp hhit]
    exact ⟨true, rfl, by simp [payload_eq, hhit.1]⟩
  · cases hr : env.resolve (header_host env buffer) (header_port buffer) with
    | none =>
      rw [relay_udp_datagram_miss_failed env client_ip g st sender_ep buffer hn hc _ _ _ hp
        hhit (Or.inl hr)]
      exact ⟨false, rfl, by simp⟩
    | some eps =>
      cases eps with
      | nil =>
        rw [relay_udp_datagram_miss_failed env client_ip g st sender_ep buffer hn hc _ _ _ hp
          hhit (Or.inr hr)]
        exact ⟨false, rfl, by simp⟩
      | cons ep rest =>
        rw [relay_udp_datagram_miss_resolved env client_ip g st sender_ep buffer hn hc _ _ _
          hp hhit ep rest hr]
        exact ⟨false, rfl, by simp [payload_eq]⟩

/-- What holds of the forwarding of a client-side datagram in an association
that runs alone. For every datagram D of bytes from a client-side sender
that passes the header checks with declared header length h, the
destination looked up is the host encoded in D[4..h-2) and the port
D[h-2]*256 + D[h-1], and (1) in any state of the association, when the
lookup yields an endpoint exactly one datagram is sent, to the cached
endpoint, with payload D[h..n), after the resolver call on a miss; (2) in an
association that runs its loop from the start with no other association
writing `cached_port_int` in between, when that destination resolves the
endpoint is the first one the resolver returns for it: the operations are
exactly one send to it of the bytes D[h..n), preceded by the resolver call
on a miss; (3) when n = h the datagram sent is empty. -/
theorem udp_client_forwarding_alone (env : UdpEnv) (client_ip : address) (g0 : Nat)
    (inputs : List UdpInput) (sender_ep : endpoint) (buffer : List Nat)
    (ep : endpoint) (rest : List endpoint)
    (hc : sender_ep.addr = client_ip ∧
      (client_port_after env client_ip g0 inputs = 0 ∨
        sender_ep.port = client_port_after env client_ip g0 inputs))
    (hb : ∀ b ∈ buffer, b < 256) (hpass : udp_drop_rule buffer = false)
    (hr : env.resolve (header_host env buffer) (header_port buffer) = some (ep :: rest)) :
    (∀ (g : Nat) (st : UdpState),
      sender_ep.addr = client_ip ∧ (st.client_port = 0 ∨ sender_ep.port = st.client_port) →
      ∃ hit, (relay_udp_datagram env client_ip g st sender_ep buffer).path =
          .client (some (header_host env buffer, header_port buffer, hit)) ∧
        (relay_udp_datagram env client_ip g st sender_ep buffer).events =
          (if hit then [] else [.resolve (header_host env buffer) (header_port buffer)]) ++
          (if (relay_udp_datagram env client_ip g st sender_ep buffer).state.has_cached_target
            then [.forward (buffer.drop (declared_header_len buffer))
              (relay_udp_datagram env client_ip g st sender_ep buffer).state.cached_target_ep]
            else [])) ∧
    ((next_datagram env client_ip g0 inputs sender_ep buffer).events =
        [.forward (buffer.drop (declared_header_len buffer)) ep] ∨
      (next_datagram env client_ip g0 inputs sender_ep buffer).events =
        [.resolve (header_host env buffer) (header_port buffer),
         .forward (buffer.drop (declared_header_len buffer)) ep]) ∧
    (∃ hit, (next_datagram env client_ip g0 inputs sender_ep buffer).path =
      .client (some (header_host env buffer, header_port buffer, hit))) ∧
    (buffer.length = declared_header_len buffer →
      .forward [] ep ∈ (next_datagram env client_ip g0 inputs sender_ep buffer).events) := by
  have hn := ne_nil_of_pass buffer hpass
  have hp := client_header_pass env buffer hb hpass
  have hcoh := cache_coherent_run env client_ip inputs g0 UdpState.init
    (cache_coherent_init env g0)
  have hev : ((next_datagram env client_ip g0 inputs sender_ep buffer).events =
        [.forward (buffer.drop (declared_header_len buffer)) ep] ∨
      (next_datagram env client_ip g0 inputs sender_ep buffer).events =
        [.resolve (header_host env buffer) (header_port buffer),
         .forward (buffer.drop (declared_header_len buffer)) ep]) ∧
    (∃ hit, (next_datagram env client_ip g0 inputs sender_ep buffer).path =
      .client (some (header_host env buffer, header_port buffer, hit))) := by
    unfold next_datagram
    unfold client_port_after at hc
    unfold relay_udp at hc hcoh ⊢
    generalize (final_state g0 UdpState.init
      (relay_udp_loop env client_ip g0 UdpState.init inputs)).1 = g at hc hcoh ⊢
    generalize (final_state g0 UdpState.init
      (relay_udp_loop env client_ip g0 UdpState.init inputs)).2 = st at hc hcoh ⊢
    by_cases hhit : st.has_cached_target = true ∧ header_port buffer = g ∧
        header_host env buffer = st.cached_host
    · rw [relay_udp_datagram_hit env client_ip g st sender_ep buffer hn hc _ _ _ hp hhit]
      obtain ⟨rest2, hres⟩ := hcoh hhit.1
      rw [← hhit.2.1, ← hhit.2.2, hr] at hres
      have he : st.cached_target_ep = ep := by
        simp only [Option.some.injEq, List.cons.injEq] at hres
        exact hres.1.symm
      refine ⟨Or.inl ?_, ⟨true, rfl⟩⟩
      simp [payload_eq, he]
    · rw [relay_udp_datagram_miss_resolved env client_ip g st sender_ep buffer hn hc _ _ _ hp
        hhit ep rest hr]
      refine ⟨Or.inr ?_, ⟨false, rfl⟩⟩
      simp [payload_eq]
  refine ⟨fun g st hc2 => relay_udp_datagram_forward env client_ip g st sender_ep buffer hc2 hb
    hpass, hev.1, hev.2, ?_⟩
  intro hlen
  have hd : buffer.drop (declared_header_len buffer) = [] := by
    apply List.drop_of_length_le
    omega
  rw [hd] at hev
  rcases hev.1 with h | h <;> rw [h] <;> simp

/-- The first datagram of an association, from 10.0.0.1:5000, for
127.0.0.1:80 and with no payload after its 10-byte header: an empty
datagram is sent to 127.0.0.1:80. -/
theorem udp_client_forwarding_alone_first_datagram :
    ((next_datagram udp_env_ok client_ip_a 0 [] ⟨client_ip_a, 5000⟩
          [0, 0, 0, 1, 127, 0, 0, 1, 0, 80]).events =
        [.forward ([0, 0, 0, 1, 127, 0, 0, 1, 0, 80].drop
          (declared_header_len [0, 0, 0, 1, 127, 0, 0, 1, 0, 80])) ⟨loopback_v4, 80⟩] ∨
      (next_datagram udp_env_ok client_ip_a 0 [] ⟨client_ip_a, 5000⟩
          [0, 0, 0, 1, 127, 0, 0, 1, 0, 80]).events =
        [.resolve (header_host udp_env_ok [0, 0, 0, 1, 127, 0, 0, 1, 0, 80])
          (header_port [0, 0, 0, 1, 127, 0, 0, 1, 0, 80]),
         .forward ([0, 0, 0, 1, 127, 0, 0, 1, 0, 80].drop
          (declared_header_len [0, 0, 0, 1, 127, 0, 0, 1, 0, 80])) ⟨loopback_v4, 80⟩]) ∧
    .forward [] ⟨loopback_v4, 80⟩ ∈ (next_datagram udp_env_ok client_ip_a 0 []
      ⟨client_ip_a, 5000⟩ [0, 0, 0, 1, 127, 0, 0, 1, 0, 80]).events :=
  ⟨(udp_client_forwarding_alone udp_env_ok client_ip_a 0 [] ⟨client_ip_a, 5000⟩
      [0, 0, 0, 1, 127, 0, 0, 1, 0, 80] ⟨loopback_v4, 80⟩ []
      ⟨rfl, Or.inl rfl⟩ (by decide) (by decide) (by decide)).2.1,
   (udp_client_forwarding_alone udp_env_ok client_ip_a 0 [] ⟨client_ip_a, 5000⟩
      [0, 0, 0, 1, 127, 0, 0, 1, 0, 80] ⟨loopback_v4, 80⟩ []
      ⟨rfl, Or.inl rfl⟩ (by decide) (by decide) (by decide)).2.2.2 (by decide)⟩

/-- C16, evaluated where it fails: two associations run in one process, for
the clients 10.0.0.1 and 10.0.0.2. The first receives from its client a
datagram for 127.0.0.1:80, the second one for 127.0.0.1:443, then the first
receives 00 00 00 01 7F 00 00 01 01 BB 63 from its client. This third
datagram passes the header checks with header length 10, its header names
the host 127.0.0.1 and the port 443, and that destination resolves to
127.0.0.1:443; yet the iteration is a cache hit, no resolver call is made,
and the one datagram sent, with payload 63, goes to 127.0.0.1:80, which is
not the resolved endpoint. -/
theorem C16_forward_to_endpoint_of_other_port :
    (relay_udp_pair udp_env_ok client_ip_a client_ip_b 0 UdpState.init UdpState.init
        [(false, ⟨client_ip_a, 5000⟩, [0, 0, 0, 1, 127, 0, 0, 1, 0, 80, 0x61]),
         (true, ⟨client_ip_b, 6000⟩, [0, 0, 0, 1, 127, 0, 0, 1, 1, 187, 0x62]),
         (false, ⟨client_ip_a, 5000⟩, [0, 0, 0, 1, 127, 0, 0, 1, 1, 187, 0x63])]).map
        (fun s => (s.1, s.2.path, s.2.events)) =
      [(false, .client (some ([49, 50, 55, 46, 48, 46, 48, 46, 49], 80, false)),
          [.resolve [49, 50, 55, 46, 48, 46, 48, 46, 49] 80,
           .forward [0x61] ⟨loopback_v4, 80⟩]),
       (true, .client (some ([49, 50, 55, 46, 48, 46, 48, 46, 49], 443, false)),
          [.resolve [49, 50, 55, 46, 48, 46, 48, 46, 49] 443,
           .forward [0x62] ⟨loopback_v4, 443⟩]),
       (false, .client (some ([49, 50, 55, 46, 48, 46, 48, 46, 49], 443, true)),
          [.forward [0x63] ⟨loopback_v4, 80⟩])] ∧
    udp_drop_rule [0, 0, 0, 1, 127, 0, 0, 1, 1, 187, 0x63] = false ∧
    declared_header_len [0, 0, 0, 1, 127, 0, 0, 1, 1, 187, 0x63] = 10 ∧
    header_host udp_env_ok [0, 0, 0, 1, 127, 0, 0, 1, 1, 187, 0x63] =
      [49, 50, 55, 46, 48, 46, 48, 46, 49] ∧
    header_port [0, 0, 0, 1, 127, 0, 0, 1, 1, 187, 0x63] = 443 ∧
    udp_env_ok.resolve (header_host udp_env_ok [0, 0, 0, 1, 127, 0, 0, 1, 1, 187, 0x63])
        (header_port [0, 0, 0, 1, 127, 0, 0, 1, 1, 187, 0x63]) =
      some [⟨loopback_v4, 443⟩] ∧
    (⟨loopback_v4, 80⟩ : endpoint) ≠ ⟨loopback_v4, 443⟩ := by
  decide

/-- C17: every datagram an iteration of the relay sends toward the client is
addressed to `last_client_ep` and consists of 00 00 00, then 01 and the 4
address bytes of the sender S when S is IPv4, or 04 and the 16 address bytes
when S is IPv6, then the 16-bit port of S, high byte first, then all bytes
of the received datagram unchanged; the header added is 10 bytes long for
IPv4 and 22 bytes long for IPv6, so never longer than 22. -/
theorem C17_udp_target_encapsulation (env : UdpEnv) (client_ip : address) (g : Nat)
    (st : UdpState) (sender_ep : endpoint) (buffer datagram : List Nat) (dest : endpoint)
    (hp : sender_ep.port < 65536)
    (hd : .deliver datagram dest ∈
      (relay_udp_datagram env client_ip g st sender_ep buffer).events) :
    dest = st.last_client_ep ∧
    dest = (relay_udp_datagram env client_ip g st sender_ep buffer).state.last_client_ep ∧
    ((∃ a : address_v4, sender_ep.addr = .v4 a ∧
        datagram = [0x00, 0x00, 0x00, 0x01] ++ a.to_bytes ++
          [sender_ep.port / 256, sender_ep.port % 256] ++ buffer ∧
        datagram.length = 10 + buffer.length) ∨
      (∃ a : address_v6, sender_ep.addr = .v6 a ∧
        datagram = [0x00, 0x00, 0x00, 0x04] ++ a.to_bytes ++
          [sender_ep.port / 256, sender_ep.port % 256] ++ buffer ∧
        datagram.length = 22 + buffer.length)) ∧
    datagram.length ≤ 22 + buffer.length := by
  have hdiv : sender_ep.port / 256 % 256 = sender_ep.port / 256 := Nat.mod_eq_of_lt (by omega)
  have hpb := port_bytes_eq sender_ep.port
  simp only [port_bytes, hdiv] at hpb
  have henc : (∃ a : address_v4, sender_ep.addr = .v4 a ∧
        encapsulate sender_ep buffer = [0x00, 0x00, 0x00, 0x01] ++ a.to_bytes ++
          [sender_ep.port / 256, sender_ep.port % 256] ++ buffer ∧
        (encapsulate sender_ep buffer).length = 10 + buffer.length) ∨
      (∃ a : address_v6, sender_ep.addr = .v6 a ∧
        encapsulate sender_ep buffer = [0x00, 0x00, 0x00, 0x04] ++ a.to_bytes ++
          [sender_ep.port / 256, sender_ep.port % 256] ++ buffer ∧
        (encapsulate sender_ep buffer).length = 22 + buffer.length) := by
    cases ha : sender_ep.addr with
    | v4 a =>
      left
      refine ⟨a, rfl, ?_, ?_⟩ <;>
        simp [encapsulate, ha, address.is_v4, address.to_bytes, AddressType.IPV4, hpb, a.size]
      omega
    | v6 a =>
      right
      refine ⟨a, rfl, ?_, ?_⟩ <;>
        simp [encapsulate, ha, address.is_v4, address.to_bytes, AddressType.IPV6, hpb, a.size]
      omega
  by_cases hn : buffer = []
  · subst hn
    simp [relay_udp_datagram] at hd
  · by_cases hc : sender_ep.addr = client_ip ∧
        (st.client_port = 0 ∨ sender_ep.port = st.client_port)
    · exfalso
      cases hch : client_header env buffer with
      | none =>
        rw [relay_udp_datagram_client env client_ip g st sender_ep buffer hn hc, hch] at hd
        simp at hd
      | some p =>
        obtain ⟨header_len, host, port⟩ := p
        by_cases hhit : st.has_cached_target = true ∧ port = g ∧ host = st.cached_host
        · rw [relay_udp_datagram_hit env client_ip g st sender_ep buffer hn hc header_len host
            port hch hhit] at hd
          simp at hd
        · cases hr : env.resolve host port with
          | none =>
            rw [relay_udp_datagram_miss_failed env client_ip g st sender_ep buffer hn hc
              header_len host port hch hhit (Or.inl hr)] at hd
            simp at hd
          | some eps =>
            cases eps with
            | nil =>
              rw [relay_udp_datagram_miss_failed env client_ip g st sender_ep buffer hn hc
                header_len host port hch hhit (Or.inr hr)] at hd
              simp at hd
            | cons ep rest =>
              rw [relay_udp_datagram_miss_resolved env client_ip g st sender_ep buffer hn hc
                header_len host port hch hhit ep rest hr] at hd
              simp at hd
    · rw [relay_udp_datagram_target env client_ip g st sender_ep buffer hn hc] at hd ⊢
      by_cases h0 : st.client_port = 0
      · simp [h0] at hd
      · simp only [h0, if_false, List.mem_singleton, UdpEvent.deliver.injEq] at hd ⊢
        obtain ⟨h1, h2⟩ := hd
        subst h1 h2
        refine ⟨rfl, rfl, henc, ?_⟩
        rcases henc with ⟨_, _, _, hl⟩ | ⟨_, _, _, hl⟩ <;> omega

/-- Instance of C17: after the client 10.0.0.1:5000 has been learned, a
two-byte datagram from 127.0.0.1:80 is sent on to the client behind a
10-byte header. -/
theorem C17_udp_target_encapsulation_witness :
    (⟨client_ip_a, 5000⟩ : endpoint) =
      (⟨⟨client_ip_a, 5000⟩, 5000, [], none, endpoint.default, false⟩ : UdpState).last_client_ep ∧
    ((∃ a : address_v4, loopback_v4 = .v4 a ∧
        [0, 0, 0, 1, 127, 0, 0, 1, 0, 80, 0x48, 0x69] = [0x00, 0x00, 0x00, 0x01] ++ a.to_bytes ++
          [80 / 256, 80 % 256] ++ [0x48, 0x69] ∧
        [0, 0, 0, 1, 127, 0, 0, 1, 0, 80, 0x48, 0x69].length = 10 + [0x48, 0x69].length) ∨
      (∃ a : address_v6, loopback_v4 = .v6 a ∧
        [0, 0, 0, 1, 127, 0, 0, 1, 0, 80, 0x48, 0x69] = [0x00, 0x00, 0x00, 0x04] ++ a.to_bytes ++
          [80 / 256, 80 % 256] ++ [0x48, 0x69] ∧
        [0, 0, 0, 1, 127, 0, 0, 1, 0, 80, 0x48, 0x69].length = 22 + [0x48, 0x69].length)) :=
  ⟨(C17_udp_target_encapsulation udp_env_ok client_ip_a 0
      ⟨⟨client_ip_a, 5000⟩, 5000, [], none, endpoint.default, false⟩ ⟨loopback_v4, 80⟩
      [0x48, 0x69] [0, 0, 0, 1, 127, 0, 0, 1, 0, 80, 0x48, 0x69] ⟨client_ip_a, 5000⟩
      (by decide) (by decide)).1,
   (C17_udp_target_encapsulation udp_env_ok client_ip_a 0
      ⟨⟨client_ip_a, 5000⟩, 5000, [], none, endpoint.default, false⟩ ⟨loopback_v4, 80⟩
      [0x48, 0x69] [0, 0, 0, 1, 127, 0, 0, 1, 0, 80, 0x48, 0x69] ⟨client_ip_a, 5000⟩
      (by decide) (by decide)).2.2.1⟩

/-- C18: within one association, for a datagram D of bytes from a
client-side sender that passes the header checks and names (host, port):
(1) D is a cache hit if and only if the most recent lookup of the
association succeeded and was for the same host string and the same port;
(2) on a hit the only operation is the send to the endpoint stored by that
lookup, with no resolver call; (3) on a miss the slot is replaced by
(host, port) and the resolver is called once, and then (3a) if it returns a
first endpoint, that endpoint is stored and the datagram is sent to it, and
(3b) if it fails or returns nothing, nothing is sent and the slot is
invalid, so that the same datagram, received again, makes the resolver be
called again. -/
theorem C18_udp_resolution_cache (env : UdpEnv) (client_ip : address) (g0 : Nat)
    (inputs : List UdpInput) (sender_ep : endpoint) (buffer : List Nat)
    (hc : sender_ep.addr = client_ip ∧
      (client_port_after env client_ip g0 inputs = 0 ∨
        sender_ep.port = client_port_after env client_ip g0 inputs))
    (hb : ∀ b ∈ buffer, b < 256) (hpass : udp_drop_rule buffer = false) :
    ((next_datagram env client_ip g0 inputs sender_ep buffer).path =
        .client (some (header_host env buffer, header_port buffer, true)) ↔
      ∃ ep, last_lookup (relay_udp env client_ip g0 inputs) =
        some (header_host env buffer, header_port buffer, some ep)) ∧
    (∀ ep, last_lookup (relay_udp env client_ip g0 inputs) =
        some (header_host env buffer, header_port buffer, some ep) →
      (next_datagram env client_ip g0 inputs sender_ep buffer).events =
        [.forward (buffer.drop (declared_header_len buffer)) ep]) ∧
    ((¬ ∃ ep, last_lookup (relay_udp env client_ip g0 inputs) =
        some (header_host env buffer, header_port buffer, some ep)) →
      (next_datagram env client_ip g0 inputs sender_ep buffer).path =
        .client (some (header_host env buffer, header_port buffer, false)) ∧
      (next_datagram env client_ip g0 inputs sender_ep buffer).state.cached_host =
        header_host env buffer ∧
      (next_datagram env client_ip g0 inputs sender_ep buffer).cached_port_int =
        header_port buffer ∧
      (∀ ep rest, env.resolve (header_host env buffer) (header_port buffer) = some (ep :: rest) →
        (next_datagram env client_ip g0 inputs sender_ep buffer).events =
          [.resolve (header_host env buffer) (header_port buffer),
           .forward (buffer.drop (declared_header_len buffer)) ep] ∧
        (next_datagram env client_ip g0 inputs sender_ep buffer).state.has_cached_target =
          true ∧
        (next_datagram env client_ip g0 inputs sender_ep buffer).state.cached_target_ep = ep) ∧
      ((env.resolve (header_host env buffer) (header_port buffer) = none ∨
          env.resolve (header_host env buffer) (header_port buffer) = some []) →
        (next_datagram env client_ip g0 inputs sender_ep buffer).events =
          [.resolve (header_host env buffer) (header_port buffer)] ∧
        (next_datagram env client_ip g0 inputs sender_ep buffer).state.has_cached_target =
          false ∧
        last_lookup (relay_udp env client_ip g0 inputs ++
            [next_datagram env client_ip g0 inputs sender_ep buffer]) =
          some (header_host env buffer, header_port buffer, none) ∧
        (relay_udp_datagram env client_ip
            (next_datagram env client_ip g0 inputs sender_ep buffer).cached_port_int
            (next_datagram env client_ip g0 inputs sender_ep buffer).state
            sender_ep buffer).events =
          [.resolve (header_host env buffer) (header_port buffer)])) := by
  have hn := ne_nil_of_pass buffer hpass
  have hp := client_header_pass env buffer hb hpass
  have hrec := cache_records_run env client_ip inputs g0 UdpState.init none
    (cache_records_init g0)
  have hll : ∀ (steps : List UdpStep) (s : UdpStep) (host : List Nat) (port : Nat) (hit : Bool)
      (cur : Option (List Nat × Nat × Option endpoint)),
      s.path = .client (some (host, port, hit)) → s.state.has_cached_target = false →
      last_lookup_from cur (steps ++ [s]) = some (host, port, none) := by
    intro steps
    induction steps with
    | nil => intro s host port hit cur h1 h2; simp [last_lookup_from, h1, h2]
    | cons t ts ih =>
      intro s host port hit cur h1 h2
      simp only [List.cons_append, last_lookup_from]
      split <;> exact ih s host port hit _ h1 h2
  unfold last_lookup
  unfold next_datagram
  unfold client_port_after at hc
  unfold relay_udp at hc ⊢
  generalize last_lookup_from none (relay_udp_loop env client_ip g0 UdpState.init inputs)
    = cur at hrec ⊢
  generalize (final_state g0 UdpState.init
    (relay_udp_loop env client_ip g0 UdpState.init inputs)).1 = g at hc hrec ⊢
  generalize (final_state g0 UdpState.init
    (relay_udp_loop env client_ip g0 UdpState.init inputs)).2 = st at hc hrec ⊢
  generalize relay_udp_loop env client_ip g0 UdpState.init inputs = hist
  have hiff : (∃ ep, cur = some (header_host env buffer, header_port buffer, some ep)) ↔
      (st.has_cached_target = true ∧ header_port buffer = g ∧
        header_host env buffer = st.cached_host) := by
    constructor
    · rintro ⟨ep, he⟩
      obtain ⟨h1, h2, h3, _⟩ := (hrec _ _ _).1 he
      exact ⟨h1, h3.symm, h2.symm⟩
    · rintro ⟨h1, h2, h3⟩
      exact ⟨st.cached_target_ep, (hrec _ _ _).2 ⟨h1, h3.symm, h2.symm, rfl⟩⟩
  refine ⟨?_, ?_, ?_⟩
  · by_cases hhit : st.has_cached_target = true ∧ header_port buffer = g ∧
        header_host env buffer = st.cached_host
    · rw [relay_udp_datagram_hit env client_ip g st sender_ep buffer hn hc _ _ _ hp hhit]
      simp [hiff.2 hhit]
    · have hno : ¬ ∃ ep, cur = some (header_host env buffer, header_port buffer, some ep) :=
        fun h => hhit (hiff.1 h)
      cases hr : env.resolve (header_host env buffer) (header_port buffer) with
      | none =>
        rw [relay_udp_datagram_miss_failed env client_ip g st sender_ep buffer hn hc _ _ _ hp
          hhit (Or.inl hr)]
        simp [hno]
      | some eps =>
        cases eps with
        | nil =>
          rw [relay_udp_datagram_miss_failed env client_ip g st sender_ep buffer hn hc _ _ _ hp
            hhit (Or.inr hr)]
          simp [hno]
        | cons ep rest =>
          rw [relay_udp_datagram_miss_resolved env client_ip g st sender_ep buffer hn hc _ _ _
            hp hhit ep rest hr]
          simp [hno]
  · intro ep he
    have hhit := hiff.1 ⟨ep, he⟩
    obtain ⟨_, _, _, h4⟩ := (hrec _ _ _).1 he
    rw [relay_udp_datagram_hit env client_ip g st sender_ep buffer hn hc _ _ _ hp hhit]
    simp [payload_eq, h4]
  · intro hno
    have hhit : ¬ (st.has_cached_target = true ∧ header_port buffer = g ∧
        header_host env buffer = st.cached_host) := fun h => hno (hiff.2 h)
    cases hr : env.resolve (header_host env buffer) (header_port buffer) with
    | none =>
      have hs := relay_udp_datagram_miss_failed env client_ip g st sender_ep buffer hn hc _ _ _
        hp hhit (Or.inl hr)
      rw [hs]
      refine ⟨rfl, rfl, rfl, ?_, ?_⟩
      · intro ep rest h; cases h
      · intro _
        refine ⟨rfl, rfl, hll hist _ _ _ false none rfl rfl, ?_⟩
        rw [relay_udp_datagram_miss_failed env client_ip _ _ sender_ep buffer hn
          ⟨hc.1, Or.inr rfl⟩ _ _ _ hp (by simp) (Or.inl hr)]
    | some eps =>
      cases eps with
      | nil =>
        have hs := relay_udp_datagram_miss_failed env client_ip g st sender_ep buffer hn hc _ _
          _ hp hhit (Or.inr hr)
        rw [hs]
        refine ⟨rfl, rfl, rfl, ?_, ?_⟩
        · intro ep rest h; cases h
        · intro _
          refine ⟨rfl, rfl, hll hist _ _ _ false none rfl rfl, ?_⟩
          rw [relay_udp_datagram_miss_failed env client_ip _ _ sender_ep buffer hn
            ⟨hc.1, Or.inr rfl⟩ _ _ _ hp (by simp) (Or.inr hr)]
      | cons ep rest =>
        have hs := relay_udp_datagram_miss_resolved env client_ip g st sender_ep buffer hn hc _
          _ _ hp hhit ep rest hr
        rw [hs]
        refine ⟨rfl, rfl, rfl, ?_, ?_⟩
        · intro ep2 rest2 h
          simp only [Option.some.injEq, List.cons.injEq] at h
          obtain ⟨h1, _⟩ := h
          subst h1
          simp [payload_eq]
        · intro h
          rcases h with h | h <;> cases h

/-- Instances of C18: the datagram for 127.0.0.1:80 from 10.0.0.1:5000,
received a second time, is a hit and is sent to the stored endpoint without
a resolver call; received first, with a resolver that fails, it leaves the
slot invalid and is resolved again the next time. -/
theorem C18_udp_resolution_cache_witness :
    (next_datagram udp_env_ok client_ip_a 0
        [.datagram ⟨client_ip_a, 5000⟩ [0, 0, 0, 1, 127, 0, 0, 1, 0, 80, 0x48]]
        ⟨client_ip_a, 5000⟩ [0, 0, 0, 1, 127, 0, 0, 1, 0, 80, 0x49]).path =
      .client (some (header_host udp_env_ok [0, 0, 0, 1, 127, 0, 0, 1, 0, 80, 0x49],
        header_port [0, 0, 0, 1, 127, 0, 0, 1, 0, 80, 0x49], true)) ∧
    (next_datagram udp_env_ok client_ip_a 0
        [.datagram ⟨client_ip_a, 5000⟩ [0, 0, 0, 1, 127, 0, 0, 1, 0, 80, 0x48]]
        ⟨client_ip_a, 5000⟩ [0, 0, 0, 1, 127, 0, 0, 1, 0, 80, 0x49]).events =
      [.forward ([0, 0, 0, 1, 127, 0, 0, 1, 0, 80, 0x49].drop
        (declared_header_len [0, 0, 0, 1, 127, 0, 0, 1, 0, 80, 0x49])) ⟨loopback_v4, 80⟩] ∧
    (relay_udp_datagram udp_env_fails client_ip_a
        (next_datagram udp_env_fails client_ip_a 0 [] ⟨client_ip_a, 5000⟩
          [0, 0, 0, 1, 127, 0, 0, 1, 0, 80, 0x48]).cached_port_int
        (next_datagram udp_env_fails client_ip_a 0 [] ⟨client_ip_a, 5000⟩
          [0, 0, 0, 1, 127, 0, 0, 1, 0, 80, 0x48]).state
        ⟨client_ip_a, 5000⟩ [0, 0, 0, 1, 127, 0, 0, 1, 0, 80, 0x48]).events =
      [.resolve (header_host udp_env_fails [0, 0, 0, 1, 127, 0, 0, 1, 0, 80, 0x48])
        (header_port [0, 0, 0, 1, 127, 0, 0, 1, 0, 80, 0x48])] :=
  ⟨(C18_udp_resolution_cache udp_env_ok client_ip_a 0
      [.datagram ⟨client_ip_a, 5000⟩ [0, 0, 0, 1, 127, 0, 0, 1, 0, 80, 0x48]]
      ⟨client_ip_a, 5000⟩ [0, 0, 0, 1, 127, 0, 0, 1, 0, 80, 0x49]
      ⟨rfl, Or.inr (by decide)⟩ (by decide) (by decide)).1.2 ⟨⟨loopback_v4, 80⟩, by decide⟩,
   (C18_udp_resolution_cache udp_env_ok client_ip_a 0
      [.datagram ⟨client_ip_a, 5000⟩ [0, 0, 0, 1, 127, 0, 0, 1, 0, 80, 0x48]]
      ⟨client_ip_a, 5000⟩ [0, 0, 0, 1, 127, 0, 0, 1, 0, 80, 0x49]
      ⟨rfl, Or.inr (by decide)⟩ (by decide) (by decide)).2.1 ⟨loopback_v4, 80⟩ (by decide),
   ((C18_udp_resolution_cache udp_env_fails client_ip_a 0 []
      ⟨client_ip_a, 5000⟩ [0, 0, 0, 1, 127, 0, 0, 1, 0, 80, 0x48]
      ⟨rfl, Or.inl (by decide)⟩ (by decide) (by decide)).2.2
      (by rintro ⟨ep, h⟩; cases h)).2.2.2.2 (Or.inl rfl) |>.2.2.2⟩

/-- C19, evaluated where it fails: two associations run in one process, for
the clients 10.0.0.1 and 10.0.0.2. The first forwards a datagram for
127.0.0.1:80, the second one for 127.0.0.1:443, then the first one for
127.0.0.1:443. With the second association present, the third datagram is
sent to 127.0.0.1:80, the endpoint resolved for port 80; without it, the
same datagram is sent to 127.0.0.1:443. -/
theorem C19_cache_port_shared_between_associations :
    forwards_of false (relay_udp_pair udp_env_ok client_ip_a client_ip_b 0
        UdpState.init UdpState.init
        [(false, ⟨client_ip_a, 5000⟩, [0, 0, 0, 1, 127, 0, 0, 1, 0, 80, 0x61]),
         (true, ⟨client_ip_b, 6000⟩, [0, 0, 0, 1, 127, 0, 0, 1, 1, 187, 0x62]),
         (false, ⟨client_ip_a, 5000⟩, [0, 0, 0, 1, 127, 0, 0, 1, 1, 187, 0x63])]) =
      [.forward [0x61] ⟨loopback_v4, 80⟩, .forward [0x63] ⟨loopback_v4, 80⟩] ∧
    forwards_of false (relay_udp_pair udp_env_ok client_ip_a client_ip_b 0
        UdpState.init UdpState.init
        [(false, ⟨client_ip_a, 5000⟩, [0, 0, 0, 1, 127, 0, 0, 1, 0, 80, 0x61]),
         (false, ⟨client_ip_a, 5000⟩, [0, 0, 0, 1, 127, 0, 0, 1, 1, 187, 0x63])]) =
      [.forward [0x61] ⟨loopback_v4, 80⟩, .forward [0x63] ⟨loopback_v4, 443⟩] ∧
    header_port [0, 0, 0, 1, 127, 0, 0, 1, 1, 187, 0x63] = 443 := by
  decide

/-- The loop of `relay` when the writes of all remaining chunks complete. -/
theorem relay_loop_all_written (write_ok : Nat → Bool) :
    ∀ (chunks : List (List Nat)) (i : Nat),
      (∀ j, j < chunks.length → write_ok (i + j) = true) →
      relay_loop write_ok i chunks =
        chunks.flatMap (fun c => [RelayEvent.read (some c), RelayEvent.write c true]) ++
          [.read none, .close] := by
  intro chunks
  induction chunks with
  | nil => intro i _; rfl
  | cons c cs ih =>
    intro i h
    have h0 : write_ok i = true := by simpa using h 0 (by simp)
    have hs : ∀ j, j < cs.length → write_ok (i + 1 + j) = true := by
      intro j hj
      have := h (j + 1) (by simp; omega)
      rwa [show i + (j + 1) = i + 1 + j by omega] at this
    simp [relay_loop, h0, ih (i + 1) hs]

theorem relay_writes_flatMap (chunks : List (List Nat)) (tail : List RelayEvent) :
    relay_writes
        (chunks.flatMap (fun c => [RelayEvent.read (some c), RelayEvent.write c true]) ++ tail) =
      chunks ++ relay_writes tail := by
  induction chunks with
  | nil => rfl
  | cons c cs ih =>
    show relay_writes (RelayEvent.read (some c) :: RelayEvent.write c true ::
      (cs.flatMap (fun c => [RelayEvent.read (some c), RelayEvent.write c true]) ++ tail)) =
      c :: (cs ++ relay_writes tail)
    simp only [relay_writes, ih]

/-- C20: for a relay direction whose reads return the chunks c1, ..., ck
before the first read that fails, if every write completes then the
operations are read c1, write c1, ..., read ck, write ck, the failing read
and the close: the byte strings written are exactly c1, ..., ck, each in
full and in order, and the bytes written are c1 followed by ... followed by
ck. -/
theorem C20_tcp_relay_fidelity (write_ok : Nat → Bool) (chunks : List (List Nat))
    (hw : ∀ i, i < chunks.length → write_ok i = true) :
    relay write_ok chunks =
      chunks.flatMap (fun c => [RelayEvent.read (some c), RelayEvent.write c true]) ++
        [.read none, .close] ∧
    relay_writes (relay write_ok chunks) = chunks ∧
    (relay_writes (relay write_ok chunks)).flatten = chunks.flatten := by
  have h : relay write_ok chunks =
      chunks.flatMap (fun c => [RelayEvent.read (some c), RelayEvent.write c true]) ++
        [.read none, .close] := by
    unfold relay
    exact relay_loop_all_written write_ok chunks 0 (by simpa using hw)
  have h2 : relay_writes (relay write_ok chunks) = chunks := by
    rw [h, relay_writes_flatMap]
    simp [relay_writes]
  exact ⟨h, h2, by rw [h2]⟩

/-- Instance of C20: the chunks 48 65 6C and 6C 6F with every write
completing. -/
theorem C20_tcp_relay_fidelity_witness :
    relay (fun _ => true) [[0x48, 0x65, 0x6C], [0x6C, 0x6F]] =
      [[0x48, 0x65, 0x6C], [0x6C, 0x6F]].flatMap
          (fun c => [RelayEvent.read (some c), RelayEvent.write c true]) ++
        [.read none, .close] ∧
    relay_writes (relay (fun _ => true) [[0x48, 0x65, 0x6C], [0x6C, 0x6F]]) =
      [[0x48, 0x65, 0x6C], [0x6C, 0x6F]] ∧
    (relay_writes (relay (fun _ => true) [[0x48, 0x65, 0x6C], [0x6C, 0x6F]])).flatten =
      [[0x48, 0x65, 0x6C], [0x6C, 0x6F]].flatten :=
  C20_tcp_relay_fidelity (fun _ => true) [[0x48, 0x65, 0x6C], [0x6C, 0x6F]] (fun _ _ => rfl)

/-! ## Lemmas on timeouts -/

theorem timed_async_connect (env : Env) (eps : List endpoint) :
    ∀ e ∈ (async_connect env (some 10) eps).1, timed_or_final_write e := by
  induction eps with
  | nil => simp [async_connect]
  | cons ep rest ih =>
    unfold async_connect
    cases env.connect ep
    · simp [timed_or_final_write, Event.timed]
    · simp only [List.mem_cons]
      rintro e (h | h)
      · subst h; left; rfl
      · exact ih e h
    · simp [timed_or_final_write, Event.timed]

theorem timed_handle_command (env : Env) (cmd : Nat) (host : List Nat) (port : Nat) :
    ∀ e ∈ (handle_command env cmd host port).trace, timed_or_final_write e := by
  have herr : ∀ code, timed_or_final_write (.write (err_resp code) none) :=
    fun code => Or.inr (Or.inr ⟨code, rfl⟩)
  have ht : ∀ e : Event, e.timed = true → timed_or_final_write e := fun e h => Or.inl h
  unfold handle_command
  by_cases h3 : cmd = 3
  · simp only [Command.UDP_ASSOCIATE, h3, if_true]
    unfold udp_associate
    cases hc : env.control_local with
    | none => simp
    | some ep =>
      simp only []
      cases env.udp_open_bind_ok ⟨ep.addr, 0⟩ <;> cases env.write_success_ok <;>
        cases env.control_remote <;>
        simp [Result.after, herr, ht, Event.timed, HANDSHAKE_TIMEOUT]
  · simp only [Command.UDP_ASSOCIATE, h3, if_false, Command.CONNECT]
    by_cases h1 : cmd = 1
    · simp only [h1, ne_eq, not_true_eq_false, if_false]
      unfold connect_to_target
      cases env.resolve host port with
      | none => simp [Result.after, herr, ht, Event.timed, HANDSHAKE_TIMEOUT]
      | some eps =>
        have hcon := timed_async_connect env eps
        simp only [HANDSHAKE_TIMEOUT]
        cases hc : (async_connect env (some 10) eps).2 with
        | none =>
          simp only [Result.after, List.singleton_append, List.mem_cons, List.mem_append,
            List.mem_singleton, List.not_mem_nil, or_false]
          rintro e (h | h | h)
          · subst h; exact ht _ rfl
          · exact hcon e h
          · subst h; exact herr _
        | some target =>
          cases env.write_success_ok <;>
          · simp only [Result.after, List.singleton_append, List.mem_cons, List.mem_append,
              List.mem_singleton, List.not_mem_nil, or_false, Bool.not_true, Bool.not_false,
              Bool.false_eq_true, if_false, if_true, List.append_nil]
            rintro e (h | h | h)
            · subst h; exact ht _ rfl
            · exact hcon e h
            · subst h; exact ht _ rfl
    · simp [h1, herr]

theorem timed_read_port_and_dispatch (env : Env) (cmd : Nat) (host input : List Nat) :
    ∀ e ∈ (read_port_and_dispatch env cmd host input).trace, timed_or_final_write e := by
  unfold read_port_and_dispatch
  split
  · simp [timed_or_final_write, Event.timed, HANDSHAKE_TIMEOUT]
  · simp only [Result.after, List.singleton_append, List.mem_cons]
    rintro e (h | h)
    · subst h; left; simp [Event.timed, HANDSHAKE_TIMEOUT]
    · exact timed_handle_command env cmd host _ e h

theorem timed_handle_request (env : Env) (input : List Nat) :
    ∀ e ∈ (handle_request env input).trace, timed_or_final_write e := by
  have hr : ∀ n d, timed_or_final_write (.read n (some HANDSHAKE_TIMEOUT) d) :=
    fun n d => Or.inl (by simp [Event.timed, HANDSHAKE_TIMEOUT])
  have hcons : ∀ (e0 : Event) (t : List Event), timed_or_final_write e0 →
      (∀ e ∈ t, timed_or_final_write e) → ∀ e ∈ e0 :: t, timed_or_final_write e := by
    intro e0 t h0 ht e he
    rcases List.mem_cons.1 he with h | h
    · subst h; exact h0
    · exact ht e h
  have hnil : ∀ e ∈ ([] : List Event), timed_or_final_write e := by simp
  unfold handle_request
  split
  · exact hcons _ _ (hr _ _) hnil
  · simp only [Result.after, List.singleton_append]
    refine hcons _ _ (hr _ _) ?_
    split
    · exact hnil
    · split
      · split
        · exact hcons _ _ (hr _ _) hnil
        · exact hcons _ _ (hr _ _) (timed_read_port_and_dispatch env _ _ _)
      · split
        · split
          · exact hcons _ _ (hr _ _) hnil
          · refine hcons _ _ (hr _ _) ?_
            split
            · exact hcons _ _ (hr _ _) hnil
            · exact hcons _ _ (hr _ _) (timed_read_port_and_dispatch env _ _ _)
        · split
          · split
            · exact hcons _ _ (hr _ _) hnil
            · exact hcons _ _ (hr _ _) (timed_read_port_and_dispatch env _ _ _)
          · exact hcons _ _ (Or.inr (Or.inr ⟨_, rfl⟩)) hnil

/-- In every session every operation is issued under the handshake timeout,
except the write of 05 FF and the writes of the error replies. -/
theorem timed_handle_session (env : Env) (input : List Nat) :
    ∀ e ∈ (handle_session env input).trace, timed_or_final_write e := by
  have hr : ∀ n d, timed_or_final_write (.read n (some HANDSHAKE_TIMEOUT) d) :=
    fun n d => Or.inl (by simp [Event.timed, HANDSHAKE_TIMEOUT])
  have hcons : ∀ (e0 : Event) (t : List Event), timed_or_final_write e0 →
      (∀ e ∈ t, timed_or_final_write e) → ∀ e ∈ e0 :: t, timed_or_final_write e := by
    intro e0 t h0 ht e he
    rcases List.mem_cons.1 he with h | h
    · subst h; exact h0
    · exact ht e h
  have hnil : ∀ e ∈ ([] : List Event), timed_or_final_write e := by simp
  unfold handle_session
  split
  · exact hcons _ _ (hr _ _) hnil
  · simp only [Result.after, List.singleton_append]
    refine hcons _ _ (hr _ _) ?_
    split
    · exact hnil
    · split
      · exact hcons _ _ (hr _ _) hnil
      · refine hcons _ _ (hr _ _) ?_
        split
        · exact hcons _ _ (hr _ _) hnil
        · refine hcons _ _ (hr _ _) ?_
          split
          · exact hcons _ _ (Or.inr (Or.inl (by simp [VERSION, AuthMethod.NO_ACCEPTABLE]))) hnil
          · refine hcons _ _ (Or.inl (by simp [Event.timed, HANDSHAKE_TIMEOUT])) ?_
            split
            · exact hnil
            · exact timed_handle_request env _

/-- C21, evaluated where it fails: for the greeting 05 01 02 the session
writes 05 FF, and for the greeting 05 01 00 followed by the BIND request
05 02 00 01 7F 00 00 01 00 50 it writes the error reply
05 07 00 01 00 00 00 00 00 00; both writes are awaited bare, under no
timeout, while every read of the two sessions and the write of 05 00 run
under the 10-second timeout. -/
theorem C21_final_writes_issued_without_timeout :
    handle_session env_ok [0x05, 0x01, 0x02] =
      ⟨[.read 1 (some 10) (some [0x05]),
        .read 1 (some 10) (some [0x01]),
        .read 1 (some 10) (some [0x02]),
        .write [0x05, 0xFF] none], .closed⟩ ∧
    handle_session env_ok
        (greeting_then [0x00] [0x05, 0x02, 0x00, 0x01, 127, 0, 0, 1, 0, 80]) =
      ⟨[.read 1 (some 10) (some [0x05]),
        .read 1 (some 10) (some [0x01]),
        .read 1 (some 10) (some [0x00]),
        .write [0x05, 0x00] (some 10),
        .read 4 (some 10) (some [0x05, 0x02, 0x00, 0x01]),
        .read 4 (some 10) (some [127, 0, 0, 1]),
        .read 2 (some 10) (some [0, 80]),
        .write [0x05, 0x07, 0x00, 0x01, 0, 0, 0, 0, 0, 0] none], .closed⟩ ∧
    (Event.write [0x05, 0xFF] none).timed = false ∧
    (Event.write [0x05, 0x07, 0x00, 0x01, 0, 0, 0, 0, 0, 0] none).timed = false := by
  decide

/-- C22, counterexample: an association has learned its client
10.0.0.1:5000, so `client_port` is 5000, not 0, and an empty datagram arrives
from 127.0.0.1:80, a target. It is dropped: nothing is sent to the client. -/
theorem C22_counterexample :
    UdpState.learned.client_port ≠ 0 ∧
    ¬ ((⟨loopback_v4, 80⟩ : endpoint).addr = client_ip_a ∧
      (UdpState.learned.client_port = 0 ∨
        (⟨loopback_v4, 80⟩ : endpoint).port = UdpState.learned.client_port)) ∧
    (relay_udp_datagram udp_env_ok client_ip_a 0 UdpState.learned ⟨loopback_v4, 80⟩ []).events =
      [] := by
  decide

/-- C22, amended: a target-side datagram of any length other than zero is
dropped if and only if `client_port` is 0; whenever `client_port` is not 0
exactly one datagram, the encapsulation of the received one, is sent to
`last_client_ep`. A datagram of length zero, from any sender, is skipped
before the classification and nothing is sent for it, whatever
`client_port` is. -/
theorem C22_target_side_delivery (env : UdpEnv) (client_ip : address) (g : Nat)
    (st : UdpState) (sender_ep : endpoint) (buffer : List Nat) :
    (buffer ≠ [] →
      ¬ (sender_ep.addr = client_ip ∧
        (st.client_port = 0 ∨ sender_ep.port = st.client_port)) →
      (relay_udp_datagram env client_ip g st sender_ep buffer).path = .target ∧
      ((relay_udp_datagram env client_ip g st sender_ep buffer).events = [] ↔
        st.client_port = 0) ∧
      (st.client_port ≠ 0 →
        (relay_udp_datagram env client_ip g st sender_ep buffer).events =
          [.deliver (encapsulate sender_ep buffer) st.last_client_ep])) ∧
    (buffer = [] →
      (relay_udp_datagram env client_ip g st sender_ep buffer).path = .skipped ∧
      (relay_udp_datagram env client_ip g st sender_ep buffer).events = []) := by
  refine ⟨fun hn ht => ?_, fun he => ?_⟩
  · rw [relay_udp_datagram_target env client_ip g st sender_ep buffer hn ht]
    by_cases h0 : st.client_port = 0
    · simp [h0]
    · simp [h0]
  · subst he
    rw [relay_udp_datagram_empty]
    exact ⟨rfl, rfl⟩

/-- Instances of the amended C22: with the client 10.0.0.1:5000 learned, the
one-byte datagram 48 from 127.0.0.1:80 is sent on, encapsulated, to
10.0.0.1:5000, and for an empty datagram from 127.0.0.1:80 nothing is
sent. -/
theorem C22_target_side_delivery_witness :
    (relay_udp_datagram udp_env_ok client_ip_a 0 UdpState.learned ⟨loopback_v4, 80⟩
        [0x48]).path = .target ∧
    (relay_udp_datagram udp_env_ok client_ip_a 0 UdpState.learned ⟨loopback_v4, 80⟩
        [0x48]).events =
      [.deliver (encapsulate ⟨loopback_v4, 80⟩ [0x48]) UdpState.learned.last_client_ep] ∧
    (relay_udp_datagram udp_env_ok client_ip_a 0 UdpState.learned ⟨loopback_v4, 80⟩
        []).events = [] :=
  ⟨((C22_target_side_delivery udp_env_ok client_ip_a 0 UdpState.learned ⟨loopback_v4, 80⟩
      [0x48]).1 (by decide) (by decide)).1,
   ((C22_target_side_delivery udp_env_ok client_ip_a 0 UdpState.learned ⟨loopback_v4, 80⟩
      [0x48]).1 (by decide) (by decide)).2.2 (by decide),
   ((C22_target_side_delivery udp_env_ok client_ip_a 0 UdpState.learned ⟨loopback_v4, 80⟩
      []).2 rfl).2⟩

/-! ## Lemmas on the connection attempts -/

/-- The attempts made when the endpoints of `pre` fail and the next one
accepts. -/
theorem async_connect_accepts (env : Env) (t : Option Nat) (pre post : List endpoint)
    (e : endpoint) (hpre : ∀ x ∈ pre, env.connect x = .failed)
    (he : env.connect e = .connected) :
    async_connect env t (pre ++ e :: post) =
      ((pre ++ [e]).map (fun x => Event.connect x t), some e) := by
  induction pre with
  | nil => simp [async_connect, he]
  | cons p ps ih =>
    have hp : env.connect p = .failed := hpre p (by simp)
    have hps : ∀ x ∈ ps, env.connect x = .failed := fun x hx => hpre x (by simp [hx])
    simp [async_connect, hp, ih hps]

/-- The attempts made when the endpoints of `pre` fail and the attempt at
the next one does not complete before the timeout. -/
theorem async_connect_times_out (env : Env) (t : Option Nat) (pre post : List endpoint)
    (e : endpoint) (hpre : ∀ x ∈ pre, env.connect x = .failed)
    (he : env.connect e = .timed_out) :
    async_connect env t (pre ++ e :: post) =
      ((pre ++ [e]).map (fun x => Event.connect x t), none) := by
  induction pre with
  | nil => simp [async_connect, he]
  | cons p ps ih =>
    have hp : env.connect p = .failed := hpre p (by simp)
    have hps : ∀ x ∈ ps, env.connect x = .failed := fun x hx => hpre x (by simp [hx])
    simp [async_connect, hp, ih hps]

/-- The attempts made when every endpoint fails. -/
theorem async_connect_all_fail (env : Env) (t : Option Nat) (eps : List endpoint)
    (h : ∀ x ∈ eps, env.connect x = .failed) :
    async_connect env t eps = (eps.map (fun x => Event.connect x t), none) := by
  induction eps with
  | nil => simp [async_connect]
  | cons p ps ih =>
    have hp : env.connect p = .failed := h p (by simp)
    have hps : ∀ x ∈ ps, env.connect x = .failed := fun x hx => h x (by simp [hx])
    simp [async_connect, hp, ih hps]

/-- The CONNECT path once the resolver has returned `endpoints`. -/
theorem handle_session_connect (env : Env) (methods : List Nat) (rsv atyp p0 p1 : Nat)
    (addr rest : List Nat) (endpoints : List endpoint)
    (hm : 0x00 ∈ methods) (hw : env.write_auth_ok = true)
    (ha : is_address_field atyp addr = true)
    (hr : env.resolve (address_host env atyp addr) (((p0 <<< 8) ||| p1) % 65536) =
      some endpoints) :
    handle_session env
        (greeting_then methods (0x05 :: 0x01 :: rsv :: atyp :: (addr ++ p0 :: p1 :: rest))) =
      Result.after
        (request_events methods 0x01 rsv atyp addr p0 p1 ++
          [.resolve (address_host env atyp addr) (((p0 <<< 8) ||| p1) % 65536) (some 10)] ++
          (async_connect env (some 10) endpoints).1)
        (match (async_connect env (some 10) endpoints).2 with
          | none => ⟨[.write [0x05, 0x05, 0x00, 0x01, 0, 0, 0, 0, 0, 0] none], .closed⟩
          | some target =>
            ⟨[.write (connect_success_resp (env.target_local target)) (some 10)],
              if env.write_success_ok then .relay target else .closed⟩) := by
  rw [handle_session_request env methods 1 rsv atyp p0 p1 addr rest hm hw ha]
  unfold handle_command connect_to_target
  simp only [Command.UDP_ASSOCIATE, Command.CONNECT, hr, HANDSHAKE_TIMEOUT]
  cases (async_connect env (some 10) endpoints).2 with
  | none =>
    simp [Result.after, err_resp, VERSION, RSV, Reply.CONNECTION_REFUSED]
  | some target =>
    cases env.write_success_ok <;> simp [Result.after]

/-- C23, counterexample: the client asks to CONNECT to the domain `a`, port
80; the resolver returns 127.0.0.1:80 then [::1]:80; the first endpoint
refuses and the second accepts. The server attempts both, in order, replies
SUCCEEDED and relays to [::1]:80: it neither stops at the first endpoint nor
replies CONNECTION_REFUSED. -/
theorem C23_counterexample :
    handle_session env_second_accepts
        (greeting_then [0x00] [0x05, 0x01, 0x00, 0x03, 0x01, 0x61, 0, 80]) =
      ⟨request_events [0x00] 0x01 0x00 0x03 [0x01, 0x61] 0 80 ++
        [.resolve [0x61] 80 (some 10),
         .connect ⟨loopback_v4, 80⟩ (some 10),
         .connect ⟨loopback_v6, 80⟩ (some 10),
         .write [0x05, 0x00, 0x00, 0x04, 0, 0, 0, 0, 0, 0, 0, 0, 0, 0, 0, 0, 0, 0, 0, 1,
           156, 64] (some 10)],
        .relay ⟨loopback_v6, 80⟩⟩ := by
  decide

/-- C23, amended: on CONNECT, when resolution returns the ordered endpoints
e1, e2, ..., the server attempts them in that order, going on to the next
one each time an attempt fails. (1) If the endpoints before some e fail and
e accepts, the attempts are those endpoints and e, the reply is SUCCEEDED
and the relay runs to e. (2) If every endpoint fails, all of them have been
attempted, the reply is CONNECTION_REFUSED and the session closes. (3) If
the endpoints before some e fail and the attempt at e does not complete
before the timeout, no further endpoint is attempted, the reply is
CONNECTION_REFUSED and the session closes. -/
theorem C23_connect_tries_endpoints_in_order (env : Env) (methods : List Nat)
    (rsv atyp p0 p1 : Nat) (addr rest : List Nat) (pre post : List endpoint) (e : endpoint)
    (hm : 0x00 ∈ methods) (hw : env.write_auth_ok = true)
    (ha : is_address_field atyp addr = true)
    (hpre : ∀ x ∈ pre, env.connect x = .failed) :
    (env.resolve (address_host env atyp addr) (((p0 <<< 8) ||| p1) % 65536) =
        some (pre ++ e :: post) →
      env.connect e = .connected →
      handle_session env
          (greeting_then methods (0x05 :: 0x01 :: rsv :: atyp :: (addr ++ p0 :: p1 :: rest))) =
        ⟨request_events methods 0x01 rsv atyp addr p0 p1 ++
          [.resolve (address_host env atyp addr) (((p0 <<< 8) ||| p1) % 65536) (some 10)] ++
          (pre ++ [e]).map (fun x => Event.connect x (some 10)) ++
          [.write (connect_success_resp (env.target_local e)) (some 10)],
          if env.write_success_ok then .relay e else .closed⟩) ∧
    (env.resolve (address_host env atyp addr) (((p0 <<< 8) ||| p1) % 65536) = some pre →
      handle_session env
          (greeting_then methods (0x05 :: 0x01 :: rsv :: atyp :: (addr ++ p0 :: p1 :: rest))) =
        ⟨request_events methods 0x01 rsv atyp addr p0 p1 ++
          [.resolve (address_host env atyp addr) (((p0 <<< 8) ||| p1) % 65536) (some 10)] ++
          pre.map (fun x => Event.connect x (some 10)) ++
          [.write [0x05, 0x05, 0x00, 0x01, 0, 0, 0, 0, 0, 0] none], .closed⟩) ∧
    (env.resolve (address_host env atyp addr) (((p0 <<< 8) ||| p1) % 65536) =
        some (pre ++ e :: post) →
      env.connect e = .timed_out →
      handle_session env
          (greeting_then methods (0x05 :: 0x01 :: rsv :: atyp :: (addr ++ p0 :: p1 :: rest))) =
        ⟨request_events methods 0x01 rsv atyp addr p0 p1 ++
          [.resolve (address_host env atyp addr) (((p0 <<< 8) ||| p1) % 65536) (some 10)] ++
          (pre ++ [e]).map (fun x => Event.connect x (some 10)) ++
          [.write [0x05, 0x05, 0x00, 0x01, 0, 0, 0, 0, 0, 0] none], .closed⟩) := by
  refine ⟨?_, ?_, ?_⟩
  · intro hr he
    rw [handle_session_connect env methods rsv atyp p0 p1 addr rest _ hm hw ha hr,
      async_connect_accepts env (some 10) pre post e hpre he]
    simp [Result.after]
  · intro hr
    rw [handle_session_connect env methods rsv atyp p0 p1 addr rest _ hm hw ha hr,
      async_connect_all_fail env (some 10) pre hpre]
    simp [Result.after]
  · intro hr he
    rw [handle_session_connect env methods rsv atyp p0 p1 addr rest _ hm hw ha hr,
      async_connect_times_out env (some 10) pre post e hpre he]
    simp [Result.after]

/-- Instances of the amended C23: a first endpoint that refuses followed by
one that accepts, and a single endpoint that refuses. -/
theorem C23_connect_tries_endpoints_in_order_witness :
    handle_session env_second_accepts
        (greeting_then [0x00] (0x05 :: 0x01 :: 0x00 :: 0x03 :: ([0x01, 0x61] ++ 0 :: 80 :: []))) =
      ⟨request_events [0x00] 0x01 0x00 0x03 [0x01, 0x61] 0 80 ++
        [.resolve (address_host env_second_accepts 0x03 [0x01, 0x61])
          (((0 <<< 8) ||| 80) % 65536) (some 10)] ++
        (([⟨loopback_v4, 80⟩] : List endpoint) ++ ([⟨loopback_v6, 80⟩] : List endpoint)).map
          (fun x => Event.connect x (some 10)) ++
        [.write (connect_success_resp (env_second_accepts.target_local ⟨loopback_v6, 80⟩))
          (some 10)],
        if env_second_accepts.write_success_ok then .relay ⟨loopback_v6, 80⟩ else .closed⟩ ∧
    handle_session env_refused
        (greeting_then [0x00] (0x05 :: 0x01 :: 0x00 :: 0x03 :: ([0x01, 0x61] ++ 0 :: 80 :: []))) =
      ⟨request_events [0x00] 0x01 0x00 0x03 [0x01, 0x61] 0 80 ++
        [.resolve (address_host env_refused 0x03 [0x01, 0x61])
          (((0 <<< 8) ||| 80) % 65536) (some 10)] ++
        ([⟨loopback_v4, 80⟩] : List endpoint).map (fun x => Event.connect x (some 10)) ++
        [.write [0x05, 0x05, 0x00, 0x01, 0, 0, 0, 0, 0, 0] none], .closed⟩ :=
  ⟨(C23_connect_tries_endpoints_in_order env_second_accepts [0x00] 0x00 0x03 0 80
      [0x01, 0x61] [] [⟨loopback_v4, 80⟩] [] ⟨loopback_v6, 80⟩ (by decide) rfl (by decide)
      (by decide)).1 rfl rfl,
   (C23_connect_tries_endpoints_in_order env_refused [0x00] 0x00 0x03 0 80
      [0x01, 0x61] [] [⟨loopback_v4, 80⟩] [] ⟨loopback_v4, 80⟩ (by decide) rfl (by decide)
      (by decide)).2.1 rfl⟩

/-! ## Lemmas on the client endpoint of an association -/

theorem cache_lookup_client_fields (env : UdpEnv) (g : Nat) (st : UdpState)
    (host : List Nat) (port : Nat) :
    (cache_lookup env g st host port).2.1.client_port = st.client_port ∧
    (cache_lookup env g st host port).2.1.last_client_ep = st.last_client_ep := by
  unfold cache_lookup
  split
  · exact ⟨rfl, rfl⟩
  · split <;> exact ⟨rfl, rfl⟩

/-- One loop iteration either leaves `client_port` and `last_client_ep`
alone, or the sender is client-side and they become the port and the
endpoint of the sender. -/
theorem relay_udp_datagram_client_fields (env : UdpEnv) (client_ip : address) (g : Nat)
    (st : UdpState) (sender_ep : endpoint) (buffer : List Nat) :
    ((relay_udp_datagram env client_ip g st sender_ep buffer).state.client_port =
        st.client_port ∧
      (relay_udp_datagram env client_ip g st sender_ep buffer).state.last_client_ep =
        st.last_client_ep) ∨
    (sender_ep.addr = client_ip ∧ (st.client_port = 0 ∨ sender_ep.port = st.client_port) ∧
      (relay_udp_datagram env client_ip g st sender_ep buffer).state.client_port =
        sender_ep.port ∧
      (relay_udp_datagram env client_ip g st sender_ep buffer).state.last_client_ep =
        sender_ep) := by
  by_cases hn : buffer = []
  · subst hn
    left
    simp [relay_udp_datagram]
  · by_cases hc : sender_ep.addr = client_ip ∧
        (st.client_port = 0 ∨ sender_ep.port = st.client_port)
    · right
      refine ⟨hc.1, hc.2, ?_⟩
      rw [relay_udp_datagram_client env client_ip g st sender_ep buffer hn hc]
      cases client_header env buffer with
      | none => exact ⟨rfl, rfl⟩
      | some p =>
        obtain ⟨header_len, host, port⟩ := p
        have hl := cache_lookup_client_fields env g
          { st with client_port := sender_ep.port, last_client_ep := sender_ep } host port
        simp only []
        split <;> exact hl
    · left
      rw [relay_udp_datagram_target env client_ip g st sender_ep buffer hn hc]
      split <;> exact ⟨rfl, rfl⟩

/-- Once `client_port` is not 0, every later iteration of the loop leaves it
as it is. -/
theorem relay_udp_loop_client_port (env : UdpEnv) (client_ip : address) :
    ∀ (inputs : List UdpInput) (g : Nat) (st : UdpState), st.client_port ≠ 0 →
      ∀ s ∈ relay_udp_loop env client_ip g st inputs, s.state.client_port = st.client_port := by
  intro inputs
  induction inputs with
  | nil => intro g st _ s hs; simp [relay_udp_loop] at hs
  | cons i rest ih =>
    intro g st h0 s hs
    cases i with
    | control => simp [relay_udp_loop] at hs
    | receive_error =>
      simp only [relay_udp_loop, List.mem_cons] at hs
      rcases hs with hs | hs
      · subst hs; rfl
      · exact ih g st h0 s hs
    | datagram sender_ep bytes =>
      have hstep : (relay_udp_datagram env client_ip g st sender_ep bytes).state.client_port =
          st.client_port := by
        rcases relay_udp_datagram_client_fields env client_ip g st sender_ep bytes with
          ⟨h, _⟩ | ⟨_, hc, h, _⟩
        · exact h
        · rcases hc with hc | hc
          · exact absurd hc h0
          · rw [h, hc]
      simp only [relay_udp_loop, List.mem_cons] at hs
      rcases hs with hs | hs
      · subst hs; exact hstep
      · rw [← hstep]
        exact ih _ _ (by rw [hstep]; exact h0) s hs

/-- The loop keeps `last_client_ep` equal to the client address with the
learned port. -/
theorem relay_udp_loop_last_client_ep (env : UdpEnv) (client_ip : address) :
    ∀ (inputs : List UdpInput) (g : Nat) (st : UdpState),
      (st.client_port ≠ 0 → st.last_client_ep = ⟨client_ip, st.client_port⟩) →
      ∀ s ∈ relay_udp_loop env client_ip g st inputs,
        s.state.client_port ≠ 0 → s.state.last_client_ep = ⟨client_ip, s.state.client_port⟩ := by
  intro inputs
  induction inputs with
  | nil => intro g st _ s hs; simp [relay_udp_loop] at hs
  | cons i rest ih =>
    intro g st hinv s hs
    cases i with
    | control => simp [relay_udp_loop] at hs
    | receive_error =>
      simp only [relay_udp_loop, List.mem_cons] at hs
      rcases hs with hs | hs
      · subst hs; exact hinv
      · exact ih g st hinv s hs
    | datagram sender_ep bytes =>
      have hstep : (relay_udp_datagram env client_ip g st sender_ep bytes).state.client_port ≠ 0 →
          (relay_udp_datagram env client_ip g st sender_ep bytes).state.last_client_ep =
            ⟨client_ip,
              (relay_udp_datagram env client_ip g st sender_ep bytes).state.client_port⟩ := by
        rcases relay_udp_datagram_client_fields env client_ip g st sender_ep bytes with
          ⟨h1, h2⟩ | ⟨ha, _, h1, h2⟩
        · rw [h1, h2]; exact hinv
        · intro _
          rw [h1, h2, ← ha]
      simp only [relay_udp_loop, List.mem_cons] at hs
      rcases hs with hs | hs
      · subst hs; exact hstep
      · exact ih _ _ hstep s hs

theorem relay_udp_loop_pairwise (env : UdpEnv) (client_ip : address) :
    ∀ (inputs : List UdpInput) (g : Nat) (st : UdpState),
      (relay_udp_loop env client_ip g st inputs).Pairwise
        (fun s t => s.state.client_port ≠ 0 → t.state.client_port = s.state.client_port) := by
  intro inputs
  induction inputs with
  | nil => intro g st; simp [relay_udp_loop]
  | cons i rest ih =>
    intro g st
    cases i with
    | control => simp [relay_udp_loop]
    | receive_error =>
      simp only [relay_udp_loop, List.pairwise_cons]
      exact ⟨fun t ht h0 => relay_udp_loop_client_port env client_ip rest g st h0 t ht,
        ih g st⟩
    | datagram sender_ep bytes =>
      simp only [relay_udp_loop, List.pairwise_cons]
      exact ⟨fun t ht h0 => relay_udp_loop_client_port env client_ip rest _ _ h0 t ht,
        ih _ _⟩

/-- C24: in every run of the UDP relay, (1) in the state after each loop
iteration, whenever `client_port` is not 0, `last_client_ep` is the endpoint
made of `client_ip` and `client_port`; and (2) for any two iterations of the
run, if `client_port` is not 0 after the earlier one it has the same value
after the later one. In the initial state `client_port` is 0. -/
theorem C24_client_association_invariant (env : UdpEnv) (client_ip : address) (g0 : Nat)
    (inputs : List UdpInput) :
    UdpState.init.client_port = 0 ∧
    (∀ s ∈ relay_udp env client_ip g0 inputs, s.state.client_port ≠ 0 →
      s.state.last_client_ep = ⟨client_ip, s.state.client_port⟩) ∧
    (relay_udp env client_ip g0 inputs).Pairwise
      (fun s t => s.state.client_port ≠ 0 → t.state.client_port = s.state.client_port) := by
  refine ⟨rfl, ?_, relay_udp_loop_pairwise env client_ip inputs g0 UdpState.init⟩
  exact relay_udp_loop_last_client_ep env client_ip inputs g0 UdpState.init
    (fun h => absurd rfl h)

/-- Instance of C24: after a first datagram from 10.0.0.1:5000 and a second
one from 10.0.0.1:5001, the learned port is still 5000 and `last_client_ep`
is 10.0.0.1:5000. -/
theorem C24_client_association_invariant_witness :
    (relay_udp_datagram udp_env_ok client_ip_a 0 UdpState.learned ⟨client_ip_a, 5001⟩
        [7]).state.last_client_ep =
      ⟨client_ip_a, (relay_udp_datagram udp_env_ok client_ip_a 0 UdpState.learned
        ⟨client_ip_a, 5001⟩ [7]).state.client_port⟩ :=
  (C24_client_association_invariant udp_env_ok client_ip_a 0
      [.datagram ⟨client_ip_a, 5000⟩ [7], .datagram ⟨client_ip_a, 5001⟩ [7]]).2.1
    (relay_udp_datagram udp_env_ok client_ip_a 0 UdpState.learned ⟨client_ip_a, 5001⟩ [7])
    (by decide) (by decide)

/-! ## Lemmas on the round trips -/

/-- The port bytes written for a 16-bit port decode to that port. -/
theorem port_round_trip (p : Nat) (hp : p < 65536) :
    (((p / 256 % 256) <<< 8) ||| (p % 256)) % 65536 = p := by
  have h1 : p / 256 % 256 = p / 256 := Nat.mod_eq_of_lt (by omega)
  rw [h1, shift_or_eq (p / 256) (p % 256) (by omega) (Nat.mod_lt _ (by decide))]
  omega

/-- The request phase of the server on a complete request of version 5. -/
theorem handle_request_complete (env : Env) (cmd rsv atyp p0 p1 : Nat) (addr rest : List Nat)
    (ha : is_address_field atyp addr = true) :
    handle_request env (0x05 :: cmd :: rsv :: atyp :: (addr ++ p0 :: p1 :: rest)) =
      Result.after
        (.read 4 (some 10) (some [0x05, cmd, rsv, atyp]) :: address_reads atyp addr ++
          [.read 2 (some 10) (some [p0, p1])])
        (handle_command env cmd (address_host env atyp addr) (((p0 <<< 8) ||| p1) % 65536)) := by
  rw [handle_request_address env cmd rsv atyp addr _ ha]
  unfold read_port_and_dispatch
  simp [async_read_two, Result.after, HANDSHAKE_TIMEOUT]

/-- The request `Client::handshake` writes after the proxy's 05 00 is the
one `Client.build_request` builds. -/
theorem handshake_writes_request (cenv : ClientEnv) (target_host : List Nat)
    (target_port : Nat) (input request : List Nat) (hg : cenv.write_greeting_ok = true)
    (hreq : Client.build_request cenv target_host target_port = .ok request) :
    (Client.handshake cenv target_host target_port (0x05 :: 0x00 :: input)).trace.take 3 =
      [.write [0x05, 0x01, 0x00] none, .read 2 none (some [0x05, 0x00]),
       .write request none] := by
  rw [handshake_selected cenv target_host target_port input hg, hreq]
  simp [ClientResult.after]

/-- C25: for every 16-bit target port and every target host that is an IP
literal or a non-IP string of at most 255 bytes,
after the proxy's 05 00 `Client::handshake` writes a request on which the
request phase of the server reads the 4-byte header
05 01 00 atyp, the address field and the 2 port bytes, which together are
exactly the bytes of the request, and then dispatches the command CONNECT
(0x01) with the port `target_port` and with, as host, the string of the
address with the bytes of the literal, or the bytes of `target_host` for a
domain. -/
theorem C25_request_round_trip (cenv : ClientEnv) (env : Env) (target_host : List Nat)
    (target_port : Nat) (input rest : List Nat) (hg : cenv.write_greeting_ok = true)
    (hp : target_port < 65536) :
    (∀ a : address_v4, cenv.make_address target_host = some (.v4 a) →
      ∃ request,
        (Client.handshake cenv target_host target_port (0x05 :: 0x00 :: input)).trace.take 3 =
          [.write [0x05, 0x01, 0x00] none, .read 2 none (some [0x05, 0x00]),
           .write request none] ∧
        request.length = 4 + 4 + 2 ∧
        handle_request env (request ++ rest) =
          Result.after
            [.read 4 (some 10) (some [0x05, 0x01, 0x00, 0x01]),
             .read 4 (some 10) (some a.to_bytes),
             .read 2 (some 10) (some [target_port / 256, target_port % 256])]
            (handle_command env 0x01 (env.v4_to_string a.to_bytes) target_port)) ∧
    (∀ a : address_v6, cenv.make_address target_host = some (.v6 a) →
      ∃ request,
        (Client.handshake cenv target_host target_port (0x05 :: 0x00 :: input)).trace.take 3 =
          [.write [0x05, 0x01, 0x00] none, .read 2 none (some [0x05, 0x00]),
           .write request none] ∧
        request.length = 4 + 16 + 2 ∧
        handle_request env (request ++ rest) =
          Result.after
            [.read 4 (some 10) (some [0x05, 0x01, 0x00, 0x04]),
             .read 16 (some 10) (some a.to_bytes),
             .read 2 (some 10) (some [target_port / 256, target_port % 256])]
            (handle_command env 0x01 (env.v6_to_string a.to_bytes) target_port)) ∧
    (cenv.make_address target_host = none → target_host.length ≤ 255 →
      ∃ request,
        (Client.handshake cenv target_host target_port (0x05 :: 0x00 :: input)).trace.take 3 =
          [.write [0x05, 0x01, 0x00] none, .read 2 none (some [0x05, 0x00]),
           .write request none] ∧
        request.length = 4 + 1 + target_host.length + 2 ∧
        handle_request env (request ++ rest) =
          Result.after
            [.read 4 (some 10) (some [0x05, 0x01, 0x00, 0x03]),
             .read 1 (some 10) (some [target_host.length]),
             .read target_host.length (some 10) (some target_host),
             .read 2 (some 10) (some [target_port / 256, target_port % 256])]
            (handle_command env 0x01 target_host target_port)) := by
  have hdiv : target_port / 256 % 256 = target_port / 256 := Nat.mod_eq_of_lt (by omega)
  have hport := port_round_trip target_port hp
  rw [hdiv] at hport
  obtain ⟨h4, h6, hd, _⟩ := build_request_cases cenv target_host target_port
  rw [hdiv] at h4 h6 hd
  refine ⟨?_, ?_, ?_⟩
  · intro a h
    refine ⟨_, handshake_writes_request cenv target_host target_port input _ hg (h4 a h),
      by simp [a.size], ?_⟩
    have ha : is_address_field 1 a.to_bytes = true := by simp [is_address_field, a.size]
    have := handle_request_complete env 1 0 1 (target_port / 256) (target_port % 256)
      a.to_bytes rest ha
    rw [hport] at this
    simpa [address_reads, address_host, a.size] using this
  · intro a h
    refine ⟨_, handshake_writes_request cenv target_host target_port input _ hg (h6 a h),
      by simp [a.size], ?_⟩
    have ha : is_address_field 4 a.to_bytes = true := by simp [is_address_field, a.size]
    have := handle_request_complete env 1 0 4 (target_port / 256) (target_port % 256)
      a.to_bytes rest ha
    rw [hport] at this
    simpa [address_reads, address_host, a.size] using this
  · intro h hlen
    refine ⟨_, handshake_writes_request cenv target_host target_port input _ hg (hd h hlen),
      by simp; omega, ?_⟩
    have ha : is_address_field 3 (target_host.length :: target_host) = true := by
      simp [is_address_field]
    have := handle_request_complete env 1 0 3 (target_port / 256) (target_port % 256)
      (target_host.length :: target_host) rest ha
    rw [hport] at this
    simpa [address_reads, address_host] using this

/-- Instances of C25: the literal 127.0.0.1 and the one-byte host `a`, with
port 8080. -/
theorem C25_request_round_trip_witness :
    (∃ request,
      (Client.handshake client_env_ok [49, 50, 55, 46, 48, 46, 48, 46, 49] 8080
          (0x05 :: 0x00 :: [])).trace.take 3 =
        [.write [0x05, 0x01, 0x00] none, .read 2 none (some [0x05, 0x00]),
         .write request none] ∧
      request.length = 4 + 4 + 2 ∧
      handle_request env_ok (request ++ []) =
        Result.after
          [.read 4 (some 10) (some [0x05, 0x01, 0x00, 0x01]),
           .read 4 (some 10) (some [127, 0, 0, 1]),
           .read 2 (some 10) (some [8080 / 256, 8080 % 256])]
          (handle_command env_ok 0x01 (env_ok.v4_to_string [127, 0, 0, 1]) 8080)) ∧
    (∃ request,
      (Client.handshake client_env_ok [0x61] 8080 (0x05 :: 0x00 :: [])).trace.take 3 =
        [.write [0x05, 0x01, 0x00] none, .read 2 none (some [0x05, 0x00]),
         .write request none] ∧
      request.length = 4 + 1 + [0x61].length + 2 ∧
      handle_request env_ok (request ++ []) =
        Result.after
          [.read 4 (some 10) (some [0x05, 0x01, 0x00, 0x03]),
           .read 1 (some 10) (some [[0x61].length]),
           .read [0x61].length (some 10) (some [0x61]),
           .read 2 (some 10) (some [8080 / 256, 8080 % 256])]
          (handle_command env_ok 0x01 [0x61] 8080)) :=
  ⟨(C25_request_round_trip client_env_ok env_ok [49, 50, 55, 46, 48, 46, 48, 46, 49] 8080 [] []
      rfl (by decide)).1 ⟨[127, 0, 0, 1], rfl⟩ rfl,
   (C25_request_round_trip client_env_ok env_ok [0x61] 8080 [] [] rfl (by decide)).2.2
      (by decide) (by decide)⟩

/-- The datagram built for a sender whose address has the bytes `bytes`. -/
theorem encapsulate_eq (sender_ep : endpoint) (payload : List Nat) :
    encapsulate sender_ep payload =
      0 :: 0 :: 0 :: (if sender_ep.addr.is_v4 then 1 else 4) ::
        (sender_ep.addr.to_bytes ++
          (sender_ep.port / 256 % 256) :: (sender_ep.port % 256) :: payload) := by
  have hpb := port_bytes_eq sender_ep.port
  simp only [port_bytes] at hpb
  unfold encapsulate
  cases sender_ep.addr.is_v4 <;> simp [AddressType.IPV4, AddressType.IPV6, hpb]

/-- The header parse of a datagram that starts 00 00 00 atyp, goes on with
an address of the length that goes with `atyp` (4 bytes for 1, 16 bytes for
4), two port bytes and a payload. -/
theorem client_header_of_header (env : UdpEnv) (atyp alen : Nat) (bytes : List Nat)
    (hi lo : Nat) (payload : List Nat) (hlen : bytes.length = alen)
    (hat : (atyp = 1 ∧ alen = 4) ∨ (atyp = 4 ∧ alen = 16)) (hhi : hi < 256) (hlo : lo < 256) :
    udp_drop_rule (0 :: 0 :: 0 :: atyp :: (bytes ++ hi :: lo :: payload)) = false ∧
    client_header env (0 :: 0 :: 0 :: atyp :: (bytes ++ hi :: lo :: payload)) =
      some (alen + 6,
        (if atyp = 1 then env.v4_to_string bytes else env.v6_to_string bytes),
        hi * 256 + lo) ∧
    ((0 :: 0 :: 0 :: atyp :: (bytes ++ hi :: lo :: payload)).drop (alen + 6)).take
        ((0 :: 0 :: 0 :: atyp :: (bytes ++ hi :: lo :: payload)).length - (alen + 6)) =
      payload := by
  have hdrop : udp_drop_rule (0 :: 0 :: 0 :: atyp :: (bytes ++ hi :: lo :: payload)) = false := by
    rcases hat with ⟨h1, h2⟩ | ⟨h1, h2⟩ <;> subst h1 <;> subst h2 <;>
      simp [udp_drop_rule, declared_header_len, hlen] <;> omega
  have hg1 : (bytes ++ hi :: lo :: payload).getD alen 0 = hi := by
    rw [List.getD_append_right _ _ _ _ (by omega), hlen]
    simp
  have hg2 : (bytes ++ hi :: lo :: payload).getD (alen + 1) 0 = lo := by
    rw [List.getD_append_right _ _ _ _ (by omega), hlen]
    simp
  have htake : List.take alen (bytes ++ hi :: lo :: payload) = bytes := List.take_left' hlen
  have hd : List.drop (alen + 2) (bytes ++ hi :: lo :: payload) = payload := by
    have e : bytes ++ hi :: lo :: payload = (bytes ++ [hi, lo]) ++ payload := by simp
    rw [e]
    exact List.drop_left' (by simp [hlen])
  refine ⟨hdrop, ?_, ?_⟩
  · rw [client_header_eq, hdrop]
    simp only [Bool.false_eq_true, if_false]
    rcases hat with ⟨h1, h2⟩ | ⟨h1, h2⟩
    · subst h1; subst h2
      have e8 : (0 :: 0 :: 0 :: 1 :: (bytes ++ hi :: lo :: payload)).getD 8 0 = hi := by
        simpa using hg1
      have e9 : (0 :: 0 :: 0 :: 1 :: (bytes ++ hi :: lo :: payload)).getD 9 0 = lo := by
        simpa using hg2
      have hdl : declared_header_len (0 :: 0 :: 0 :: 1 :: (bytes ++ hi :: lo :: payload)) = 10 := by
        simp [declared_header_len]
      rw [hdl]
      have hh : header_host env (0 :: 0 :: 0 :: 1 :: (bytes ++ hi :: lo :: payload)) =
          env.v4_to_string bytes := by
        simp [header_host, htake]
      rw [hh]
      simp only [show (10 : Nat) - 2 = 8 from rfl, show (8 : Nat) + 1 = 9 from rfl, e8, e9,
        shift_or_eq hi lo hhi hlo]
      simp
    · subst h1; subst h2
      have e20 : (0 :: 0 :: 0 :: 4 :: (bytes ++ hi :: lo :: payload)).getD 20 0 = hi := by
        simpa using hg1
      have e21 : (0 :: 0 :: 0 :: 4 :: (bytes ++ hi :: lo :: payload)).getD 21 0 = lo := by
        simpa using hg2
      have hdl : declared_header_len (0 :: 0 :: 0 :: 4 :: (bytes ++ hi :: lo :: payload)) = 22 := by
        simp [declared_header_len]
      rw [hdl]
      have hh : header_host env (0 :: 0 :: 0 :: 4 :: (bytes ++ hi :: lo :: payload)) =
          env.v6_to_string bytes := by
        simp [header_host, htake]
      rw [hh]
      simp only [show (22 : Nat) - 2 = 20 from rfl, show (20 : Nat) + 1 = 21 from rfl, e20, e21,
        shift_or_eq hi lo hhi hlo]
      simp
  · rw [payload_eq]
    rcases hat with ⟨_, h2⟩ | ⟨_, h2⟩ <;> subst h2 <;> simpa using hd

/-- C26: for every sender endpoint S with a 16-bit port and every payload
P, the datagram the target-side path builds (the header for S followed by
P) passes the header checks of the client-side path and parses to header
length 10 when S is IPv4 and 22 when S is IPv6, to the address of S (its
bytes, rendered as the host string), to the port of S, and to the
post-header payload P. -/
theorem C26_udp_header_round_trip (env : UdpEnv) (sender_ep : endpoint) (payload : List Nat)
    (hp : sender_ep.port < 65536) :
    (∀ a : address_v4, sender_ep.addr = .v4 a →
      udp_drop_rule (encapsulate sender_ep payload) = false ∧
      client_header env (encapsulate sender_ep payload) =
        some (10, env.v4_to_string a.to_bytes, sender_ep.port) ∧
      ((encapsulate sender_ep payload).drop 4).take 4 = a.to_bytes ∧
      ((encapsulate sender_ep payload).drop 10).take
        ((encapsulate sender_ep payload).length - 10) = payload) ∧
    (∀ a : address_v6, sender_ep.addr = .v6 a →
      udp_drop_rule (encapsulate sender_ep payload) = false ∧
      client_header env (encapsulate sender_ep payload) =
        some (22, env.v6_to_string a.to_bytes, sender_ep.port) ∧
      ((encapsulate sender_ep payload).drop 4).take 16 = a.to_bytes ∧
      ((encapsulate sender_ep payload).drop 22).take
        ((encapsulate sender_ep payload).length - 22) = payload) := by
  have hport : sender_ep.port / 256 % 256 * 256 + sender_ep.port % 256 = sender_ep.port := by
    omega
  have hhi : sender_ep.port / 256 % 256 < 256 := Nat.mod_lt _ (by decide)
  have hlo : sender_ep.port % 256 < 256 := Nat.mod_lt _ (by decide)
  constructor
  · intro a ha
    have he := encapsulate_eq sender_ep payload
    simp only [ha, address.is_v4, address.to_bytes, if_true] at he
    obtain ⟨h1, h2, h3⟩ := client_header_of_header env 1 4 a.to_bytes _ _ payload a.size
      (Or.inl ⟨rfl, rfl⟩) hhi hlo
    rw [he]
    refine ⟨h1, ?_, ?_, h3⟩
    · rw [h2, hport]; simp
    · simpa using List.take_left' a.size
  · intro a ha
    have he := encapsulate_eq sender_ep payload
    simp only [ha, address.is_v4, address.to_bytes, Bool.false_eq_true, if_false] at he
    obtain ⟨h1, h2, h3⟩ := client_header_of_header env 4 16 a.to_bytes _ _ payload a.size
      (Or.inr ⟨rfl, rfl⟩) hhi hlo
    rw [he]
    refine ⟨h1, ?_, ?_, h3⟩
    · rw [h2, hport]; simp
    · simpa using List.take_left' a.size

/-- Instances of C26: the senders 127.0.0.1:80 and [::1]:443 with the
payload 48 69. -/
theorem C26_udp_header_round_trip_witness :
    client_header udp_env_ok (encapsulate ⟨loopback_v4, 80⟩ [0x48, 0x69]) =
      some (10, udp_env_ok.v4_to_string [127, 0, 0, 1], 80) ∧
    client_header udp_env_ok (encapsulate ⟨loopback_v6, 443⟩ [0x48, 0x69]) =
      some (22, udp_env_ok.v6_to_string [0, 0, 0, 0, 0, 0, 0, 0, 0, 0, 0, 0, 0, 0, 0, 1], 443) :=
  ⟨((C26_udp_header_round_trip udp_env_ok ⟨loopback_v4, 80⟩ [0x48, 0x69] (by decide)).1
      ⟨[127, 0, 0, 1], rfl⟩ rfl).2.1,
   ((C26_udp_header_round_trip udp_env_ok ⟨loopback_v6, 443⟩ [0x48, 0x69] (by decide)).2
      ⟨[0, 0, 0, 0, 0, 0, 0, 0, 0, 0, 0, 0, 0, 0, 0, 1], rfl⟩ rfl).2.1⟩

/-- C27: for every received datagram of n bytes, every position the header
checks and the parse of the client-side path read is below n; and whenever
the parse succeeds with header length `header_len`, `header_len` is at most
n, so that the payload length n - header_len does not underflow, the two
port positions `header_len - 2` and `header_len - 1` are among the positions
read, and every position of the payload range lies from `header_len` up to
below n. -/
theorem C27_udp_parse_within_datagram (env : UdpEnv) (buffer : List Nat) :
    (∀ p ∈ client_header_reads buffer, p < buffer.length) ∧
    (∀ header_len host port, client_header env buffer = some (header_len, host, port) →
      header_len ≤ buffer.length ∧ 2 ≤ header_len ∧
      header_len - 2 ∈ client_header_reads buffer ∧
      header_len - 1 ∈ client_header_reads buffer ∧
      ∀ p ∈ payload_reads header_len buffer.length, header_len ≤ p ∧ p < buffer.length) := by
  constructor
  · unfold client_header_reads
    simp only [AddressType.IPV4, AddressType.IPV6, AddressType.DOMAIN_NAME]
    generalize buffer.getD 0 0 = b0
    generalize buffer.getD 1 0 = b1
    generalize buffer.getD 2 0 = b2
    generalize buffer.getD 3 0 = b3
    generalize buffer.getD 4 0 = b4
    intro p hp
    split at hp
    · simp at hp
    · rename_i hn
      split at hp
      · simp at hp; omega
      · split at hp
        · simp at hp; omega
        · split at hp
          · simp at hp; omega
          · split at hp
            · simp at hp
              omega
            · split at hp
              · split at hp
                · simp at hp; omega
                · simp at hp
                  omega
              · split at hp
                · split at hp
                  · simp at hp; omega
                  · simp at hp
                    omega
                · simp at hp; omega
  · intro header_len host port hparse
    rw [client_header_eq] at hparse
    have hd : udp_drop_rule buffer = false := by
      cases h : udp_drop_rule buffer
      · rfl
      · simp [h] at hparse
    simp only [hd, Bool.false_eq_true, if_false, Option.some.injEq, Prod.mk.injEq] at hparse
    obtain ⟨hh, _, _⟩ := hparse
    have h7 := declared_header_len_ge buffer
    have hle : declared_header_len buffer ≤ buffer.length := by
      simp only [udp_drop_rule, Bool.or_eq_false_iff, decide_eq_false_iff_not] at hd
      omega
    have hreads : declared_header_len buffer - 2 ∈ client_header_reads buffer ∧
        declared_header_len buffer - 1 ∈ client_header_reads buffer := by
      have hd2 := hd
      unfold udp_drop_rule at hd2
      unfold declared_header_len at hd2 hle ⊢
      unfold client_header_reads
      simp only [AddressType.IPV4, AddressType.IPV6, AddressType.DOMAIN_NAME]
      generalize buffer.getD 0 0 = b0 at hd2 ⊢
      generalize buffer.getD 1 0 = b1 at hd2 ⊢
      generalize buffer.getD 2 0 = b2 at hd2 ⊢
      generalize buffer.getD 3 0 = b3 at hd2 hle ⊢
      generalize buffer.getD 4 0 = b4 at hd2 hle ⊢
      simp only [Bool.or_eq_false_iff, decide_eq_false_iff_not, Bool.not_eq_false',
        Bool.or_eq_true, decide_eq_true_eq, not_not, not_lt] at hd2
      obtain ⟨⟨⟨⟨⟨hn, h0⟩, h1⟩, h2⟩, h3⟩, _⟩ := hd2
      have hn' : ¬ buffer.length < 10 := by omega
      by_cases h31 : b3 = 1
      · subst h31
        simp [hn', h0, h1, h2]
      · by_cases h34 : b3 = 4
        · subst h34
          simp only [show ¬ (4 : Nat) = 1 by decide, if_false, if_true] at hle
          have : ¬ buffer.length < 22 := by omega
          simp [hn', h0, h1, h2, this]
        · have h33 : b3 = 3 := by
            rcases h3 with (h | h) | h
            · exact absurd h h31
            · exact h
            · exact absurd h h34
          subst h33
          simp only [show ¬ (3 : Nat) = 1 by decide, show ¬ (3 : Nat) = 4 by decide,
            if_false] at hle
          have : ¬ buffer.length < 5 + b4 + 2 := by omega
          have e1 : 7 + b4 - 2 = 5 + b4 := by omega
          have e2 : 7 + b4 - 1 = 5 + b4 + 1 := by omega
          have e3 : 5 + b4 + 2 - 2 = 5 + b4 := by omega
          simp [hn', h0, h1, h2, this, e1, e2, e3]
    subst hh
    refine ⟨hle, by omega, hreads.1, hreads.2, ?_⟩
    intro p hp
    simp only [payload_reads, List.mem_map, List.mem_range] at hp
    obtain ⟨i, hi, rfl⟩ := hp
    omega

/-- The twelve-byte datagram `00 00 00 01 7F 00 00 01 00 50 48 69` parses
with header length 10; position 9, the low port byte, is read and is below
12, the header length is at most 12, and position 11 of the payload range
is below 12. -/
theorem C27_udp_parse_within_datagram_witness :
    9 < ([0, 0, 0, 1, 127, 0, 0, 1, 0, 80, 0x48, 0x69] : List Nat).length ∧
    10 ≤ ([0, 0, 0, 1, 127, 0, 0, 1, 0, 80, 0x48, 0x69] : List Nat).length ∧
    10 - 2 ∈ client_header_reads [0, 0, 0, 1, 127, 0, 0, 1, 0, 80, 0x48, 0x69] ∧
    11 < ([0, 0, 0, 1, 127, 0, 0, 1, 0, 80, 0x48, 0x69] : List Nat).length :=
  ⟨(C27_udp_parse_within_datagram udp_env_ok
      [0, 0, 0, 1, 127, 0, 0, 1, 0, 80, 0x48, 0x69]).1 9 (by decide),
   ((C27_udp_parse_within_datagram udp_env_ok
      [0, 0, 0, 1, 127, 0, 0, 1, 0, 80, 0x48, 0x69]).2 10
        (udp_env_ok.v4_to_string [127, 0, 0, 1]) 80 (by decide)).1,
   ((C27_udp_parse_within_datagram udp_env_ok
      [0, 0, 0, 1, 127, 0, 0, 1, 0, 80, 0x48, 0x69]).2 10
        (udp_env_ok.v4_to_string [127, 0, 0, 1]) 80 (by decide)).2.2.1,
   (((C27_udp_parse_within_datagram udp_env_ok
      [0, 0, 0, 1, 127, 0, 0, 1, 0, 80, 0x48, 0x69]).2 10
        (udp_env_ok.v4_to_string [127, 0, 0, 1]) 80 (by decide)).2.2.2.2 11 (by decide)).2⟩

end socks5
